import Mathlib

/-!
# TelecomBase client: the typed REST client `ApiClient`

A shallow embedding of `src/client/src/apiClient.cpp` (with the data types of
`src/client/include/models.h` and `src/client/include/apiClient.h`), of the
part of `src/client/src/mainWindow.cpp` that builds and loads the main window
and handles its add and edit actions, of the logout handler of
`src/client/src/main.cpp`, of `src/client/src/deviceDialog.cpp`, of the
register slot of `src/client/src/authDialog.cpp`, of the editors and the add
and edit slots of `src/client/src/vendorsDialog.cpp` and
`src/client/src/locationsDialog.cpp`, and of the theme names of
`src/client/src/themeManager.cpp`.

* `QString` is `String`; `qint64` is `Int`, and a conversion that ends in a
  `qint64` stays within its range.
* A JSON number is carried by its value, a rational; a `double` is carried by
  its value too. Qt reads a JSON number as an IEEE 754 `double`, so
  `toDouble()` rounds to the nearest `double`, `static_cast<qint64>` truncates
  toward zero and `static_cast<double>` of a `qint64` rounds again: integers
  are exact up to 2^53 in magnitude and no further.
* A reference parameter (`QString& outError`, `QList<T>& out`) is an argument
  (its content before the call) and a field of the result (its content after).
  The client object itself is threaded the same way: every member returns the
  object after the call.
* The network is an explicit state `Network`: a log of the requests issued so
  far and a function that decides what happens to the next request.
* A modal dialog run (`exec()`) is a parameter of the handler that opens it:
  what the user does is not computed.
* The blocking wait (`QEventLoop` + single-shot `QTimer` of 7000 ms) has two
  outcomes: the reply finished first, or the timer fired first. In the second
  case the timer's handler runs: it stores `"timeout"` and calls
  `reply->abort()`.
-/

namespace TelecomBase

/-! ## Numbers and strings of Qt -/

/-- The least value of `qint64`. -/
def qint64Min : Int := -9223372036854775808

/-- The greatest value of `qint64`. -/
def qint64Max : Int := 9223372036854775807

/-- The integer nearest to `q`; half way between two integers, the even one. -/
def roundHalfEven (q : ℚ) : Int :=
  let f := ⌊q⌋
  let r := q - f
  if r < 1 / 2 then f
  else if 1 / 2 < r then f + 1
  else if f % 2 = 0 then f else f + 1

/-- The value of the IEEE 754 binary64 number nearest to `q` (ties to even):
53 binary digits from the leading one, and no digit below 2^-1074. An integer
of magnitude up to 2^53 is such a number. The upper end of the format, where
a number from 2^1024 on has no finite `double`, is left out: a `qint64` is far
below it. -/
def nearestDouble (q : ℚ) : ℚ :=
  if q.den = 1 ∧ q.num.natAbs ≤ 9007199254740992 then q
  else
    let e := max (Int.log 2 |q| - 52) (-1074)
    (roundHalfEven (q / (2 : ℚ) ^ e) : ℚ) * (2 : ℚ) ^ e

/-- The cast `static_cast<double>(n)` of a `qint64`. -/
def doubleOfQint64 (n : Int) : ℚ := nearestDouble n

/-- The quotient of `num` by `den` cut toward zero, as a `qint64`. Outside the
range of `qint64` the cast has no defined value in C++; the model takes the
one the x86-64 conversion gives, the least `qint64`. -/
def truncated (num : Int) (den : Nat) : Int :=
  let t := Int.tdiv num den
  if qint64Min ≤ t ∧ t ≤ qint64Max then t else qint64Min

/-- The cast `static_cast<qint64>(d)` of a `double`: the fraction is dropped. -/
def qint64OfDouble (d : ℚ) : Int := truncated d.num d.den

/-- The function `qRound64(d)` of Qt, which `QVariant` uses to read a `double`
as a `qlonglong`: `qint64(d + 0.5)` from 0 up and `qint64(d - 0.5)` below 0,
the nearest integer with a half going away from zero. For `d = num / den`
the two sums are `(2 num + den) / (2 den)` and `(2 num - den) / (2 den)`. -/
def qRound64 (d : ℚ) : Int :=
  if 0 ≤ d.num then truncated (2 * d.num + d.den) (2 * d.den)
  else truncated (2 * d.num - d.den) (2 * d.den)

/-- The test `QChar::isSpace()`: the ASCII white space, U+0085, U+00A0 and the
Unicode space, line and paragraph separators. -/
def isSpace (ch : Char) : Bool :=
  let n := ch.toNat
  n == 0x20 || (0x09 ≤ n && n ≤ 0x0d) || n == 0x85 || n == 0xa0 || n == 0x1680
    || (0x2000 ≤ n && n ≤ 0x200a) || n == 0x2028 || n == 0x2029 || n == 0x202f
    || n == 0x205f || n == 0x3000

/-- The member `QString::trimmed()`: white space removed from both ends. -/
def trimmed (s : String) : String :=
  String.mk (((s.toList.dropWhile isSpace).reverse.dropWhile isSpace).reverse)

/-- The value of a run of decimal digits, none when another character occurs. -/
def digitsValue : List Char → Nat → Option Nat
  | [], acc => some acc
  | ch :: rest, acc =>
    if ch.isDigit then digitsValue rest (acc * 10 + (ch.toNat - 48)) else none

/-- The member `QString::toLongLong()` in base 10: white space at both ends is
skipped, then an optional sign and decimal digits are read; the result is 0
when the text is not of that form or the number is not a `qint64`. -/
def toLongLong (s : String) : Int :=
  let v : Int :=
    match (trimmed s).toList with
    | '-' :: ds => - ((digitsValue ds 0).getD 0 : Nat)
    | '+' :: ds => ((digitsValue ds 0).getD 0 : Nat)
    | ds => ((digitsValue ds 0).getD 0 : Nat)
  if qint64Min ≤ v ∧ v ≤ qint64Max then v else 0

/-! ## Qt JSON values -/

/-- The value type `QJsonValue`; a number is carried by its value. -/
inductive QJsonValue where
  | null
  | bool (b : Bool)
  | double (q : ℚ)
  | string (s : String)
  | array (items : List QJsonValue)
  | object (members : List (String × QJsonValue))
  | undefined

/-- The array type `QJsonArray`. -/
abbrev QJsonArray := List QJsonValue

/-- The object type `QJsonObject`, as its list of members. -/
abbrev QJsonObject := List (String × QJsonValue)

/-- The member lookup `QJsonObject::value(key)`: `Undefined` when the key is absent. -/
def QJsonObject.value : QJsonObject → String → QJsonValue
  | [], _ => QJsonValue.undefined
  | (k, v) :: rest, key => if k = key then v else QJsonObject.value rest key

/-- The membership test `QJsonObject::contains(key)`. -/
def QJsonObject.contains : QJsonObject → String → Bool
  | [], _ => false
  | (k, _) :: rest, key => if k = key then true else QJsonObject.contains rest key

/-- The assignment `obj[key] = v`: replaces the member or adds it. -/
def QJsonObject.insert : QJsonObject → String → QJsonValue → QJsonObject
  | [], key, v => [(key, v)]
  | (k, x) :: rest, key, v =>
    if k = key then (k, v) :: rest else (k, x) :: QJsonObject.insert rest key v

/-- The test `QJsonValue::isObject()`. -/
def QJsonValue.isObject : QJsonValue → Bool
  | .object _ => true
  | _ => false

/-- The test `QJsonValue::isNull()`. -/
def QJsonValue.isNull : QJsonValue → Bool
  | .null => true
  | _ => false

/-- The conversion `QJsonValue::toObject()`: the empty object for a non-object. -/
def QJsonValue.toObject : QJsonValue → QJsonObject
  | .object o => o
  | _ => []

/-- The conversion `QJsonValue::toString(defaultValue)`. -/
def QJsonValue.toString : QJsonValue → String → String
  | .string s, _ => s
  | _, defaultValue => defaultValue

/-- The conversion `QJsonValue::toDouble()` (default 0): the `double` nearest
to the number. -/
def QJsonValue.toDouble : QJsonValue → ℚ
  | .double q => nearestDouble q
  | _ => 0

/-- The constructor `QJsonValue(qint64)`, which Qt documents as making a value
of type Double that loses precision beyond 2^53. A Qt release that stores the
64-bit integer itself gives the same value up to 2^53 in magnitude. -/
def QJsonValue.ofLongLong (n : Int) : QJsonValue := .double (doubleOfQint64 n)

/-- The conversion `QJsonValue::toBool(defaultValue)`. -/
def QJsonValue.toBool : QJsonValue → Bool → Bool
  | .bool b, _ => b
  | _, defaultValue => defaultValue

/-- The result of `QJsonDocument::fromJson(bytes)`: a null document when the
bytes are empty or not valid JSON, otherwise an array or an object. -/
inductive QJsonDocument where
  | null
  | array (a : QJsonArray)
  | object (o : QJsonObject)

/-- The test `QJsonDocument::isObject()`. -/
def QJsonDocument.isObject : QJsonDocument → Bool
  | .object _ => true
  | _ => false

/-- The test `QJsonDocument::isArray()`. -/
def QJsonDocument.isArray : QJsonDocument → Bool
  | .array _ => true
  | _ => false

/-- The accessor `QJsonDocument::object()`: empty for a non-object document. -/
def QJsonDocument.toObject : QJsonDocument → QJsonObject
  | .object o => o
  | _ => []

/-- The accessor `QJsonDocument::array()`: empty for a non-array document. -/
def QJsonDocument.toArray : QJsonDocument → QJsonArray
  | .array a => a
  | _ => []

/-! ## QVariant -/

/-- The variants `ApiClient` meets: `QVariant()`, a null variant, and the
values `QJsonValue::toVariant()` and `QVariant::fromValue<qlonglong>` make. -/
inductive QVariant where
  | invalid
  | null
  | bool (b : Bool)
  | longLong (n : Int)
  | double (d : ℚ)
  | string (s : String)
  | list (items : QJsonArray)
  | map (members : QJsonObject)

/-- The test `QVariant::isValid()`. -/
def QVariant.isValid : QVariant → Bool
  | .invalid => false
  | _ => true

/-- The test `QVariant::isNull()`. -/
def QVariant.isNull : QVariant → Bool
  | .invalid => true
  | .null => true
  | _ => false

/-- The conversion `QVariant::toLongLong()`: a `double` is rounded with
`qRound64`, a string is read with `QString::toLongLong()`, anything without an
integer reading is 0. -/
def QVariant.toLongLong : QVariant → Int
  | .longLong n => n
  | .double d => qRound64 d
  | .bool b => if b then 1 else 0
  | .string s => TelecomBase.toLongLong s
  | _ => 0

/-- The conversion `QJsonValue::toVariant()`; a number becomes a variant that
holds a `double`. A Qt release that hands out a `qlonglong` for an integral
number gives the same `toLongLong()` up to 2^53 in magnitude. -/
def QJsonValue.toVariant : QJsonValue → QVariant
  | .null => QVariant.null
  | .bool b => QVariant.bool b
  | .double q => QVariant.double (nearestDouble q)
  | .string s => QVariant.string s
  | .array a => QVariant.list a
  | .object o => QVariant.map o
  | .undefined => QVariant.invalid

/-! ## Data types of `models.h` -/

/-- The struct `VendorItem`. -/
structure VendorItem where
  id : Int
  name : String
  country : String
  deriving DecidableEq, Repr

/-- The struct `ModelItem`. -/
structure ModelItem where
  id : Int
  vendorId : Int
  vendorName : String
  name : String
  deviceType : String
  deriving DecidableEq, Repr

/-- The struct `LocationItem`. -/
structure LocationItem where
  id : Int
  name : String
  note : String
  deriving DecidableEq, Repr

/-- The struct `DeviceItem`. -/
structure DeviceItem where
  id : Int
  vendorName : String
  modelName : String
  locationName : String
  serialNumber : String
  inventoryNumber : String
  status : String
  installedAt : String
  deriving DecidableEq, Repr

/-- The struct `DeviceDetails`. -/
structure DeviceDetails where
  id : Int
  modelId : Int
  locationId : QVariant
  serialNumber : String
  inventoryNumber : String
  status : String
  installedAt : String
  description : String

/-- The struct `UserItem`. -/
structure UserItem where
  id : Int
  username : String
  role : String
  approved : Bool
  createdAt : String
  deriving DecidableEq, Repr

/-! ## Requests, replies and the network -/

/-- A `QNetworkRequest`: target URL and headers. -/
structure QNetworkRequest where
  url : String
  headers : List (String × String)
  deriving DecidableEq, Repr

/-- The call `request.setRawHeader(name, value)`. -/
def QNetworkRequest.setRawHeader (r : QNetworkRequest) (name value : String) : QNetworkRequest :=
  { r with headers := r.headers ++ [(name, value)] }

/-- One request handed to the `QNetworkAccessManager`: the HTTP verb, the
request and the JSON object sent as body (none for GET and DELETE). -/
structure Sent where
  verb : String
  request : QNetworkRequest
  body : Option QJsonObject

/-- The code `QNetworkReply::NoError`. -/
def NoError : Nat := 0

/-- The code `QNetworkReply::OperationCanceledError`. -/
def OperationCanceledError : Nat := 5

/-- What the code reads from a `QNetworkReply` once the wait is over:
`error()`, `errorString()`, the HTTP status attribute read with `toInt()`,
and `QJsonDocument::fromJson(readAll())`. -/
structure QNetworkReply where
  error : Nat
  errorString : String
  httpStatus : Int
  document : QJsonDocument

/-- The call `reply->abort()` on an unfinished reply: the error becomes
`OperationCanceledError` and the device is closed, so `readAll()` is empty. -/
def QNetworkReply.abort (r : QNetworkReply) : QNetworkReply :=
  { r with error := OperationCanceledError
           errorString := "Operation canceled"
           document := QJsonDocument.null }

/-- The outcome of the blocking wait. `timerFired = false`: the reply finished
within 7000 ms and `reply` is the finished reply. `timerFired = true`: the
single-shot timer fired first and `reply` is the reply still in flight. -/
structure Exchange where
  timerFired : Bool
  reply : QNetworkReply

/-- The reply as the code reads it after `loop.exec()`: aborted when the timer fired. -/
def Exchange.observed (x : Exchange) : QNetworkReply :=
  if x.timerFired then x.reply.abort else x.reply

/-- The network: the requests issued so far and the outcome of the next one. -/
structure Network where
  respond : List Sent → Sent → Exchange
  sent : List Sent

/-- Issue one request (`manager.get/post/put/deleteResource`) and wait. -/
def Network.send (net : Network) (s : Sent) : Exchange × Network :=
  (net.respond net.sent s, { net with sent := net.sent ++ [s] })

/-! ## The client -/

/-- The class `ApiClient`: its two fields. -/
structure ApiClient where
  baseUrl_ : String
  token_ : String
  deriving DecidableEq, Repr

/-- The struct `ApiClient::AuthResult` with its default member values. -/
structure AuthResult where
  ok : Bool
  token : String
  username : String
  role : String
  error : String
  httpStatus : Int
  deriving DecidableEq, Repr

/-- A default-constructed `AuthResult`. -/
def AuthResult.default : AuthResult :=
  { ok := false, token := "", username := "", role := "", error := "", httpStatus := 0 }

/-- The result of a `bool f(..., T& out, QString& outError)` member: the
returned flag, both reference parameters after the call, the network, and
the client object (`*this`) after the call. -/
structure Outcome (α : Type) where
  ret : Bool
  out : α
  outError : String
  net : Network
  self : ApiClient

/-- The result of `login`, `registerUser` and `postAuth`: the returned
`AuthResult`, the network, and the client object (`*this`) after the call. -/
structure AuthOutcome where
  result : AuthResult
  net : Network
  self : ApiClient

/-- The result of a `bool f(..., QString& outError)` member: no output value. -/
abbrev Status := Outcome Unit

/-- The request every helper builds: URL `baseUrl_ + path`, the JSON content
type, and the bearer header when the token is not empty. -/
def ApiClient.makeRequest (c : ApiClient) (path : String) : QNetworkRequest :=
  let request : QNetworkRequest :=
    { url := c.baseUrl_ ++ path, headers := [("Content-Type", "application/json")] }
  if c.token_ ≠ "" then request.setRawHeader "Authorization" ("Bearer " ++ c.token_)
  else request

/-- The member `ApiClient::postAuth`. -/
def ApiClient.postAuth (c : ApiClient) (net : Network) (path username password : String) :
    AuthOutcome :=
  let result := AuthResult.default
  let request : QNetworkRequest :=
    { url := c.baseUrl_ ++ path, headers := [("Content-Type", "application/json")] }
  let body : QJsonObject := (QJsonObject.insert [] "username" (.string username)).insert
    "password" (.string password)
  let (x, net) := net.send { verb := "POST", request := request, body := some body }
  let result := if x.timerFired then { result with ok := false, error := "timeout" } else result
  let reply := x.observed
  let result := { result with httpStatus := reply.httpStatus }
  let responseDoc := reply.document
  if reply.error ≠ NoError then
    let result :=
      if responseDoc.isObject then
        let obj := responseDoc.toObject
        { result with error := (obj.value "error").toString reply.errorString }
      else if result.error = "" then
        { result with error := reply.errorString }
      else result
    { result := result, net := net, self := c }
  else if !responseDoc.isObject then
    let result := { result with ok := false, error := "invalid_response" }
    { result := result, net := net, self := c }
  else
    let obj := responseDoc.toObject
    let result :=
      if obj.contains "token" then
        { result with ok := true
                      token := (obj.value "token").toString ""
                      username := (obj.value "username").toString ""
                      role := (obj.value "role").toString "" }
      else
        { result with ok := false, error := (obj.value "error").toString "unknown_error" }
    { result := result, net := net, self := c }

/-- The member `ApiClient::registerUser`. -/
def ApiClient.registerUser (c : ApiClient) (net : Network) (username password : String) :
    AuthOutcome :=
  c.postAuth net "/auth/register" username password

/-- The member `ApiClient::login`. -/
def ApiClient.login (c : ApiClient) (net : Network) (username password : String) :
    AuthOutcome :=
  c.postAuth net "/auth/login" username password

/-- The member `ApiClient::getJsonArray`. -/
def ApiClient.getJsonArray (c : ApiClient) (net : Network) (path : String)
    (outArray : QJsonArray) (outError : String) : Outcome QJsonArray :=
  let request := c.makeRequest path
  let (x, net) := net.send { verb := "GET", request := request, body := none }
  let outError := if x.timerFired then "timeout" else outError
  let reply := x.observed
  let doc := reply.document
  if reply.error ≠ NoError then
    let outError := if outError = "" then reply.errorString else outError
    { ret := false, out := outArray, outError := outError, net := net, self := c }
  else if !doc.isArray then
    { ret := false, out := outArray, outError := "invalid_response", net := net, self := c }
  else
    { ret := true, out := doc.toArray, outError := outError, net := net, self := c }

/-- The member `ApiClient::getJsonObject`. -/
def ApiClient.getJsonObject (c : ApiClient) (net : Network) (path : String)
    (outObject : QJsonObject) (outError : String) : Outcome QJsonObject :=
  let request := c.makeRequest path
  let (x, net) := net.send { verb := "GET", request := request, body := none }
  let outError := if x.timerFired then "timeout" else outError
  let reply := x.observed
  let doc := reply.document
  if reply.error ≠ NoError then
    let outError :=
      if doc.isObject then (doc.toObject.value "error").toString reply.errorString
      else reply.errorString
    { ret := false, out := outObject, outError := outError, net := net, self := c }
  else if !doc.isObject then
    { ret := false, out := outObject, outError := "invalid_response", net := net, self := c }
  else
    { ret := true, out := doc.toObject, outError := outError, net := net, self := c }

/-- The member `ApiClient::postJsonObject`. -/
def ApiClient.postJsonObject (c : ApiClient) (net : Network) (path : String) (body : QJsonObject)
    (outObject : QJsonObject) (outError : String) : Outcome QJsonObject :=
  let request := c.makeRequest path
  let (x, net) := net.send { verb := "POST", request := request, body := some body }
  let outError := if x.timerFired then "timeout" else outError
  let reply := x.observed
  let doc := reply.document
  if reply.error ≠ NoError then
    let outError :=
      if doc.isObject then (doc.toObject.value "error").toString reply.errorString
      else reply.errorString
    { ret := false, out := outObject, outError := outError, net := net, self := c }
  else if !doc.isObject then
    { ret := false, out := outObject, outError := "invalid_response", net := net, self := c }
  else
    { ret := true, out := doc.toObject, outError := outError, net := net, self := c }

/-- The member `ApiClient::putJsonObject`. -/
def ApiClient.putJsonObject (c : ApiClient) (net : Network) (path : String) (body : QJsonObject)
    (outObject : QJsonObject) (outError : String) : Outcome QJsonObject :=
  let request := c.makeRequest path
  let (x, net) := net.send { verb := "PUT", request := request, body := some body }
  let outError := if x.timerFired then "timeout" else outError
  let reply := x.observed
  let doc := reply.document
  if reply.error ≠ NoError then
    let outError :=
      if doc.isObject then (doc.toObject.value "error").toString reply.errorString
      else reply.errorString
    { ret := false, out := outObject, outError := outError, net := net, self := c }
  else if !doc.isObject then
    { ret := false, out := outObject, outError := "invalid_response", net := net, self := c }
  else
    { ret := true, out := doc.toObject, outError := outError, net := net, self := c }

/-- The member `ApiClient::deleteRequest`. -/
def ApiClient.deleteRequest (c : ApiClient) (net : Network) (path : String)
    (outObject : QJsonObject) (outError : String) : Outcome QJsonObject :=
  let request := c.makeRequest path
  let (x, net) := net.send { verb := "DELETE", request := request, body := none }
  let outError := if x.timerFired then "timeout" else outError
  let reply := x.observed
  let doc := reply.document
  if reply.error ≠ NoError then
    let outError :=
      if doc.isObject then (doc.toObject.value "error").toString reply.errorString
      else reply.errorString
    { ret := false, out := outObject, outError := outError, net := net, self := c }
  else
    let outObject := if doc.isObject then doc.toObject else outObject
    { ret := true, out := outObject, outError := outError, net := net, self := c }

/-! ## Resource members -/

/-- The path `QString(pattern).arg(id)` with the id in decimal at the end. -/
def idPath (stem : String) (id : Int) : String := stem ++ toString id

/-- The item the loop of `listVendors` fills from the object `o`. -/
def VendorItem.fromJson (o : QJsonObject) : VendorItem :=
  { id := qint64OfDouble ((o.value "id").toDouble)
    name := (o.value "name").toString ""
    country := (o.value "country").toString "" }

/-- One turn of the loop in `listVendors`: skip a non-object, else decode and `push_back`. -/
def listVendorsStep (outVendors : List VendorItem) (v : QJsonValue) : List VendorItem :=
  if !v.isObject then outVendors
  else
    let o := v.toObject
    let item := VendorItem.fromJson o
    outVendors ++ [item]

/-- The member `ApiClient::listVendors`. -/
def ApiClient.listVendors (c : ApiClient) (net : Network) (outVendors : List VendorItem)
    (outError : String) : Outcome (List VendorItem) :=
  let r := c.getJsonArray net "/vendors" [] outError
  if !r.ret then
    { ret := false, out := outVendors, outError := r.outError, net := r.net, self := r.self }
  else
    let arr := r.out
    { ret := true, out := arr.foldl listVendorsStep [], outError := r.outError, net := r.net, self := r.self }

/-- The member `ApiClient::createVendor`. -/
def ApiClient.createVendor (c : ApiClient) (net : Network) (name country : String)
    (outError : String) : Status :=
  let body : QJsonObject := (QJsonObject.insert [] "name" (.string name)).insert
    "country" (.string country)
  let r := c.postJsonObject net "/vendors" body [] outError
  { ret := r.ret, out := (), outError := r.outError, net := r.net, self := r.self }

/-- The member `ApiClient::updateVendor`. -/
def ApiClient.updateVendor (c : ApiClient) (net : Network) (id : Int) (name country : String)
    (outError : String) : Status :=
  let body : QJsonObject := (QJsonObject.insert [] "name" (.string name)).insert
    "country" (.string country)
  let r := c.putJsonObject net (idPath "/vendors/" id) body [] outError
  { ret := r.ret, out := (), outError := r.outError, net := r.net, self := r.self }

/-- The member `ApiClient::deleteVendor`. -/
def ApiClient.deleteVendor (c : ApiClient) (net : Network) (id : Int) (outError : String) :
    Status :=
  let r := c.deleteRequest net (idPath "/vendors/" id) [] outError
  { ret := r.ret, out := (), outError := r.outError, net := r.net, self := r.self }

/-- The item the loop of `listModels` fills from the object `o`. -/
def ModelItem.fromJson (o : QJsonObject) : ModelItem :=
  { id := qint64OfDouble ((o.value "id").toDouble)
    vendorId := qint64OfDouble ((o.value "vendorId").toDouble)
    vendorName := (o.value "vendorName").toString ""
    name := (o.value "name").toString ""
    deviceType := (o.value "deviceType").toString "" }

/-- One turn of the loop in `listModels`. -/
def listModelsStep (outModels : List ModelItem) (v : QJsonValue) : List ModelItem :=
  if !v.isObject then outModels
  else
    let o := v.toObject
    let item := ModelItem.fromJson o
    outModels ++ [item]

/-- The member `ApiClient::listModels`. -/
def ApiClient.listModels (c : ApiClient) (net : Network) (outModels : List ModelItem)
    (outError : String) : Outcome (List ModelItem) :=
  let r := c.getJsonArray net "/models" [] outError
  if !r.ret then
    { ret := false, out := outModels, outError := r.outError, net := r.net, self := r.self }
  else
    let arr := r.out
    { ret := true, out := arr.foldl listModelsStep [], outError := r.outError, net := r.net, self := r.self }

/-- The member `ApiClient::createModel`. -/
def ApiClient.createModel (c : ApiClient) (net : Network) (vendorId : Int)
    (name deviceType : String) (outError : String) : Status :=
  let body : QJsonObject :=
    ((QJsonObject.insert [] "vendorId" (.double (doubleOfQint64 vendorId))).insert
      "name" (.string name)).insert "deviceType" (.string deviceType)
  let r := c.postJsonObject net "/models" body [] outError
  { ret := r.ret, out := (), outError := r.outError, net := r.net, self := r.self }

/-- The member `ApiClient::updateModel`. -/
def ApiClient.updateModel (c : ApiClient) (net : Network) (id vendorId : Int)
    (name deviceType : String) (outError : String) : Status :=
  let body : QJsonObject :=
    ((QJsonObject.insert [] "vendorId" (.double (doubleOfQint64 vendorId))).insert
      "name" (.string name)).insert "deviceType" (.string deviceType)
  let r := c.putJsonObject net (idPath "/models/" id) body [] outError
  { ret := r.ret, out := (), outError := r.outError, net := r.net, self := r.self }

/-- The member `ApiClient::deleteModel`. -/
def ApiClient.deleteModel (c : ApiClient) (net : Network) (id : Int) (outError : String) :
    Status :=
  let r := c.deleteRequest net (idPath "/models/" id) [] outError
  { ret := r.ret, out := (), outError := r.outError, net := r.net, self := r.self }

/-- The item the loop of `listLocations` fills from the object `o`. -/
def LocationItem.fromJson (o : QJsonObject) : LocationItem :=
  { id := qint64OfDouble ((o.value "id").toDouble)
    name := (o.value "name").toString ""
    note := (o.value "note").toString "" }

/-- One turn of the loop in `listLocations`. -/
def listLocationsStep (outLocations : List LocationItem) (v : QJsonValue) : List LocationItem :=
  if !v.isObject then outLocations
  else
    let o := v.toObject
    let item := LocationItem.fromJson o
    outLocations ++ [item]

/-- The member `ApiClient::listLocations`. -/
def ApiClient.listLocations (c : ApiClient) (net : Network) (outLocations : List LocationItem)
    (outError : String) : Outcome (List LocationItem) :=
  let r := c.getJsonArray net "/locations" [] outError
  if !r.ret then
    { ret := false, out := outLocations, outError := r.outError, net := r.net, self := r.self }
  else
    let arr := r.out
    { ret := true, out := arr.foldl listLocationsStep [], outError := r.outError, net := r.net, self := r.self }

/-- The member `ApiClient::createLocation`. -/
def ApiClient.createLocation (c : ApiClient) (net : Network) (name note : String)
    (outError : String) : Status :=
  let body : QJsonObject := (QJsonObject.insert [] "name" (.string name)).insert
    "note" (.string note)
  let r := c.postJsonObject net "/locations" body [] outError
  { ret := r.ret, out := (), outError := r.outError, net := r.net, self := r.self }

/-- The member `ApiClient::updateLocation`. -/
def ApiClient.updateLocation (c : ApiClient) (net : Network) (id : Int) (name note : String)
    (outError : String) : Status :=
  let body : QJsonObject := (QJsonObject.insert [] "name" (.string name)).insert
    "note" (.string note)
  let r := c.putJsonObject net (idPath "/locations/" id) body [] outError
  { ret := r.ret, out := (), outError := r.outError, net := r.net, self := r.self }

/-- The member `ApiClient::deleteLocation`. -/
def ApiClient.deleteLocation (c : ApiClient) (net : Network) (id : Int) (outError : String) :
    Status :=
  let r := c.deleteRequest net (idPath "/locations/" id) [] outError
  { ret := r.ret, out := (), outError := r.outError, net := r.net, self := r.self }

/-- The characters of a URL after its scheme separator, when it has one. -/
def afterScheme : List Char → Option (List Char)
  | [] => none
  | ch :: rest =>
    match ch, rest with
    | ':', '/' :: '/' :: tail => some tail
    | _, _ => afterScheme rest

/-- The accessor `QUrl::path()` of the URL built from a string: what follows
the authority, up to the query or the fragment. Percent escapes are left as
they are. -/
def urlPath (url : String) : String :=
  let cs := url.toList
  let hier := match afterScheme cs with
    | some tail => tail.dropWhile (fun ch => ch != '/' && ch != '?' && ch != '#')
    | none => cs
  String.mk (hier.takeWhile (fun ch => ch != '?' && ch != '#'))

/-- The item the loop of `listDevices` fills from the object `o`. -/
def DeviceItem.fromJson (o : QJsonObject) : DeviceItem :=
  { id := qint64OfDouble ((o.value "id").toDouble)
    vendorName := (o.value "vendorName").toString ""
    modelName := (o.value "modelName").toString ""
    locationName := (o.value "locationName").toString ""
    serialNumber := (o.value "serialNumber").toString ""
    inventoryNumber := (o.value "inventoryNumber").toString ""
    status := (o.value "status").toString ""
    installedAt := (o.value "installedAt").toString "" }

/-- One turn of the loop in `listDevices`. -/
def listDevicesStep (outDevices : List DeviceItem) (v : QJsonValue) : List DeviceItem :=
  if !v.isObject then outDevices
  else
    let o := v.toObject
    let item := DeviceItem.fromJson o
    outDevices ++ [item]

/-- The member `ApiClient::listDevices`. The query string `url.query()` of the
single item `q` is `"q="` followed by the value as `QUrlQuery` encodes it;
that encoding is the parameter `encode`. -/
def ApiClient.listDevices (encode : String → String) (c : ApiClient) (net : Network)
    (query : String) (outDevices : List DeviceItem) (outError : String) :
    Outcome (List DeviceItem) :=
  let url := c.baseUrl_ ++ "/devices"
  let q := "q=" ++ encode query
  let r := c.getJsonArray net (urlPath url ++ "?" ++ q) [] outError
  if !r.ret then
    { ret := false, out := outDevices, outError := r.outError, net := r.net, self := r.self }
  else
    let arr := r.out
    { ret := true, out := arr.foldl listDevicesStep [], outError := r.outError, net := r.net, self := r.self }

/-- A value-initialised `DeviceDetails`. -/
def DeviceDetails.default : DeviceDetails :=
  { id := 0, modelId := 0, locationId := QVariant.invalid, serialNumber := ""
    inventoryNumber := "", status := "", installedAt := "", description := "" }

/-- The member `ApiClient::getDevice`. -/
def ApiClient.getDevice (c : ApiClient) (net : Network) (id : Int) (outDevice : DeviceDetails)
    (outError : String) : Outcome DeviceDetails :=
  let r := c.getJsonObject net (idPath "/devices/" id) [] outError
  if !r.ret then
    { ret := false, out := outDevice, outError := r.outError, net := r.net, self := r.self }
  else
    let obj := r.out
    let outDevice := DeviceDetails.default
    let outDevice := { outDevice with id := qint64OfDouble ((obj.value "id").toDouble) }
    let outDevice :=
      { outDevice with modelId := qint64OfDouble ((obj.value "modelId").toDouble) }
    let outDevice :=
      if obj.contains "locationId" && !(obj.value "locationId").isNull then
        { outDevice with locationId := (obj.value "locationId").toVariant }
      else
        { outDevice with locationId := QVariant.invalid }
    let outDevice := { outDevice with serialNumber := (obj.value "serialNumber").toString "" }
    let outDevice := { outDevice with inventoryNumber := (obj.value "inventoryNumber").toString "" }
    let outDevice := { outDevice with status := (obj.value "status").toString "" }
    let outDevice := { outDevice with installedAt := (obj.value "installedAt").toString "" }
    let outDevice := { outDevice with description := (obj.value "description").toString "" }
    { ret := true, out := outDevice, outError := r.outError, net := r.net, self := r.self }

/-- The member `ApiClient::createDevice`. -/
def ApiClient.createDevice (c : ApiClient) (net : Network) (modelId : Int)
    (locationId : QVariant) (serialNumber inventoryNumber status installedAt description : String)
    (outError : String) : Status :=
  let body : QJsonObject := []
  let body := body.insert "modelId" (.double (doubleOfQint64 modelId))
  let body :=
    if locationId.isValid && !locationId.isNull then
      body.insert "locationId" (QJsonValue.ofLongLong locationId.toLongLong)
    else body
  let body := body.insert "serialNumber" (.string serialNumber)
  let body := body.insert "inventoryNumber" (.string inventoryNumber)
  let body := body.insert "status" (.string status)
  let body := body.insert "installedAt" (.string installedAt)
  let body := body.insert "description" (.string description)
  let r := c.postJsonObject net "/devices" body [] outError
  { ret := r.ret, out := (), outError := r.outError, net := r.net, self := r.self }

/-- The member `ApiClient::updateDevice`. -/
def ApiClient.updateDevice (c : ApiClient) (net : Network) (id modelId : Int)
    (locationId : QVariant) (serialNumber inventoryNumber status installedAt description : String)
    (outError : String) : Status :=
  let body : QJsonObject := []
  let body := body.insert "modelId" (.double (doubleOfQint64 modelId))
  let body :=
    if locationId.isValid && !locationId.isNull then
      body.insert "locationId" (QJsonValue.ofLongLong locationId.toLongLong)
    else body
  let body := body.insert "serialNumber" (.string serialNumber)
  let body := body.insert "inventoryNumber" (.string inventoryNumber)
  let body := body.insert "status" (.string status)
  let body := body.insert "installedAt" (.string installedAt)
  let body := body.insert "description" (.string description)
  let r := c.putJsonObject net (idPath "/devices/" id) body [] outError
  { ret := r.ret, out := (), outError := r.outError, net := r.net, self := r.self }

/-- The member `ApiClient::deleteDevice`. -/
def ApiClient.deleteDevice (c : ApiClient) (net : Network) (id : Int) (outError : String) :
    Status :=
  let r := c.deleteRequest net (idPath "/devices/" id) [] outError
  { ret := r.ret, out := (), outError := r.outError, net := r.net, self := r.self }

/-- The item the loop of `listUsers` fills from the object `o`. -/
def UserItem.fromJson (o : QJsonObject) : UserItem :=
  { id := qint64OfDouble ((o.value "id").toDouble)
    username := (o.value "username").toString ""
    role := (o.value "role").toString ""
    approved := (o.value "approved").toBool false
    createdAt := (o.value "createdAt").toString "" }

/-- One turn of the loop in `listUsers`. -/
def listUsersStep (outUsers : List UserItem) (v : QJsonValue) : List UserItem :=
  if !v.isObject then outUsers
  else
    let o := v.toObject
    let item := UserItem.fromJson o
    outUsers ++ [item]

/-- The member `ApiClient::listUsers`. -/
def ApiClient.listUsers (c : ApiClient) (net : Network) (outUsers : List UserItem)
    (outError : String) : Outcome (List UserItem) :=
  let r := c.getJsonArray net "/users" [] outError
  if !r.ret then
    { ret := false, out := outUsers, outError := r.outError, net := r.net, self := r.self }
  else
    let arr := r.out
    { ret := true, out := arr.foldl listUsersStep [], outError := r.outError, net := r.net, self := r.self }

/-- The member `ApiClient::setUserApproved`. -/
def ApiClient.setUserApproved (c : ApiClient) (net : Network) (id : Int) (approved : Bool)
    (outError : String) : Status :=
  let body : QJsonObject := QJsonObject.insert [] "approved" (.bool approved)
  let r := c.putJsonObject net (idPath "/users/" id ++ "/approval") body [] outError
  { ret := r.ret, out := (), outError := r.outError, net := r.net, self := r.self }

/-- The member `ApiClient::deleteUser`. -/
def ApiClient.deleteUser (c : ApiClient) (net : Network) (id : Int) (outError : String) :
    Status :=
  let r := c.deleteRequest net (idPath "/users/" id) [] outError
  { ret := r.ret, out := (), outError := r.outError, net := r.net, self := r.self }

/-! ## `ApiClient`: constructor and accessors -/

/-- The constructor `ApiClient::ApiClient`. -/
def ApiClient.new : ApiClient :=
  { baseUrl_ := "http://localhost:8080", token_ := "" }

/-- The member `ApiClient::setBaseUrl`. -/
def ApiClient.setBaseUrl (c : ApiClient) (baseUrl : String) : ApiClient :=
  { c with baseUrl_ := baseUrl }

/-- The member `ApiClient::baseUrl`. -/
def ApiClient.baseUrl (c : ApiClient) : String := c.baseUrl_

/-- The member `ApiClient::token`. -/
def ApiClient.token (c : ApiClient) : String := c.token_

/-- The member `ApiClient::setToken`. -/
def ApiClient.setToken (c : ApiClient) (token : String) : ApiClient :=
  { c with token_ := token }

/-! ## `ThemeManager` -/

/-- The member `QString::toLower()`, on the ASCII letters; other characters
are left as they are. -/
def toLower (s : String) : String :=
  String.mk (s.toList.map Char.toLower)

/-- The enum `ThemeManager::Theme`. -/
inductive ThemeManager.Theme where
  | Light
  | Dark
  deriving DecidableEq, Repr

/-- The member `ThemeManager::themeFromString`. -/
def ThemeManager.themeFromString (value : String) : ThemeManager.Theme :=
  let v := toLower (trimmed value)
  if v = "light" then ThemeManager.Theme.Light
  else ThemeManager.Theme.Dark

/-- The member `ThemeManager::themeToString`. -/
def ThemeManager.themeToString (theme : ThemeManager.Theme) : String :=
  if theme = ThemeManager.Theme.Dark then "dark" else "light"

/-- The member `ThemeManager::theme`; `stored` is the value the settings hold
under the key ui/theme, none when there is none. -/
def ThemeManager.theme (stored : Option String) : ThemeManager.Theme :=
  ThemeManager.themeFromString (stored.getD "dark")

/-! ## The main window (`mainWindow.cpp`) and the logout handler of `main.cpp`

The window is carried by the state the code reads and writes: its action
pointers (none for `nullptr`), the label, the search field, the table rows,
the device list, and the warning boxes shown. Layout, signal connections and
styling are not part of the state. The client the window points to is passed
along with it. -/

/-- A `QAction`: its text, whether it is enabled, its tool tip, and its check state. -/
structure QAction where
  text : String
  enabled : Bool
  toolTip : String
  checkable : Bool
  checked : Bool
  deriving DecidableEq, Repr

/-- The call `toolbar->addAction(text)`: a new enabled action. -/
def addAction (text : String) : QAction :=
  { text := text, enabled := true, toolTip := "", checkable := false, checked := false }

/-- The class `MainWindow`. `apiClient_` tells whether the pointer is set;
`visible` is changed by `show()` and `hide()`; `warnings` lists the title and
text of the message boxes of `UiUtils` shown so far. -/
structure MainWindow where
  apiClient_ : Bool
  visible : Bool
  userInfo : String
  devices_ : List DeviceItem
  searchEdit_ : Option String
  table_ : Option (List (List String))
  addAction_ : Option QAction
  editAction_ : Option QAction
  vendorsAction_ : Option QAction
  modelsAction_ : Option QAction
  locationsAction_ : Option QAction
  usersAction_ : Option QAction
  refreshAction_ : Option QAction
  deleteAction_ : Option QAction
  logoutAction_ : Option QAction
  themeAction_ : Option QAction
  warnings : List (String × String)

/-- The member `MainWindow::buildUi`; `dark` is `ThemeManager::theme() == Theme::Dark`. -/
def MainWindow.buildUi (w : MainWindow) (username role : String) (dark : Bool) : MainWindow :=
  let w := { w with addAction_ := some (addAction "Добавить") }
  let w := { w with editAction_ := some (addAction "Редактировать") }
  let w := { w with deleteAction_ := some (addAction "Удалить") }
  let w :=
    match w.deleteAction_ with
    | some a =>
      let a := { a with enabled := decide (role = "admin") }
      let a := if role ≠ "admin" then { a with toolTip := "Удаление доступно только admin" } else a
      { w with deleteAction_ := some a }
    | none => w
  let w := { w with refreshAction_ := some (addAction "Обновить") }
  let w := { w with logoutAction_ := some (addAction "Выйти") }
  let w :=
    if role = "admin" then
      { w with vendorsAction_ := some (addAction "Производители")
               modelsAction_ := some (addAction "Модели")
               locationsAction_ := some (addAction "Локации")
               usersAction_ := some (addAction "Пользователи") }
    else w
  let themeAction : QAction :=
    { addAction "Тёмная тема" with checkable := true, checked := dark }
  let w := { w with themeAction_ := some themeAction }
  let w := { w with userInfo := "Пользователь: " ++ username ++ " (" ++ role ++ ")" }
  let w := { w with searchEdit_ := some "" }
  let w := { w with table_ := some [] }
  w

/-- The row `loadDevices` writes for one device. -/
def deviceRow (d : DeviceItem) : List String :=
  [toString d.id, d.vendorName, d.modelName, d.locationName, d.serialNumber,
   d.inventoryNumber, d.status, d.installedAt]

/-- The member `MainWindow::loadDevices`, on the client `api` the window points to. -/
def MainWindow.loadDevices (encode : String → String) (w : MainWindow) (api : ApiClient)
    (net : Network) : MainWindow × ApiClient × Network :=
  if !w.apiClient_ then (w, api, net)
  else
    let devices : List DeviceItem := []
    let err := ""
    let query := match w.searchEdit_ with
      | some text => trimmed text
      | none => ""
    let r := api.listDevices encode net query devices err
    if !r.ret then
      let text := if r.outError = "" then "Не удалось загрузить устройства" else r.outError
      ({ w with warnings := w.warnings ++ [("Ошибка", text)] }, r.self, r.net)
    else
      let devices := r.out
      let w := { w with devices_ := devices }
      let w := { w with table_ := w.table_.map (fun _ => devices.map deviceRow) }
      (w, r.self, r.net)

/-- The constructor `MainWindow::MainWindow`; `hasClient` tells whether the
pointer passed is set. -/
def MainWindow.new (encode : String → String) (dark : Bool) (hasClient : Bool)
    (api : ApiClient) (net : Network) (username role : String) :
    MainWindow × ApiClient × Network :=
  let w : MainWindow :=
    { apiClient_ := hasClient, visible := false, userInfo := "", devices_ := []
      searchEdit_ := none, table_ := none, addAction_ := none, editAction_ := none
      vendorsAction_ := none, modelsAction_ := none, locationsAction_ := none
      usersAction_ := none, refreshAction_ := none, deleteAction_ := none
      logoutAction_ := none, themeAction_ := none, warnings := [] }
  let w := w.buildUi username role dark
  w.loadDevices encode api net

/-- The member `MainWindow::setSession`: the toolbar and the central widget
(with its label) are deleted, the pointers reset, and the window is built and
loaded again. -/
def MainWindow.setSession (encode : String → String) (dark : Bool) (w : MainWindow)
    (api : ApiClient) (net : Network) (username role : String) :
    MainWindow × ApiClient × Network :=
  let w := { w with userInfo := "" }
  let w := { w with devices_ := [], searchEdit_ := none, table_ := none
                    addAction_ := none, editAction_ := none, vendorsAction_ := none
                    modelsAction_ := none, locationsAction_ := none, usersAction_ := none
                    refreshAction_ := none, deleteAction_ := none, logoutAction_ := none
                    themeAction_ := none }
  let w := w.buildUi username role dark
  w.loadDevices encode api net

/-- The values of `QDialog::DialogCode`. -/
inductive DialogCode where
  | Rejected
  | Accepted
  deriving DecidableEq, Repr

/-- The class `AuthDialog`: the three strings it hands back. -/
structure AuthDialog where
  token_ : String
  username_ : String
  role_ : String
  deriving DecidableEq, Repr

/-- The member `AuthDialog::token`. -/
def AuthDialog.token (d : AuthDialog) : String := d.token_

/-- The member `AuthDialog::username`. -/
def AuthDialog.username (d : AuthDialog) : String := d.username_

/-- The member `AuthDialog::role`. -/
def AuthDialog.role (d : AuthDialog) : String := d.role_

/-- The objects `main` holds while the application runs. -/
structure App where
  apiClient : ApiClient
  mainWindow : MainWindow
  net : Network

/-- The handler `main` connects to `MainWindow::logoutRequested`. The run of
the modal `AuthDialog` (user input and the requests it makes) is the
parameter `exec`: from the client and the network at that moment to the
dialog code, the dialog and the network afterwards. -/
def logoutRequested (encode : String → String) (dark : Bool)
    (exec : ApiClient → Network → DialogCode × AuthDialog × Network) (app : App) : App :=
  let prevToken := app.apiClient.token
  let apiClient := app.apiClient.setToken ""
  let mainWindow := { app.mainWindow with visible := false }
  let (code, dlg, net) := exec apiClient app.net
  if code ≠ DialogCode.Accepted then
    let apiClient := apiClient.setToken prevToken
    let mainWindow := { mainWindow with visible := true }
    { apiClient := apiClient, mainWindow := mainWindow, net := net }
  else
    let apiClient := apiClient.setToken dlg.token
    let (mainWindow, apiClient, net) :=
      mainWindow.setSession encode dark apiClient net dlg.username dlg.role
    let mainWindow := { mainWindow with visible := true }
    { apiClient := apiClient, mainWindow := mainWindow, net := net }

/-! ## The device dialog (`deviceDialog.cpp`) and the add and edit handlers of the main window -/

/-- The member `VendorItem::displayName`. -/
def VendorItem.displayName (v : VendorItem) : String := v.name

/-- The member `ModelItem::displayName`. -/
def ModelItem.displayName (m : ModelItem) : String :=
  if m.vendorName = "" then m.name
  else m.vendorName ++ " â€” " ++ m.name

/-- The member `LocationItem::displayName`. -/
def LocationItem.displayName (l : LocationItem) : String := l.name

/-- The comparison of two variants in `QComboBox::findData`. The combo boxes
here hold the invalid variant and `qlonglong` values and are searched for a
`qlonglong`; numbers compare by value, other variants of different kinds,
lists and maps do not compare equal. -/
def QVariant.equals : QVariant → QVariant → Bool
  | .invalid, .invalid => true
  | .null, .null => true
  | .bool a, .bool b => a == b
  | .longLong a, .longLong b => a == b
  | .double a, .double b => a == b
  | .longLong a, .double b => (a : ℚ) == b
  | .double a, .longLong b => a == (b : ℚ)
  | .string a, .string b => a == b
  | _, _ => false

/-- A `QComboBox`: its items (text and user data) and the current index, -1 for none. -/
structure QComboBox where
  items : List (String × QVariant)
  currentIndex : Int

/-- A new `QComboBox`, and the member `QComboBox::clear()`. -/
def QComboBox.clear : QComboBox := { items := [], currentIndex := -1 }

/-- The member `QComboBox::addItem(text, userData)`: the first item added to
an empty box becomes the current one. -/
def QComboBox.addItem (b : QComboBox) (text : String) (userData : QVariant) : QComboBox :=
  { items := b.items ++ [(text, userData)]
    currentIndex := if b.items.isEmpty then 0 else b.currentIndex }

/-- The search of `findData` from position `i` on. -/
def findDataFrom : List (String × QVariant) → QVariant → Int → Int
  | [], _, _ => -1
  | (_, d) :: rest, v, i => if d.equals v then i else findDataFrom rest v (i + 1)

/-- The member `QComboBox::findData(data)`: the index of the first item with
that data, -1 when there is none. -/
def QComboBox.findData (b : QComboBox) (data : QVariant) : Int :=
  findDataFrom b.items data 0

/-- The member `QComboBox::setCurrentIndex(index)`. -/
def QComboBox.setCurrentIndex (b : QComboBox) (index : Int) : QComboBox :=
  { b with currentIndex := if 0 ≤ index ∧ index < b.items.length then index else -1 }

/-- The member `QComboBox::currentData()`: the invalid variant when no item is current. -/
def QComboBox.currentData (b : QComboBox) : QVariant :=
  if b.currentIndex < 0 then QVariant.invalid
  else
    match b.items.get? b.currentIndex.toNat with
    | some (_, d) => d
    | none => QVariant.invalid

/-- The class `DeviceDialog`: the widgets are carried by their content (none
for a null pointer), `apiClient_` tells whether the pointer is set. -/
structure DeviceDialog where
  apiClient_ : Bool
  models_ : List ModelItem
  locations_ : List LocationItem
  initialDevice_ : DeviceDetails
  hasInitialDevice_ : Bool
  modelCombo_ : Option QComboBox
  locationCombo_ : Option QComboBox
  serialEdit_ : Option String
  inventoryEdit_ : Option String
  statusEdit_ : Option String
  installedAtEdit_ : Option String
  descriptionEdit_ : Option String

/-- The constructor `DeviceDialog::DeviceDialog`, `buildUi` included. -/
def DeviceDialog.new (hasClient : Bool) : DeviceDialog :=
  { apiClient_ := hasClient, models_ := [], locations_ := []
    initialDevice_ := DeviceDetails.default, hasInitialDevice_ := false
    modelCombo_ := some QComboBox.clear, locationCombo_ := some QComboBox.clear
    serialEdit_ := some "", inventoryEdit_ := some "", statusEdit_ := some "active"
    installedAtEdit_ := some "", descriptionEdit_ := some "" }

/-- The member `DeviceDialog::applyInitialSelection`. -/
def DeviceDialog.applyInitialSelection (d : DeviceDialog) : DeviceDialog :=
  if !d.hasInitialDevice_ then d
  else
    let d :=
      match d.modelCombo_ with
      | some combo =>
        let wantModelId := QVariant.longLong d.initialDevice_.modelId
        let idx := combo.findData wantModelId
        if idx ≥ 0 then { d with modelCombo_ := some (combo.setCurrentIndex idx) } else d
      | none => d
    let d :=
      match d.locationCombo_ with
      | some combo =>
        if d.initialDevice_.locationId.isValid && !d.initialDevice_.locationId.isNull then
          let wantLocationId := QVariant.longLong d.initialDevice_.locationId.toLongLong
          let idx := combo.findData wantLocationId
          if idx ≥ 0 then { d with locationCombo_ := some (combo.setCurrentIndex idx) } else d
        else
          { d with locationCombo_ := some (combo.setCurrentIndex 0) }
      | none => d
    let d := { d with serialEdit_ := d.serialEdit_.map (fun _ => d.initialDevice_.serialNumber) }
    let d := { d with inventoryEdit_ :=
      d.inventoryEdit_.map (fun _ => d.initialDevice_.inventoryNumber) }
    let d := { d with statusEdit_ := d.statusEdit_.map (fun _ =>
      if d.initialDevice_.status = "" then "active" else d.initialDevice_.status) }
    let d := { d with installedAtEdit_ :=
      d.installedAtEdit_.map (fun _ => d.initialDevice_.installedAt) }
    let d := { d with descriptionEdit_ :=
      d.descriptionEdit_.map (fun _ => d.initialDevice_.description) }
    d

/-- One turn of the first loop of `loadReferenceData`. -/
def addModelItem (combo : QComboBox) (m : ModelItem) : QComboBox :=
  combo.addItem m.displayName (QVariant.longLong m.id)

/-- One turn of the second loop of `loadReferenceData`. -/
def addLocationItem (combo : QComboBox) (l : LocationItem) : QComboBox :=
  combo.addItem l.displayName (QVariant.longLong l.id)

/-- The member `DeviceDialog::loadReferenceData`, on the client `api` the dialog points to. -/
def DeviceDialog.loadReferenceData (d : DeviceDialog) (api : ApiClient) (net : Network)
    (outError : String) : Outcome DeviceDialog :=
  if !d.apiClient_ then
    { ret := false, out := d, outError := "api_client_not_set", net := net, self := api }
  else
    let rm := api.listModels net [] outError
    if !rm.ret then
      { ret := false, out := d, outError := rm.outError, net := rm.net, self := rm.self }
    else
      let models := rm.out
      let rl := rm.self.listLocations rm.net [] rm.outError
      if !rl.ret then
        { ret := false, out := d, outError := rl.outError, net := rl.net, self := rl.self }
      else
        let locations := rl.out
        let d := { d with models_ := models, locations_ := locations }
        let d := { d with modelCombo_ :=
          d.modelCombo_.map (fun _ => d.models_.foldl addModelItem QComboBox.clear) }
        let d := { d with locationCombo_ :=
          d.locationCombo_.map (fun _ =>
            d.locations_.foldl addLocationItem (QComboBox.clear.addItem "—" QVariant.invalid)) }
        let d := d.applyInitialSelection
        { ret := true, out := d, outError := rl.outError, net := rl.net, self := rl.self }

/-- The member `DeviceDialog::setInitialDevice`. -/
def DeviceDialog.setInitialDevice (d : DeviceDialog) (device : DeviceDetails) : DeviceDialog :=
  let d := { d with initialDevice_ := device }
  let d := { d with hasInitialDevice_ := true }
  d.applyInitialSelection

/-- The member `DeviceDialog::selectedModelId`. -/
def DeviceDialog.selectedModelId (d : DeviceDialog) : Int :=
  match d.modelCombo_ with
  | none => 0
  | some combo => combo.currentData.toLongLong

/-- The member `DeviceDialog::selectedLocationId`. -/
def DeviceDialog.selectedLocationId (d : DeviceDialog) : QVariant :=
  match d.locationCombo_ with
  | none => QVariant.invalid
  | some combo => combo.currentData

/-- The member `DeviceDialog::serialNumber`. -/
def DeviceDialog.serialNumber (d : DeviceDialog) : String :=
  match d.serialEdit_ with
  | some text => trimmed text
  | none => ""

/-- The member `DeviceDialog::inventoryNumber`. -/
def DeviceDialog.inventoryNumber (d : DeviceDialog) : String :=
  match d.inventoryEdit_ with
  | some text => trimmed text
  | none => ""

/-- The member `DeviceDialog::status`. -/
def DeviceDialog.status (d : DeviceDialog) : String :=
  match d.statusEdit_ with
  | some text => trimmed text
  | none => ""

/-- The member `DeviceDialog::installedAt`. -/
def DeviceDialog.installedAt (d : DeviceDialog) : String :=
  match d.installedAtEdit_ with
  | some text => trimmed text
  | none => ""

/-- The member `DeviceDialog::description`. -/
def DeviceDialog.description (d : DeviceDialog) : String :=
  match d.descriptionEdit_ with
  | some text => trimmed text
  | none => ""

/-- A message box of `UiUtils` shown by the main window. -/
def MainWindow.showBox (w : MainWindow) (title text : String) : MainWindow :=
  { w with warnings := w.warnings ++ [(title, text)] }

/-- The member `MainWindow::selectedDeviceId`; `topRow` is the top row of the
first selected range of the table, none when nothing is selected. -/
def MainWindow.selectedDeviceId (w : MainWindow) (topRow : Option Nat) : Int :=
  match w.table_ with
  | none => 0
  | some rows =>
    match topRow with
    | none => 0
    | some row =>
      match rows.get? row with
      | none => 0
      | some cells => toLongLong (cells.headD "")

/-- The handler `buildUi` connects to the add action. The run of the modal
`DeviceDialog` is the parameter `exec`: from the dialog as loaded to the
dialog code and the dialog as the user left it. -/
def MainWindow.onAddAction (encode : String → String) (w : MainWindow) (api : ApiClient)
    (net : Network) (exec : DeviceDialog → DialogCode × DeviceDialog) :
    MainWindow × ApiClient × Network :=
  if !w.apiClient_ then
    (w.showBox "Ошибка" "API клиент не инициализирован", api, net)
  else
    let dlg := DeviceDialog.new w.apiClient_
    let err := ""
    let r := dlg.loadReferenceData api net err
    if !r.ret then
      (w.showBox "Ошибка"
        (if r.outError = "" then "Не удалось загрузить справочники" else r.outError),
        r.self, r.net)
    else
      let (code, dlg) := exec r.out
      if code ≠ DialogCode.Accepted then (w, r.self, r.net)
      else
        let modelId := dlg.selectedModelId
        if modelId ≤ 0 then
          (w.showBox "Добавление" "Выберите модель", r.self, r.net)
        else
          let rc := r.self.createDevice r.net modelId dlg.selectedLocationId dlg.serialNumber
            dlg.inventoryNumber dlg.status dlg.installedAt dlg.description r.outError
          if !rc.ret then
            (w.showBox "Не удалось добавить" (if rc.outError = "" then "Ошибка" else rc.outError),
              rc.self, rc.net)
          else
            w.loadDevices encode rc.self rc.net

/-- The handler `buildUi` connects to the edit action; `topRow` and `exec` as above. -/
def MainWindow.onEditAction (encode : String → String) (w : MainWindow) (api : ApiClient)
    (net : Network) (topRow : Option Nat) (exec : DeviceDialog → DialogCode × DeviceDialog) :
    MainWindow × ApiClient × Network :=
  let id := w.selectedDeviceId topRow
  if id ≤ 0 then
    (w.showBox "Редактирование" "Выберите устройство в таблице", api, net)
  else if !w.apiClient_ then
    (w.showBox "Ошибка" "API клиент не инициализирован", api, net)
  else
    let err := ""
    let details := DeviceDetails.default
    let rg := api.getDevice net id details err
    if !rg.ret then
      (w.showBox "Ошибка"
        (if rg.outError = "" then "Не удалось загрузить устройство" else rg.outError),
        rg.self, rg.net)
    else
      let details := rg.out
      let dlg := DeviceDialog.new w.apiClient_
      let r := dlg.loadReferenceData rg.self rg.net rg.outError
      if !r.ret then
        (w.showBox "Ошибка"
          (if r.outError = "" then "Не удалось загрузить справочники" else r.outError),
          r.self, r.net)
      else
        let dlg := r.out.setInitialDevice details
        let (code, dlg) := exec dlg
        if code ≠ DialogCode.Accepted then (w, r.self, r.net)
        else
          let modelId := dlg.selectedModelId
          if modelId ≤ 0 then
            (w.showBox "Редактирование" "Выберите модель", r.self, r.net)
          else
            let ru := r.self.updateDevice r.net id modelId dlg.selectedLocationId
              dlg.serialNumber dlg.inventoryNumber dlg.status dlg.installedAt dlg.description
              r.outError
            if !ru.ret then
              (w.showBox "Не удалось сохранить"
                (if ru.outError = "" then "Ошибка" else ru.outError), ru.self, ru.net)
            else
              w.loadDevices encode ru.self ru.net

/-! ## The register slot of `authDialog.cpp` -/

/-- What a slot of `AuthDialog` leaves: the dialog, whether `accept()` was
called, the message boxes shown (title and text), the network and the client. -/
structure AuthSlot where
  dialog : AuthDialog
  accepted : Bool
  boxes : List (String × String)
  net : Network
  self : ApiClient

/-- The slot `AuthDialog::onRegisterClicked`; `hasClient` tells whether the
dialog's client pointer is set, the three strings are the texts of
`regUsername_`, `regPassword_` and `regPassword2_` at the click. -/
def AuthDialog.onRegisterClicked (d : AuthDialog) (hasClient : Bool) (api : ApiClient)
    (net : Network) (regUsername regPassword regPassword2 : String) : AuthSlot :=
  if !hasClient then
    { dialog := d, accepted := false, boxes := [("Ошибка", "API клиент не инициализирован")]
      net := net, self := api }
  else
    let p1 := regPassword
    let p2 := regPassword2
    if p1 ≠ p2 then
      { dialog := d, accepted := false, boxes := [("Ошибка", "Пароли не совпадают")]
        net := net, self := api }
    else
      let r := api.registerUser net (trimmed regUsername) p1
      let res := r.result
      if !res.ok then
        let msg := res.error
        let msg :=
          if msg = "account_pending_approval" then
            "Аккаунт создан, но ожидает подтверждения администратором"
          else msg
        { dialog := d, accepted := false
          boxes := [("Не удалось зарегистрироваться", if msg = "" then "Ошибка" else msg)]
          net := r.net, self := r.self }
      else
        let d := { d with token_ := res.token }
        let d := { d with username_ := res.username }
        let d := { d with role_ := res.role }
        { dialog := d, accepted := true, boxes := [], net := r.net, self := r.self }

/-! ## The vendor and location editors (`vendorsDialog.cpp`, `locationsDialog.cpp`) -/

/-- What `editVendorDialog` returns: the flag, both reference parameters after
the call, and the message boxes shown. -/
structure VendorEdit where
  ret : Bool
  ioName : String
  ioCountry : String
  boxes : List (String × String)

/-- The function `editVendorDialog`. The run of the modal dialog is the
parameter `exec`: from the texts the two fields start with to the dialog code
and the texts of the two fields at the end. -/
def editVendorDialog (title ioName ioCountry : String)
    (exec : String → String → DialogCode × String × String) : VendorEdit :=
  let (code, nameEdit, countryEdit) := exec ioName ioCountry
  if code ≠ DialogCode.Accepted then
    { ret := false, ioName := ioName, ioCountry := ioCountry, boxes := [] }
  else
    let ioName := trimmed nameEdit
    let ioCountry := trimmed countryEdit
    if ioName = "" then
      { ret := false, ioName := ioName, ioCountry := ioCountry
        boxes := [(title, "Название обязательно")] }
    else
      { ret := true, ioName := ioName, ioCountry := ioCountry, boxes := [] }

/-- What `editLocationDialog` returns. -/
structure LocationEdit where
  ret : Bool
  ioName : String
  ioNote : String
  boxes : List (String × String)

/-- The function `editLocationDialog`; `exec` as for `editVendorDialog`. -/
def editLocationDialog (title ioName ioNote : String)
    (exec : String → String → DialogCode × String × String) : LocationEdit :=
  let (code, nameEdit, noteEdit) := exec ioName ioNote
  if code ≠ DialogCode.Accepted then
    { ret := false, ioName := ioName, ioNote := ioNote, boxes := [] }
  else
    let ioName := trimmed nameEdit
    let ioNote := trimmed noteEdit
    if ioName = "" then
      { ret := false, ioName := ioName, ioNote := ioNote
        boxes := [(title, "Название обязательно")] }
    else
      { ret := true, ioName := ioName, ioNote := ioNote, boxes := [] }

/-- The class `VendorsDialog`: whether the client pointer is set, the vendors
loaded, the rows of the table, and the message boxes shown. -/
structure VendorsDialog where
  apiClient_ : Bool
  vendors_ : List VendorItem
  table_ : Option (List (List String))
  boxes : List (String × String)

/-- The member `VendorsDialog::reload`. -/
def VendorsDialog.reload (w : VendorsDialog) (api : ApiClient) (net : Network) :
    VendorsDialog × ApiClient × Network :=
  if !w.apiClient_ then (w, api, net)
  else
    let err := ""
    let list : List VendorItem := []
    let r := api.listVendors net list err
    if !r.ret then
      let text := if r.outError = "" then "Не удалось загрузить производителей" else r.outError
      ({ w with boxes := w.boxes ++ [("Ошибка", text)] }, r.self, r.net)
    else
      let w := { w with vendors_ := r.out }
      let rows := w.vendors_.map (fun v => [toString v.id, v.name, v.country])
      let w := { w with table_ := w.table_.map (fun _ => rows) }
      (w, r.self, r.net)

/-- The member `VendorsDialog::selectedId`; `topRow` is the top row of the
first selected range, none when nothing is selected. -/
def VendorsDialog.selectedId (w : VendorsDialog) (topRow : Option Nat) : Int :=
  match w.table_ with
  | none => 0
  | some rows =>
    match topRow with
    | none => 0
    | some row =>
      match rows.get? row with
      | none => 0
      | some cells => toLongLong (cells.headD "")

/-- The slot `VendorsDialog::addVendor`. -/
def VendorsDialog.addVendor (w : VendorsDialog) (api : ApiClient) (net : Network)
    (exec : String → String → DialogCode × String × String) :
    VendorsDialog × ApiClient × Network :=
  if !w.apiClient_ then (w, api, net)
  else
    let name := ""
    let country := ""
    let ed := editVendorDialog "Добавить производителя" name country exec
    let w := { w with boxes := w.boxes ++ ed.boxes }
    if !ed.ret then (w, api, net)
    else
      let err := ""
      let r := api.createVendor net ed.ioName ed.ioCountry err
      if !r.ret then
        ({ w with boxes := w.boxes
            ++ [("Не удалось добавить", if r.outError = "" then "Ошибка" else r.outError)] },
          r.self, r.net)
      else
        w.reload r.self r.net

/-- The slot `VendorsDialog::editVendor`. -/
def VendorsDialog.editVendor (w : VendorsDialog) (api : ApiClient) (net : Network)
    (topRow : Option Nat) (exec : String → String → DialogCode × String × String) :
    VendorsDialog × ApiClient × Network :=
  if !w.apiClient_ then (w, api, net)
  else
    let id := w.selectedId topRow
    if id ≤ 0 then
      ({ w with boxes := w.boxes ++ [("Редактирование", "Выберите запись")] }, api, net)
    else
      let found := w.vendors_.find? (fun v => v.id == id)
      let name := match found with
        | some v => v.name
        | none => ""
      let country := match found with
        | some v => v.country
        | none => ""
      let ed := editVendorDialog "Редактировать производителя" name country exec
      let w := { w with boxes := w.boxes ++ ed.boxes }
      if !ed.ret then (w, api, net)
      else
        let err := ""
        let r := api.updateVendor net id ed.ioName ed.ioCountry err
        if !r.ret then
          ({ w with boxes := w.boxes
              ++ [("Не удалось сохранить", if r.outError = "" then "Ошибка" else r.outError)] },
            r.self, r.net)
        else
          w.reload r.self r.net

/-- The class `LocationsDialog`, carried like `VendorsDialog`. -/
structure LocationsDialog where
  apiClient_ : Bool
  locations_ : List LocationItem
  table_ : Option (List (List String))
  boxes : List (String × String)

/-- The member `LocationsDialog::reload`. -/
def LocationsDialog.reload (w : LocationsDialog) (api : ApiClient) (net : Network) :
    LocationsDialog × ApiClient × Network :=
  if !w.apiClient_ then (w, api, net)
  else
    let err := ""
    let list : List LocationItem := []
    let r := api.listLocations net list err
    if !r.ret then
      let text := if r.outError = "" then "Не удалось загрузить локации" else r.outError
      ({ w with boxes := w.boxes ++ [("Ошибка", text)] }, r.self, r.net)
    else
      let w := { w with locations_ := r.out }
      let rows := w.locations_.map (fun l => [toString l.id, l.name, l.note])
      let w := { w with table_ := w.table_.map (fun _ => rows) }
      (w, r.self, r.net)

/-- The member `LocationsDialog::selectedId`. -/
def LocationsDialog.selectedId (w : LocationsDialog) (topRow : Option Nat) : Int :=
  match w.table_ with
  | none => 0
  | some rows =>
    match topRow with
    | none => 0
    | some row =>
      match rows.get? row with
      | none => 0
      | some cells => toLongLong (cells.headD "")

/-- The slot `LocationsDialog::addLocation`. -/
def LocationsDialog.addLocation (w : LocationsDialog) (api : ApiClient) (net : Network)
    (exec : String → String → DialogCode × String × String) :
    LocationsDialog × ApiClient × Network :=
  if !w.apiClient_ then (w, api, net)
  else
    let name := ""
    let note := ""
    let ed := editLocationDialog "Добавить локацию" name note exec
    let w := { w with boxes := w.boxes ++ ed.boxes }
    if !ed.ret then (w, api, net)
    else
      let err := ""
      let r := api.createLocation net ed.ioName ed.ioNote err
      if !r.ret then
        ({ w with boxes := w.boxes
            ++ [("Не удалось добавить", if r.outError = "" then "Ошибка" else r.outError)] },
          r.self, r.net)
      else
        w.reload r.self r.net

/-- The slot `LocationsDialog::editLocation`. -/
def LocationsDialog.editLocation (w : LocationsDialog) (api : ApiClient) (net : Network)
    (topRow : Option Nat) (exec : String → String → DialogCode × String × String) :
    LocationsDialog × ApiClient × Network :=
  if !w.apiClient_ then (w, api, net)
  else
    let id := w.selectedId topRow
    if id ≤ 0 then
      ({ w with boxes := w.boxes ++ [("Редактирование", "Выберите запись")] }, api, net)
    else
      let found := w.locations_.find? (fun l => l.id == id)
      let name := match found with
        | some l => l.name
        | none => ""
      let note := match found with
        | some l => l.note
        | none => ""
      let ed := editLocationDialog "Редактировать локацию" name note exec
      let w := { w with boxes := w.boxes ++ ed.boxes }
      if !ed.ret then (w, api, net)
      else
        let err := ""
        let r := api.updateLocation net id ed.ioName ed.ioNote err
        if !r.ret then
          ({ w with boxes := w.boxes
              ++ [("Не удалось сохранить", if r.outError = "" then "Ошибка" else r.outError)] },
            r.self, r.net)
        else
          w.reload r.self r.net

/-! ## Specification vocabulary -/

/-- The request holds a JSON body whose `name` member is a string that is
not empty and not made of white space only. -/
def carriesName (s : Sent) : Prop :=
  ∃ (body : QJsonObject) (n : String), s.body = some body
    ∧ body.value "name" = QJsonValue.string n ∧ n ≠ "" ∧ n.toList.all isSpace = false

/-- From `before` to `after` only GET requests and requests satisfying `P` were issued. -/
def Network.onlyGetsOr (P : Sent → Prop) (before after : Network) : Prop :=
  ∃ l : List Sent, after.sent = before.sent ++ l ∧ ∀ s ∈ l, s.verb = "GET" ∨ P s

/-- The outcome the network `before` gave to the single request that a call
leading from `before` to `after` issued; none when the call did not issue
exactly one request. -/
def Network.answered (before after : Network) : Option Exchange :=
  match after.sent.drop before.sent.length with
  | [s] => some (before.respond before.sent s)
  | _ => none

/-- The reply handling the claim says getJsonObject, postJsonObject and
putJsonObject share, as a function of the outcome of the request and of the
output object and error string before the call: the returned flag, the output
object and the error string after the call. -/
def objectReply (x : Exchange) (o : QJsonObject) (e : String) : Bool × QJsonObject × String :=
  if x.observed.error ≠ NoError then
    (false, o,
      if x.observed.document.isObject
      then (x.observed.document.toObject.value "error").toString x.observed.errorString
      else x.observed.errorString)
  else if x.observed.document.isObject then
    (true, x.observed.document.toObject, if x.timerFired then "timeout" else e)
  else
    (false, o, "invalid_response")

/-- From `before` to `after` only GET requests were issued. -/
def Network.onlyGets (before after : Network) : Prop :=
  ∃ l : List Sent, after.sent = before.sent ++ l ∧ ∀ s ∈ l, s.verb = "GET"

/-- A network that gives the outcome `x` to every request; nothing sent yet. -/
def Network.always (x : Exchange) : Network :=
  { respond := fun _ _ => x, sent := [] }

/-- A client as `main` sets it up after a login. -/
def sampleClient : ApiClient :=
  { baseUrl_ := "http://localhost:8080", token_ := "t0k3n" }

/-- A reply still in flight: nothing received yet. -/
def pendingReply : QNetworkReply :=
  { error := NoError, errorString := "Unknown error", httpStatus := 0
    document := QJsonDocument.null }

/-- The wait ends with the timer: the request did not complete within 7000 ms. -/
def timedOutExchange : Exchange :=
  { timerFired := true, reply := pendingReply }

/-! ## Sample requests, replies and networks -/

/-- The request `postAuth` issues. -/
def authSent (c : ApiClient) (path username password : String) : Sent :=
  { verb := "POST"
    request := { url := c.baseUrl_ ++ path, headers := [("Content-Type", "application/json")] }
    body := some [("username", .string username), ("password", .string password)] }

/-- A response with HTTP status 401 whose body nevertheless holds a token. -/
def unauthorizedWithToken : Exchange :=
  { timerFired := false
    reply :=
      { error := 204, errorString := "Host requires authentication", httpStatus := 401
        document := QJsonDocument.object
          [("token", .string "abc"), ("username", .string "bob"), ("role", .string "admin")] } }

/-- A login answered with status 200 and a body holding a token. -/
def loginAccepted : Exchange :=
  { timerFired := false
    reply :=
      { error := NoError, errorString := "Unknown error", httpStatus := 200
        document := QJsonDocument.object
          [("token", .string "abc"), ("username", .string "bob"), ("role", .string "admin")] } }

/-- A server that answers every request with status 403 and a body that is
an object with a string `error`. -/
def forbiddenNetwork : Network :=
  { respond := fun _ s =>
      { timerFired := false
        reply :=
          { error := 201
            errorString := "Error transferring " ++ s.request.url ++ " - server replied: Forbidden"
            httpStatus := 403
            document := QJsonDocument.object [("error", .string "forbidden")] } }
    sent := [] }

/-- A server that answers every request with status 500 and a body that is not JSON. -/
def brokenServer : Network :=
  { respond := fun _ s =>
      { timerFired := false
        reply :=
          { error := 401
            errorString := "Error transferring " ++ s.request.url
              ++ " - server replied: Internal Server Error"
            httpStatus := 500
            document := QJsonDocument.null } }
    sent := [] }

/-- A server that answers every request with status 200 and an empty body. -/
def emptyBodyServer : Network :=
  { respond := fun _ _ =>
      { timerFired := false
        reply :=
          { error := NoError, errorString := "Unknown error", httpStatus := 200
            document := QJsonDocument.null } }
    sent := [] }

/-- A login answered with the given status and reply error and the body
holding only `error` = "account_pending_approval". -/
def pendingApproval (status : Int) (error : Nat) : Exchange :=
  { timerFired := false
    reply :=
      { error := error, errorString := "Error transferring - server replied"
        httpStatus := status
        document := QJsonDocument.object [("error", .string "account_pending_approval")] } }

/-- A server that answers every request with status 200 and an array of two
vendor objects around a number. -/
def vendorServer : Network :=
  { respond := fun _ _ =>
      { timerFired := false
        reply :=
          { error := NoError, errorString := "Unknown error", httpStatus := 200
            document := QJsonDocument.array
              [ .object [("id", .double 1), ("name", .string "Acme"), ("country", .string "US")]
              , .double 5
              , .object [("id", .double 2), ("name", .string "Bolt")] ] } }
    sent := [] }

/-- A network on which every connection is refused. -/
def refusingNetwork : Network :=
  { respond := fun _ _ =>
      { timerFired := false
        reply :=
          { error := 1, errorString := "Connection refused", httpStatus := 0
            document := QJsonDocument.null } }
    sent := [] }

/-- A client whose base URL has a path. -/
def prefixedClient : ApiClient :=
  { baseUrl_ := "http://host/api", token_ := "t0k3n" }

/-- A server that answers every request with status 400 and a body whose
`error` member is the empty string. -/
def emptyErrorServer : Network :=
  { respond := fun _ s =>
      { timerFired := false
        reply :=
          { error := 302
            errorString := "Error transferring " ++ s.request.url ++ " - server replied: Bad Request"
            httpStatus := 400
            document := QJsonDocument.object [("error", .string "")] } }
    sent := [] }

/-- A login answered with status 200 and a body whose `error` member is the empty string. -/
def emptyErrorLogin : Exchange :=
  { timerFired := false
    reply :=
      { error := NoError, errorString := "Unknown error", httpStatus := 200
        document := QJsonDocument.object [("error", .string "")] } }

/-- The application after bob has logged in as admin. -/
def sampleApp : App :=
  { apiClient := sampleClient
    mainWindow :=
      { (MainWindow.new id true true sampleClient vendorServer "bob" "admin").1 with
        visible := true }
    net := vendorServer }

/-- A re-login dialog that the user cancels without a request. -/
def cancelledDialog (_ : ApiClient) (net : Network) : DialogCode × AuthDialog × Network :=
  (DialogCode.Rejected, { token_ := "", username_ := "", role_ := "" }, net)

/-- A re-login dialog in which ann logs in and gets the token "n3w". -/
def acceptedDialog (c : ApiClient) (net : Network) : DialogCode × AuthDialog × Network :=
  (DialogCode.Accepted, { token_ := "n3w", username_ := "ann", role_ := "user" },
    (c.login net "ann" "pw").net)

/-- A login answered with status 200 and a body whose `token` is a number. -/
def numericTokenLogin : Exchange :=
  { timerFired := false
    reply :=
      { error := NoError, errorString := "Unknown error", httpStatus := 200
        document := QJsonDocument.object [("token", .double 42), ("username", .string "bob")] } }

/-- A server holding the device 12, whose model 77 and location 99 are not in
the lists it serves (model 3, location 5); it answers every other request
with status 200 and an empty object. -/
def inventoryServer : Network :=
  { respond := fun _ s =>
      { timerFired := false
        reply :=
          { error := NoError, errorString := "Unknown error", httpStatus := 200
            document :=
              if s.verb = "GET" ∧ s.request.url = "http://localhost:8080/models" then
                QJsonDocument.array
                  [.object [("id", .double 3), ("vendorId", .double 1),
                            ("vendorName", .string "Acme"), ("name", .string "R1")]]
              else if s.verb = "GET" ∧ s.request.url = "http://localhost:8080/locations" then
                QJsonDocument.array [.object [("id", .double 5), ("name", .string "Lab")]]
              else if s.verb = "GET" ∧ s.request.url = "http://localhost:8080/devices?q=" then
                QJsonDocument.array [.object [("id", .double 12), ("serialNumber", .string "SN-1")]]
              else if s.verb = "GET" ∧ s.request.url = "http://localhost:8080/devices/12" then
                QJsonDocument.object
                  [("id", .double 12), ("modelId", .double 77), ("locationId", .double 99),
                   ("serialNumber", .string "SN-1")]
              else QJsonDocument.object [] } }
    sent := [] }

/-- The main window of an admin over `inventoryServer`. -/
def inventoryWindow : MainWindow :=
  (MainWindow.new id true true sampleClient inventoryServer "bob" "admin").1

/-- The device 12 as `inventoryServer` serves it. -/
def device12 : DeviceDetails :=
  (sampleClient.getDevice inventoryServer 12 DeviceDetails.default "").out

/-- A device dialog that the user accepts as it is. -/
def acceptUnchanged (d : DeviceDialog) : DialogCode × DeviceDialog :=
  (DialogCode.Accepted, d)

/-- A device dialog that the user cancels. -/
def cancelDevice (d : DeviceDialog) : DialogCode × DeviceDialog :=
  (DialogCode.Rejected, d)

/-- The verbs and URLs of the requests in a log. -/
def requestLines (log : List Sent) : List (String × String) :=
  log.map (fun s => (s.verb, s.request.url))

/-- A server that answers every request with status 200 and an empty array. -/
def emptyArrayServer : Network :=
  { respond := fun _ _ =>
      { timerFired := false
        reply :=
          { error := NoError, errorString := "Unknown error", httpStatus := 200
            document := QJsonDocument.array [] } }
    sent := [] }

/-- An `AuthDialog` before any login. -/
def freshAuthDialog : AuthDialog :=
  { token_ := "", username_ := "", role_ := "" }

/-- A vendors dialog over a client, nothing loaded yet. -/
def sampleVendorsDialog : VendorsDialog :=
  { apiClient_ := true, vendors_ := [], table_ := some [], boxes := [] }

/-- The user types a name and a country with spaces around them and accepts. -/
def acmeEntry (_ _ : String) : DialogCode × String × String :=
  (DialogCode.Accepted, "  Acme ", " US")

/-- The user types only spaces as the name and accepts. -/
def blankEntry (_ _ : String) : DialogCode × String × String :=
  (DialogCode.Accepted, "   ", "US")

/-! ## Basic facts -/

/-- Beyond 2^53 an integer need not be a `double`: 2^53 + 1 becomes 2^53. -/
theorem nearestDouble_above_exact : nearestDouble 9007199254740993 = 9007199254740992 := by
  have hl : Int.log 2 |(9007199254740993 : ℚ)| = 53 := by
    rw [abs_of_pos (by norm_num)]
    have : ((9007199254740993 : ℕ) : ℚ) = 9007199254740993 := by norm_num
    rw [← this, Int.log_natCast]
    norm_cast
    rw [Nat.log_eq_iff (by norm_num)]
    norm_num
  unfold nearestDouble
  rw [if_neg (by decide)]
  simp only [hl]
  norm_num [roundHalfEven]

/-- What a list call decodes from the number 2^53 + 1: the id 2^53. -/
theorem decode_above_exact :
    (VendorItem.fromJson [("id", .double 9007199254740993)]).id = 9007199254740992 := by
  have h : (VendorItem.fromJson [("id", .double 9007199254740993)]).id
      = qint64OfDouble (nearestDouble 9007199254740993) := rfl
  rw [h, nearestDouble_above_exact]
  decide

/-- An integer is its own nearest integer. -/
theorem roundHalfEven_intCast (m : Int) : roundHalfEven (m : ℚ) = m := by
  unfold roundHalfEven
  simp

/-- The first branch of `nearestDouble` is a short cut: on every number the
result is the one of the rounding rule. -/
theorem nearestDouble_eq_rounding (q : ℚ) :
    nearestDouble q
      = (roundHalfEven (q / (2 : ℚ) ^ (max (Int.log 2 |q| - 52) (-1074))) : ℚ)
          * (2 : ℚ) ^ (max (Int.log 2 |q| - 52) (-1074)) := by
  unfold nearestDouble
  split_ifs with h
  · obtain ⟨hd, hn⟩ := h
    have hq : q = (q.num : ℚ) := by
      conv_lhs => rw [← Rat.num_div_den q]
      simp [hd]
    generalize q.num = n at hq hn
    subst hq
    rcases Nat.eq_zero_or_pos n.natAbs with h0 | hpos
    · have : n = 0 := Int.natAbs_eq_zero.mp h0
      subst this
      simp [roundHalfEven]
    have habs : |(n : ℚ)| = ((n.natAbs : ℕ) : ℚ) := by
      rw [Nat.cast_natAbs]
      simp
    have hlog : Int.log 2 |(n : ℚ)| = (Nat.log 2 n.natAbs : ℤ) := by
      rw [habs, Int.log_natCast]
    rcases Nat.lt_or_ge n.natAbs 9007199254740992 with hlt | hge
    · have hk : Nat.log 2 n.natAbs < 53 := by
        apply Nat.log_lt_of_lt_pow (by omega)
        norm_num
        exact hlt
      obtain ⟨j, hj⟩ : ∃ j : ℕ, (Nat.log 2 n.natAbs : ℤ) - 52 = -(j : ℤ) :=
        ⟨52 - Nat.log 2 n.natAbs, by omega⟩
      have he : max ((Nat.log 2 n.natAbs : ℤ) - 52) (-1074) = -(j : ℤ) := by
        rw [hj]
        apply max_eq_left
        omega
      rw [hlog, he]
      have h2 : (n : ℚ) / (2 : ℚ) ^ (-(j : ℤ)) = ((n * 2 ^ j : ℤ) : ℚ) := by
        rw [zpow_neg, zpow_natCast]
        push_cast
        field_simp
      rw [h2, roundHalfEven_intCast]
      rw [zpow_neg, zpow_natCast]
      push_cast
      field_simp
    · have hn2 : n.natAbs = 9007199254740992 := le_antisymm hn hge
      have hk : Nat.log 2 n.natAbs = 53 := by
        rw [hn2, Nat.log_eq_iff (by norm_num)]
        norm_num
      rw [hlog, hk]
      have hn3 : n = 9007199254740992 ∨ n = -9007199254740992 := by omega
      rcases hn3 with rfl | rfl <;> norm_num [roundHalfEven]
  · rfl

/-- A `double` is its own nearest `double`: a number `m * 2^e` with `m` below
2^53 in magnitude, where `m` has 53 binary digits or `e` is the least
exponent -1074, is left as it is. -/
theorem nearestDouble_of_double (m : Int) (e : Int) (hm : m.natAbs < 9007199254740992)
    (hm0 : 4503599627370496 ≤ m.natAbs ∨ e = -1074) (he : -1074 ≤ e) :
    nearestDouble (m * (2 : ℚ) ^ e) = m * (2 : ℚ) ^ e := by
  rw [nearestDouble_eq_rounding]
  have h2pos : ∀ k : ℤ, (0 : ℚ) < (2 : ℚ) ^ k := fun k => zpow_pos (by norm_num) k
  rcases Nat.eq_zero_or_pos m.natAbs with h0 | hpos
  · have : m = 0 := Int.natAbs_eq_zero.mp h0
    subst this
    simp [roundHalfEven]
  have habs : |(m : ℚ) * (2 : ℚ) ^ e| = (m.natAbs : ℚ) * (2 : ℚ) ^ e := by
    rw [abs_mul, abs_of_pos (h2pos e), Nat.cast_natAbs]
    simp
  have hqpos : (0 : ℚ) < (m.natAbs : ℚ) * (2 : ℚ) ^ e :=
    mul_pos (by exact_mod_cast hpos) (h2pos e)
  have hupper : (m.natAbs : ℚ) * (2 : ℚ) ^ e < (2 : ℚ) ^ (53 + e) := by
    rw [zpow_add₀ (by norm_num)]
    apply mul_lt_mul_of_pos_right _ (h2pos e)
    have : (m.natAbs : ℚ) < 9007199254740992 := by exact_mod_cast hm
    calc (m.natAbs : ℚ) < 9007199254740992 := this
      _ = (2 : ℚ) ^ (53 : ℤ) := by norm_num
  have hlt : Int.log 2 ((m.natAbs : ℚ) * (2 : ℚ) ^ e) < 53 + e := by
    rw [← Int.lt_zpow_iff_log_lt (by norm_num) hqpos]
    exact_mod_cast hupper
  have hexp : max (Int.log 2 |(m : ℚ) * (2 : ℚ) ^ e| - 52) (-1074) = e := by
    rw [habs]
    rcases hm0 with hbig | hsub
    · have hlower : (2 : ℚ) ^ (52 + e) ≤ (m.natAbs : ℚ) * (2 : ℚ) ^ e := by
        rw [zpow_add₀ (by norm_num)]
        apply mul_le_mul_of_nonneg_right _ (h2pos e).le
        have : (4503599627370496 : ℚ) ≤ (m.natAbs : ℚ) := by exact_mod_cast hbig
        calc (2 : ℚ) ^ (52 : ℤ) = 4503599627370496 := by norm_num
          _ ≤ (m.natAbs : ℚ) := this
      have hge : 52 + e ≤ Int.log 2 ((m.natAbs : ℚ) * (2 : ℚ) ^ e) := by
        rw [← Int.zpow_le_iff_le_log (by norm_num) hqpos]
        exact_mod_cast hlower
      have : Int.log 2 ((m.natAbs : ℚ) * (2 : ℚ) ^ e) = 52 + e := by omega
      rw [this]
      simp only [add_sub_cancel_left]
      exact max_eq_left he
    · subst hsub
      apply le_antisymm
      · apply max_le _ le_rfl
        omega
      · exact le_max_right _ _
  rw [hexp]
  have : (m : ℚ) * (2 : ℚ) ^ e / (2 : ℚ) ^ e = m := by
    field_simp
  rw [this, roundHalfEven_intCast]

/-- What a list call decodes from the number 3/2: the id 1. -/
theorem decode_fraction : (VendorItem.fromJson [("id", .double (3 / 2))]).id = 1 := by
  have h : (VendorItem.fromJson [("id", .double (3 / 2))]).id
      = qint64OfDouble (nearestDouble (3 / 2)) := rfl
  have hd : nearestDouble (3 / 2) = 3 / 2 := by
    have h2 := nearestDouble_of_double 6755399441055744 (-52) (by decide)
      (Or.inl (by decide)) (by decide)
    have h3 : ((6755399441055744 : ℤ) : ℚ) * (2 : ℚ) ^ (-52 : ℤ) = 3 / 2 := by norm_num
    rwa [h3] at h2
  have hn : (3 / 2 : ℚ).num = 3 := by norm_num
  have hden : (3 / 2 : ℚ).den = 2 := by norm_num
  rw [h, hd]
  unfold qint64OfDouble
  rw [hn, hden]
  decide

/-- The cast `static_cast<double>` of the id 2^53 + 1 gives 2^53. -/
theorem doubleOfQint64_above_exact :
    doubleOfQint64 9007199254740993 = 9007199254740992 := by
  unfold doubleOfQint64
  exact_mod_cast nearestDouble_above_exact

theorem send_fst (net : Network) (s : Sent) : (net.send s).1 = net.respond net.sent s := rfl

theorem send_snd_sent (net : Network) (s : Sent) : (net.send s).2.sent = net.sent ++ [s] := rfl

theorem answered_send (net : Network) (s : Sent) :
    net.answered (net.send s).2 = some (net.respond net.sent s) := by
  simp [Network.answered, Network.send]

theorem observed_of_timer (x : Exchange) (h : x.timerFired = true) :
    x.observed.error = OperationCanceledError ∧ x.observed.document = QJsonDocument.null := by
  simp [Exchange.observed, h, QNetworkReply.abort]

theorem observed_of_finished (x : Exchange) (h : x.timerFired = false) :
    x.observed = x.reply := by
  simp [Exchange.observed, h]

/-! ## C1: the timeout message -/

/-- C1 (evaluation at the failing input). When the timer fires, login and the
list calls report "timeout", but the get, create, update and delete calls
report the text of the aborted reply instead: the branch for a failed reply
overwrites the message the timer handler stored. -/
theorem timeout_message_overwritten :
    (sampleClient.login (Network.always timedOutExchange) "u" "p").1.error = "timeout"
    ∧ (sampleClient.listVendors (Network.always timedOutExchange) [] "").outError = "timeout"
    ∧ (sampleClient.getDevice (Network.always timedOutExchange) 1
        DeviceDetails.default "").ret = false
    ∧ (sampleClient.getDevice (Network.always timedOutExchange) 1
        DeviceDetails.default "").outError = "Operation canceled"
    ∧ (sampleClient.createVendor (Network.always timedOutExchange) "Acme" "US" "").outError
        = "Operation canceled"
    ∧ (sampleClient.updateVendor (Network.always timedOutExchange) 1 "Acme" "US" "").outError
        = "Operation canceled"
    ∧ (sampleClient.deleteVendor (Network.always timedOutExchange) 1 "").outError
        = "Operation canceled" := by
  decide

/-! ## C2: a token in the body of a login or register response -/

theorem postAuth_net (c : ApiClient) (net : Network) (path u p : String) :
    (c.postAuth net path u p).2 = (net.send (authSent c path u p)).2 := by
  simp only [ApiClient.postAuth, authSent, QJsonObject.insert]
  split_ifs <;> simp_all

theorem postAuth_answered (c : ApiClient) (net : Network) (path u p : String) :
    net.answered (c.postAuth net path u p).2
      = some (net.respond net.sent (authSent c path u p)) := by
  rw [postAuth_net, answered_send]

/-- C2 (counterexample). A login response with status 401 whose body is an
object with a `token` field does not give ok = true. -/
theorem login_token_under_http_error_not_ok :
    unauthorizedWithToken.observed.document.isObject = true
    ∧ unauthorizedWithToken.observed.document.toObject.contains "token" = true
    ∧ unauthorizedWithToken.observed.httpStatus = 401
    ∧ (sampleClient.login (Network.always unauthorizedWithToken) "bob" "pw").1.ok = false
    ∧ (sampleClient.login (Network.always unauthorizedWithToken) "bob" "pw").1.token = "" := by
  decide

/-- C2 (amended). For login and register, when the reply carries no transport
error and its body is a JSON object containing `token`, the result has
ok = true and its token, username and role are the string readings of those
fields of the body, whatever the HTTP status attribute is. -/
theorem auth_token_ok_without_transport_error
    (f : ApiClient → Network → String → String → AuthOutcome)
    (hf : f = ApiClient.login ∨ f = ApiClient.registerUser)
    (c : ApiClient) (net : Network) (u p : String) (x : Exchange) (obj : QJsonObject)
    (hx : net.answered (f c net u p).2 = some x)
    (herr : x.observed.error = NoError)
    (hdoc : x.observed.document = QJsonDocument.object obj)
    (htok : obj.contains "token" = true) :
    (f c net u p).1.ok = true
    ∧ (f c net u p).1.token = (obj.value "token").toString ""
    ∧ (f c net u p).1.username = (obj.value "username").toString ""
    ∧ (f c net u p).1.role = (obj.value "role").toString ""
    ∧ (f c net u p).1.httpStatus = x.observed.httpStatus := by
  have key : ∀ path, net.answered (c.postAuth net path u p).2 = some x →
      (c.postAuth net path u p).1.ok = true
      ∧ (c.postAuth net path u p).1.token = (obj.value "token").toString ""
      ∧ (c.postAuth net path u p).1.username = (obj.value "username").toString ""
      ∧ (c.postAuth net path u p).1.role = (obj.value "role").toString ""
      ∧ (c.postAuth net path u p).1.httpStatus = x.observed.httpStatus := by
    intro path h
    rw [postAuth_answered] at h
    have hx2 : net.respond net.sent (authSent c path u p) = x := Option.some.inj h
    have hs : (net.send (authSent c path u p)).1 = x := hx2
    simp only [authSent] at hs
    simp [ApiClient.postAuth, QJsonObject.insert, hs, herr, hdoc, QJsonDocument.isObject,
      QJsonDocument.toObject, htok]
  rcases hf with rfl | rfl
  · exact key _ hx
  · exact key _ hx

/-- C2 (witness of the amended claim): a login answered with status 200. -/
theorem auth_token_ok_without_transport_error_witness :
    (sampleClient.login (Network.always loginAccepted) "bob" "pw").1.ok = true
    ∧ (sampleClient.login (Network.always loginAccepted) "bob" "pw").1.token = "abc"
    ∧ (sampleClient.login (Network.always loginAccepted) "bob" "pw").1.username = "bob"
    ∧ (sampleClient.login (Network.always loginAccepted) "bob" "pw").1.role = "admin"
    ∧ (sampleClient.login (Network.always loginAccepted) "bob" "pw").1.httpStatus = 200 :=
  auth_token_ok_without_transport_error ApiClient.login (Or.inl rfl) sampleClient
    (Network.always loginAccepted) "bob" "pw" loginAccepted
    [("token", .string "abc"), ("username", .string "bob"), ("role", .string "admin")]
    rfl rfl rfl rfl

/-! ## The five request helpers, case by case -/

theorem getJsonArray_answered (c : ApiClient) (net : Network) (path : String)
    (a : QJsonArray) (e : String) :
    net.answered (c.getJsonArray net path a e).net
      = some (net.respond net.sent { verb := "GET", request := c.makeRequest path, body := none }) := by
  simp only [ApiClient.getJsonArray]
  split_ifs <;> exact answered_send _ _

theorem getJsonObject_answered (c : ApiClient) (net : Network) (path : String)
    (o : QJsonObject) (e : String) :
    net.answered (c.getJsonObject net path o e).net
      = some (net.respond net.sent { verb := "GET", request := c.makeRequest path, body := none }) := by
  simp only [ApiClient.getJsonObject]
  split_ifs <;> exact answered_send _ _

theorem postJsonObject_answered (c : ApiClient) (net : Network) (path : String)
    (body o : QJsonObject) (e : String) :
    net.answered (c.postJsonObject net path body o e).net
      = some (net.respond net.sent
          { verb := "POST", request := c.makeRequest path, body := some body }) := by
  simp only [ApiClient.postJsonObject]
  split_ifs <;> exact answered_send _ _

theorem putJsonObject_answered (c : ApiClient) (net : Network) (path : String)
    (body o : QJsonObject) (e : String) :
    net.answered (c.putJsonObject net path body o e).net
      = some (net.respond net.sent
          { verb := "PUT", request := c.makeRequest path, body := some body }) := by
  simp only [ApiClient.putJsonObject]
  split_ifs <;> exact answered_send _ _

theorem deleteRequest_answered (c : ApiClient) (net : Network) (path : String)
    (o : QJsonObject) (e : String) :
    net.answered (c.deleteRequest net path o e).net
      = some (net.respond net.sent
          { verb := "DELETE", request := c.makeRequest path, body := none }) := by
  simp only [ApiClient.deleteRequest]
  split_ifs <;> exact answered_send _ _

/-- The three ways `getJsonArray` ends, in terms of the outcome of its request. -/
theorem getJsonArray_cases (c : ApiClient) (net : Network) (path : String)
    (a : QJsonArray) (e : String) (x : Exchange)
    (hx : net.answered (c.getJsonArray net path a e).net = some x) :
    (x.observed.error ≠ NoError →
      (c.getJsonArray net path a e).ret = false ∧ (c.getJsonArray net path a e).out = a
      ∧ (c.getJsonArray net path a e).outError
          = if (if x.timerFired then "timeout" else e) = "" then x.observed.errorString
            else (if x.timerFired then "timeout" else e))
    ∧ (x.observed.error = NoError → x.observed.document.isArray = false →
      (c.getJsonArray net path a e).ret = false ∧ (c.getJsonArray net path a e).out = a
      ∧ (c.getJsonArray net path a e).outError = "invalid_response")
    ∧ (x.observed.error = NoError → ∀ arr, x.observed.document = QJsonDocument.array arr →
      (c.getJsonArray net path a e).ret = true ∧ (c.getJsonArray net path a e).out = arr
      ∧ (c.getJsonArray net path a e).outError = if x.timerFired then "timeout" else e) := by
  rw [getJsonArray_answered] at hx
  have hs : ∀ s, s = ({ verb := "GET", request := c.makeRequest path, body := none } : Sent) →
      (net.send s).1 = x := fun s h => h ▸ Option.some.inj hx
  have hs2 := hs _ rfl
  refine ⟨fun h => ?_, fun h hd => ?_, fun h arr hd => ?_⟩
  · simp [ApiClient.getJsonArray, hs2, h]
  · simp [ApiClient.getJsonArray, hs2, h, hd]
  · simp [ApiClient.getJsonArray, hs2, h, hd, QJsonDocument.isArray, QJsonDocument.toArray]

/-- The three ways `getJsonObject` ends, in terms of the outcome of its request. -/
theorem getJsonObject_cases (c : ApiClient) (net : Network) (path : String)
    (o : QJsonObject) (e : String) (x : Exchange)
    (hx : net.answered (c.getJsonObject net path o e).net = some x) :
    (x.observed.error ≠ NoError →
      (c.getJsonObject net path o e).ret = false ∧ (c.getJsonObject net path o e).out = o
      ∧ (c.getJsonObject net path o e).outError
          = if x.observed.document.isObject
            then (x.observed.document.toObject.value "error").toString x.observed.errorString
            else x.observed.errorString)
    ∧ (x.observed.error = NoError → x.observed.document.isObject = false →
      (c.getJsonObject net path o e).ret = false ∧ (c.getJsonObject net path o e).out = o
      ∧ (c.getJsonObject net path o e).outError = "invalid_response")
    ∧ (x.observed.error = NoError → ∀ obj, x.observed.document = QJsonDocument.object obj →
      (c.getJsonObject net path o e).ret = true ∧ (c.getJsonObject net path o e).out = obj
      ∧ (c.getJsonObject net path o e).outError = if x.timerFired then "timeout" else e) := by
  rw [getJsonObject_answered] at hx
  have hs : ∀ s, s = ({ verb := "GET", request := c.makeRequest path, body := none } : Sent) →
      (net.send s).1 = x := fun s h => h ▸ Option.some.inj hx
  have hs2 := hs _ rfl
  refine ⟨fun h => ?_, fun h hd => ?_, fun h obj hd => ?_⟩
  · simp [ApiClient.getJsonObject, hs2, h]
  · simp [ApiClient.getJsonObject, hs2, h, hd]
  · simp [ApiClient.getJsonObject, hs2, h, hd, QJsonDocument.isObject, QJsonDocument.toObject]

/-- The three ways `postJsonObject` ends, in terms of the outcome of its request. -/
theorem postJsonObject_cases (c : ApiClient) (net : Network) (path : String) (body : QJsonObject)
    (o : QJsonObject) (e : String) (x : Exchange)
    (hx : net.answered (c.postJsonObject net path body o e).net = some x) :
    (x.observed.error ≠ NoError →
      (c.postJsonObject net path body o e).ret = false ∧ (c.postJsonObject net path body o e).out = o
      ∧ (c.postJsonObject net path body o e).outError
          = if x.observed.document.isObject
            then (x.observed.document.toObject.value "error").toString x.observed.errorString
            else x.observed.errorString)
    ∧ (x.observed.error = NoError → x.observed.document.isObject = false →
      (c.postJsonObject net path body o e).ret = false ∧ (c.postJsonObject net path body o e).out = o
      ∧ (c.postJsonObject net path body o e).outError = "invalid_response")
    ∧ (x.observed.error = NoError → ∀ obj, x.observed.document = QJsonDocument.object obj →
      (c.postJsonObject net path body o e).ret = true ∧ (c.postJsonObject net path body o e).out = obj
      ∧ (c.postJsonObject net path body o e).outError = if x.timerFired then "timeout" else e) := by
  rw [postJsonObject_answered] at hx
  have hs : ∀ s, s = ({ verb := "POST", request := c.makeRequest path, body := some body } : Sent) →
      (net.send s).1 = x := fun s h => h ▸ Option.some.inj hx
  have hs2 := hs _ rfl
  refine ⟨fun h => ?_, fun h hd => ?_, fun h obj hd => ?_⟩
  · simp [ApiClient.postJsonObject, hs2, h]
  · simp [ApiClient.postJsonObject, hs2, h, hd]
  · simp [ApiClient.postJsonObject, hs2, h, hd, QJsonDocument.isObject, QJsonDocument.toObject]

/-- The three ways `putJsonObject` ends, in terms of the outcome of its request. -/
theorem putJsonObject_cases (c : ApiClient) (net : Network) (path : String) (body : QJsonObject)
    (o : QJsonObject) (e : String) (x : Exchange)
    (hx : net.answered (c.putJsonObject net path body o e).net = some x) :
    (x.observed.error ≠ NoError →
      (c.putJsonObject net path body o e).ret = false ∧ (c.putJsonObject net path body o e).out = o
      ∧ (c.putJsonObject net path body o e).outError
          = if x.observed.document.isObject
            then (x.observed.document.toObject.value "error").toString x.observed.errorString
            else x.observed.errorString)
    ∧ (x.observed.error = NoError → x.observed.document.isObject = false →
      (c.putJsonObject net path body o e).ret = false ∧ (c.putJsonObject net path body o e).out = o
      ∧ (c.putJsonObject net path body o e).outError = "invalid_response")
    ∧ (x.observed.error = NoError → ∀ obj, x.observed.document = QJsonDocument.object obj →
      (c.putJsonObject net path body o e).ret = true ∧ (c.putJsonObject net path body o e).out = obj
      ∧ (c.putJsonObject net path body o e).outError = if x.timerFired then "timeout" else e) := by
  rw [putJsonObject_answered] at hx
  have hs : ∀ s, s = ({ verb := "PUT", request := c.makeRequest path, body := some body } : Sent) →
      (net.send s).1 = x := fun s h => h ▸ Option.some.inj hx
  have hs2 := hs _ rfl
  refine ⟨fun h => ?_, fun h hd => ?_, fun h obj hd => ?_⟩
  · simp [ApiClient.putJsonObject, hs2, h]
  · simp [ApiClient.putJsonObject, hs2, h, hd]
  · simp [ApiClient.putJsonObject, hs2, h, hd, QJsonDocument.isObject, QJsonDocument.toObject]

/-- The two ways `deleteRequest` ends, in terms of the outcome of its request. -/
theorem deleteRequest_cases (c : ApiClient) (net : Network) (path : String)
    (o : QJsonObject) (e : String) (x : Exchange)
    (hx : net.answered (c.deleteRequest net path o e).net = some x) :
    (x.observed.error ≠ NoError →
      (c.deleteRequest net path o e).ret = false ∧ (c.deleteRequest net path o e).out = o
      ∧ (c.deleteRequest net path o e).outError
          = if x.observed.document.isObject
            then (x.observed.document.toObject.value "error").toString x.observed.errorString
            else x.observed.errorString)
    ∧ (x.observed.error = NoError →
      (c.deleteRequest net path o e).ret = true
      ∧ (c.deleteRequest net path o e).out
          = (if x.observed.document.isObject then x.observed.document.toObject else o)
      ∧ (c.deleteRequest net path o e).outError = if x.timerFired then "timeout" else e) := by
  rw [deleteRequest_answered] at hx
  have hs : ∀ s, s = ({ verb := "DELETE", request := c.makeRequest path, body := none } : Sent) →
      (net.send s).1 = x := fun s h => h ▸ Option.some.inj hx
  have hs2 := hs _ rfl
  refine ⟨fun h => ?_, fun h => ?_⟩
  · simp [ApiClient.deleteRequest, hs2, h]
  · simp [ApiClient.deleteRequest, hs2, h]

/-- A wait that ends with the timer leaves a reply with an error. -/
theorem observed_error_of_timer (x : Exchange) (h : x.timerFired = true) :
    x.observed.error ≠ NoError := by
  rw [(observed_of_timer x h).1]
  decide

/-- Without a reply error the timer did not fire. -/
theorem timer_not_fired_of_no_error (x : Exchange) (h : x.observed.error = NoError) :
    x.timerFired = false := by
  cases hf : x.timerFired
  · rfl
  · exact absurd h (observed_error_of_timer x hf)

/-! ## The list members and `getDevice` over their helper -/

theorem listVendors_fields (c : ApiClient) (net : Network) (o : List VendorItem) (e : String) :
    (c.listVendors net o e).net = (c.getJsonArray net "/vendors" [] e).net
    ∧ (c.listVendors net o e).ret = (c.getJsonArray net "/vendors" [] e).ret
    ∧ (c.listVendors net o e).outError = (c.getJsonArray net "/vendors" [] e).outError
    ∧ (c.listVendors net o e).out
        = if (c.getJsonArray net "/vendors" [] e).ret
          then (c.getJsonArray net "/vendors" [] e).out.foldl listVendorsStep [] else o := by
  simp only [ApiClient.listVendors]
  cases h : (c.getJsonArray net "/vendors" [] e).ret <;> simp

theorem listModels_fields (c : ApiClient) (net : Network) (o : List ModelItem) (e : String) :
    (c.listModels net o e).net = (c.getJsonArray net "/models" [] e).net
    ∧ (c.listModels net o e).ret = (c.getJsonArray net "/models" [] e).ret
    ∧ (c.listModels net o e).outError = (c.getJsonArray net "/models" [] e).outError
    ∧ (c.listModels net o e).out
        = if (c.getJsonArray net "/models" [] e).ret
          then (c.getJsonArray net "/models" [] e).out.foldl listModelsStep [] else o := by
  simp only [ApiClient.listModels]
  cases h : (c.getJsonArray net "/models" [] e).ret <;> simp

theorem listLocations_fields (c : ApiClient) (net : Network) (o : List LocationItem) (e : String) :
    (c.listLocations net o e).net = (c.getJsonArray net "/locations" [] e).net
    ∧ (c.listLocations net o e).ret = (c.getJsonArray net "/locations" [] e).ret
    ∧ (c.listLocations net o e).outError = (c.getJsonArray net "/locations" [] e).outError
    ∧ (c.listLocations net o e).out
        = if (c.getJsonArray net "/locations" [] e).ret
          then (c.getJsonArray net "/locations" [] e).out.foldl listLocationsStep [] else o := by
  simp only [ApiClient.listLocations]
  cases h : (c.getJsonArray net "/locations" [] e).ret <;> simp

theorem listUsers_fields (c : ApiClient) (net : Network) (o : List UserItem) (e : String) :
    (c.listUsers net o e).net = (c.getJsonArray net "/users" [] e).net
    ∧ (c.listUsers net o e).ret = (c.getJsonArray net "/users" [] e).ret
    ∧ (c.listUsers net o e).outError = (c.getJsonArray net "/users" [] e).outError
    ∧ (c.listUsers net o e).out
        = if (c.getJsonArray net "/users" [] e).ret
          then (c.getJsonArray net "/users" [] e).out.foldl listUsersStep [] else o := by
  simp only [ApiClient.listUsers]
  cases h : (c.getJsonArray net "/users" [] e).ret <;> simp

theorem listDevices_fields (encode : String → String) (c : ApiClient) (net : Network)
    (query : String) (o : List DeviceItem) (e : String) :
    (c.listDevices encode net query o e).net
        = (c.getJsonArray net
            (urlPath (c.baseUrl_ ++ "/devices") ++ "?" ++ ("q=" ++ encode query)) [] e).net
    ∧ (c.listDevices encode net query o e).ret
        = (c.getJsonArray net
            (urlPath (c.baseUrl_ ++ "/devices") ++ "?" ++ ("q=" ++ encode query)) [] e).ret
    ∧ (c.listDevices encode net query o e).outError
        = (c.getJsonArray net
            (urlPath (c.baseUrl_ ++ "/devices") ++ "?" ++ ("q=" ++ encode query)) [] e).outError
    ∧ (c.listDevices encode net query o e).out
        = if (c.getJsonArray net
            (urlPath (c.baseUrl_ ++ "/devices") ++ "?" ++ ("q=" ++ encode query)) [] e).ret
          then (c.getJsonArray net
            (urlPath (c.baseUrl_ ++ "/devices") ++ "?" ++ ("q=" ++ encode query))
            [] e).out.foldl listDevicesStep []
          else o := by
  simp only [ApiClient.listDevices]
  cases h : (c.getJsonArray net
    (urlPath (c.baseUrl_ ++ "/devices") ++ "?" ++ ("q=" ++ encode query)) [] e).ret <;> simp

theorem getDevice_fields (c : ApiClient) (net : Network) (id : Int) (d : DeviceDetails)
    (e : String) :
    (c.getDevice net id d e).net = (c.getJsonObject net (idPath "/devices/" id) [] e).net
    ∧ (c.getDevice net id d e).ret = (c.getJsonObject net (idPath "/devices/" id) [] e).ret
    ∧ (c.getDevice net id d e).outError
        = (c.getJsonObject net (idPath "/devices/" id) [] e).outError
    ∧ ((c.getJsonObject net (idPath "/devices/" id) [] e).ret = false →
        (c.getDevice net id d e).out = d) := by
  simp only [ApiClient.getDevice]
  cases h : (c.getJsonObject net (idPath "/devices/" id) [] e).ret <;> simp

/-! ## `postAuth`, case by case -/

/-- The ways `postAuth` ends when its reply is not a success with a token. -/
theorem postAuth_cases (c : ApiClient) (net : Network) (path u p : String) (x : Exchange)
    (hx : net.answered (c.postAuth net path u p).2 = some x) :
    (x.observed.error ≠ NoError →
      (c.postAuth net path u p).1.ok = false
      ∧ (c.postAuth net path u p).1.error
          = if x.observed.document.isObject
            then (x.observed.document.toObject.value "error").toString x.observed.errorString
            else if x.timerFired then "timeout" else x.observed.errorString)
    ∧ (x.observed.error = NoError → x.observed.document.isObject = false →
      (c.postAuth net path u p).1.ok = false
      ∧ (c.postAuth net path u p).1.error = "invalid_response")
    ∧ (x.observed.error = NoError → ∀ obj, x.observed.document = QJsonDocument.object obj →
      obj.contains "token" = false →
      (c.postAuth net path u p).1.ok = false
      ∧ (c.postAuth net path u p).1.error = (obj.value "error").toString "unknown_error") := by
  rw [postAuth_answered] at hx
  have hs : (net.send (authSent c path u p)).1 = x := Option.some.inj hx
  simp only [authSent] at hs
  refine ⟨fun h => ?_, fun h hd => ?_, fun h obj hd ht => ?_⟩
  · cases hd : x.observed.document.isObject <;> cases ht : x.timerFired <;>
      simp [ApiClient.postAuth, QJsonObject.insert, hs, h, hd, ht, AuthResult.default]
  · simp [ApiClient.postAuth, QJsonObject.insert, hs, h, hd]
  · simp [ApiClient.postAuth, QJsonObject.insert, hs, h, hd, ht, QJsonDocument.isObject,
      QJsonDocument.toObject]

/-! ## C3: the `error` field of a failed response -/

/-- C3 (evaluation at the failing input). On a 403 response whose body is an
object with the string `error` = "forbidden", the five list calls fail with the
transport's text, not with "forbidden"; getDevice and deleteVendor, on the
same response, fail with "forbidden". -/
theorem list_calls_ignore_error_body :
    (sampleClient.listVendors forbiddenNetwork [] "").ret = false
    ∧ (sampleClient.listVendors forbiddenNetwork [] "").outError
        = "Error transferring http://localhost:8080/vendors - server replied: Forbidden"
    ∧ (sampleClient.listModels forbiddenNetwork [] "").outError
        = "Error transferring http://localhost:8080/models - server replied: Forbidden"
    ∧ (sampleClient.listLocations forbiddenNetwork [] "").outError
        = "Error transferring http://localhost:8080/locations - server replied: Forbidden"
    ∧ (sampleClient.listDevices id forbiddenNetwork "" [] "").outError
        = "Error transferring http://localhost:8080/devices?q= - server replied: Forbidden"
    ∧ (sampleClient.listUsers forbiddenNetwork [] "").outError
        = "Error transferring http://localhost:8080/users - server replied: Forbidden"
    ∧ (sampleClient.getDevice forbiddenNetwork 1 DeviceDetails.default "").outError = "forbidden"
    ∧ (sampleClient.deleteVendor forbiddenNetwork 1 "").outError = "forbidden" := by
  decide

/-! ## C4: "invalid_response" -/

/-- C4 (counterexample). On a 500 response whose body is not valid JSON,
getDevice, listVendors and login fail with the transport's text, not with
"invalid_response". -/
theorem invalid_body_under_http_error :
    (sampleClient.getDevice brokenServer 1 DeviceDetails.default "").ret = false
    ∧ (sampleClient.getDevice brokenServer 1 DeviceDetails.default "").outError
        = "Error transferring http://localhost:8080/devices/1 - server replied: Internal Server Error"
    ∧ (sampleClient.getDevice brokenServer 1 DeviceDetails.default "").outError
        ≠ "invalid_response"
    ∧ (sampleClient.listVendors brokenServer [] "").outError ≠ "invalid_response"
    ∧ (sampleClient.login brokenServer "bob" "pw").1.error ≠ "invalid_response" := by
  decide

/-- C4 (amended). For every login, register, list, get, create and update
call: when the reply carries no transport error (so the wait did not time out
and the status was not reported as an error) and its body is not valid JSON or
not of the expected kind (an array for the list calls, an object for the
others), the call fails with the message "invalid_response". -/
theorem invalid_response_without_transport_error (c : ApiClient) (net : Network) (x : Exchange)
    (herr : x.observed.error = NoError) :
    (∀ (f : ApiClient → Network → String → String → AuthOutcome) (u p : String),
        (f = ApiClient.login ∨ f = ApiClient.registerUser) →
        net.answered (f c net u p).2 = some x → x.observed.document.isObject = false →
        (f c net u p).1.ok = false ∧ (f c net u p).1.error = "invalid_response")
    ∧ (∀ (o : List VendorItem) (e : String),
        net.answered (c.listVendors net o e).net = some x → x.observed.document.isArray = false →
        (c.listVendors net o e).ret = false ∧ (c.listVendors net o e).outError = "invalid_response")
    ∧ (∀ (o : List ModelItem) (e : String),
        net.answered (c.listModels net o e).net = some x → x.observed.document.isArray = false →
        (c.listModels net o e).ret = false ∧ (c.listModels net o e).outError = "invalid_response")
    ∧ (∀ (o : List LocationItem) (e : String),
        net.answered (c.listLocations net o e).net = some x → x.observed.document.isArray = false →
        (c.listLocations net o e).ret = false ∧ (c.listLocations net o e).outError = "invalid_response")
    ∧ (∀ (encode : String → String) (q : String) (o : List DeviceItem) (e : String),
        net.answered (c.listDevices encode net q o e).net = some x → x.observed.document.isArray = false →
        (c.listDevices encode net q o e).ret = false ∧ (c.listDevices encode net q o e).outError = "invalid_response")
    ∧ (∀ (o : List UserItem) (e : String),
        net.answered (c.listUsers net o e).net = some x → x.observed.document.isArray = false →
        (c.listUsers net o e).ret = false ∧ (c.listUsers net o e).outError = "invalid_response")
    ∧ (∀ (id : Int) (d : DeviceDetails) (e : String),
        net.answered (c.getDevice net id d e).net = some x →
        x.observed.document.isObject = false →
        (c.getDevice net id d e).ret = false ∧ (c.getDevice net id d e).outError = "invalid_response")
    ∧ (∀ (name country e : String),
        net.answered (c.createVendor net name country e).net = some x → x.observed.document.isObject = false →
        (c.createVendor net name country e).ret = false ∧ (c.createVendor net name country e).outError = "invalid_response")
    ∧ (∀ (vendorId : Int) (name deviceType e : String),
        net.answered (c.createModel net vendorId name deviceType e).net = some x → x.observed.document.isObject = false →
        (c.createModel net vendorId name deviceType e).ret = false ∧ (c.createModel net vendorId name deviceType e).outError = "invalid_response")
    ∧ (∀ (name note e : String),
        net.answered (c.createLocation net name note e).net = some x → x.observed.document.isObject = false →
        (c.createLocation net name note e).ret = false ∧ (c.createLocation net name note e).outError = "invalid_response")
    ∧ (∀ (modelId : Int) (loc : QVariant) (sn inv st ia ds e : String),
        net.answered (c.createDevice net modelId loc sn inv st ia ds e).net = some x → x.observed.document.isObject = false →
        (c.createDevice net modelId loc sn inv st ia ds e).ret = false ∧ (c.createDevice net modelId loc sn inv st ia ds e).outError = "invalid_response")
    ∧ (∀ (id : Int) (name country e : String),
        net.answered (c.updateVendor net id name country e).net = some x → x.observed.document.isObject = false →
        (c.updateVendor net id name country e).ret = false ∧ (c.updateVendor net id name country e).outError = "invalid_response")
    ∧ (∀ (id vendorId : Int) (name deviceType e : String),
        net.answered (c.updateModel net id vendorId name deviceType e).net = some x → x.observed.document.isObject = false →
        (c.updateModel net id vendorId name deviceType e).ret = false ∧ (c.updateModel net id vendorId name deviceType e).outError = "invalid_response")
    ∧ (∀ (id : Int) (name note e : String),
        net.answered (c.updateLocation net id name note e).net = some x → x.observed.document.isObject = false →
        (c.updateLocation net id name note e).ret = false ∧ (c.updateLocation net id name note e).outError = "invalid_response")
    ∧ (∀ (id modelId : Int) (loc : QVariant) (sn inv st ia ds e : String),
        net.answered (c.updateDevice net id modelId loc sn inv st ia ds e).net = some x → x.observed.document.isObject = false →
        (c.updateDevice net id modelId loc sn inv st ia ds e).ret = false ∧ (c.updateDevice net id modelId loc sn inv st ia ds e).outError = "invalid_response")
    ∧ (∀ (id : Int) (approved : Bool) (e : String),
        net.answered (c.setUserApproved net id approved e).net = some x → x.observed.document.isObject = false →
        (c.setUserApproved net id approved e).ret = false ∧ (c.setUserApproved net id approved e).outError = "invalid_response") := by
  refine ⟨?_, ?_, ?_, ?_, ?_, ?_, ?_, ?_, ?_, ?_, ?_, ?_, ?_, ?_, ?_, ?_⟩
  · intro f u p hf hx hd
    rcases hf with rfl | rfl
    · exact (postAuth_cases c net _ u p x hx).2.1 herr hd
    · exact (postAuth_cases c net _ u p x hx).2.1 herr hd
  · intro o e hx hd
    obtain ⟨hn, hr, he, _⟩ := listVendors_fields c net o e
    rw [hn] at hx
    rw [hr, he]
    exact ⟨((getJsonArray_cases c net _ [] e x hx).2.1 herr hd).1,
      ((getJsonArray_cases c net _ [] e x hx).2.1 herr hd).2.2⟩
  · intro o e hx hd
    obtain ⟨hn, hr, he, _⟩ := listModels_fields c net o e
    rw [hn] at hx
    rw [hr, he]
    exact ⟨((getJsonArray_cases c net _ [] e x hx).2.1 herr hd).1,
      ((getJsonArray_cases c net _ [] e x hx).2.1 herr hd).2.2⟩
  · intro o e hx hd
    obtain ⟨hn, hr, he, _⟩ := listLocations_fields c net o e
    rw [hn] at hx
    rw [hr, he]
    exact ⟨((getJsonArray_cases c net _ [] e x hx).2.1 herr hd).1,
      ((getJsonArray_cases c net _ [] e x hx).2.1 herr hd).2.2⟩
  · intro encode q o e hx hd
    obtain ⟨hn, hr, he, _⟩ := listDevices_fields encode c net q o e
    rw [hn] at hx
    rw [hr, he]
    exact ⟨((getJsonArray_cases c net _ [] e x hx).2.1 herr hd).1,
      ((getJsonArray_cases c net _ [] e x hx).2.1 herr hd).2.2⟩
  · intro o e hx hd
    obtain ⟨hn, hr, he, _⟩ := listUsers_fields c net o e
    rw [hn] at hx
    rw [hr, he]
    exact ⟨((getJsonArray_cases c net _ [] e x hx).2.1 herr hd).1,
      ((getJsonArray_cases c net _ [] e x hx).2.1 herr hd).2.2⟩
  · intro id d e hx hd
    obtain ⟨hn, hr, he, _⟩ := getDevice_fields c net id d e
    rw [hn] at hx
    rw [hr, he]
    exact ⟨((getJsonObject_cases c net _ [] e x hx).2.1 herr hd).1,
      ((getJsonObject_cases c net _ [] e x hx).2.1 herr hd).2.2⟩
  · intro name country e hx hd
    exact ⟨((postJsonObject_cases c net _ _ [] e x hx).2.1 herr hd).1,
      ((postJsonObject_cases c net _ _ [] e x hx).2.1 herr hd).2.2⟩
  · intro vendorId name deviceType e hx hd
    exact ⟨((postJsonObject_cases c net _ _ [] e x hx).2.1 herr hd).1,
      ((postJsonObject_cases c net _ _ [] e x hx).2.1 herr hd).2.2⟩
  · intro name note e hx hd
    exact ⟨((postJsonObject_cases c net _ _ [] e x hx).2.1 herr hd).1,
      ((postJsonObject_cases c net _ _ [] e x hx).2.1 herr hd).2.2⟩
  · intro modelId loc sn inv st ia ds e hx hd
    exact ⟨((postJsonObject_cases c net _ _ [] e x hx).2.1 herr hd).1,
      ((postJsonObject_cases c net _ _ [] e x hx).2.1 herr hd).2.2⟩
  · intro id name country e hx hd
    exact ⟨((putJsonObject_cases c net _ _ [] e x hx).2.1 herr hd).1,
      ((putJsonObject_cases c net _ _ [] e x hx).2.1 herr hd).2.2⟩
  · intro id vendorId name deviceType e hx hd
    exact ⟨((putJsonObject_cases c net _ _ [] e x hx).2.1 herr hd).1,
      ((putJsonObject_cases c net _ _ [] e x hx).2.1 herr hd).2.2⟩
  · intro id name note e hx hd
    exact ⟨((putJsonObject_cases c net _ _ [] e x hx).2.1 herr hd).1,
      ((putJsonObject_cases c net _ _ [] e x hx).2.1 herr hd).2.2⟩
  · intro id modelId loc sn inv st ia ds e hx hd
    exact ⟨((putJsonObject_cases c net _ _ [] e x hx).2.1 herr hd).1,
      ((putJsonObject_cases c net _ _ [] e x hx).2.1 herr hd).2.2⟩
  · intro id approved e hx hd
    exact ⟨((putJsonObject_cases c net _ _ [] e x hx).2.1 herr hd).1,
      ((putJsonObject_cases c net _ _ [] e x hx).2.1 herr hd).2.2⟩

/-- C4 (witness of the amended claim): an empty 200 response to listVendors. -/
theorem invalid_response_without_transport_error_witness :
    (sampleClient.listVendors emptyBodyServer [] "").ret = false
    ∧ (sampleClient.listVendors emptyBodyServer [] "").outError = "invalid_response" :=
  (invalid_response_without_transport_error sampleClient emptyBodyServer
    (emptyBodyServer.respond [] { verb := "GET", request := sampleClient.makeRequest "/vendors"
                                  body := none }) rfl).2.1 [] "" rfl rfl

/-! ## C5: `locationId` in the body of createDevice and updateDevice -/

theorem postJsonObject_sent (c : ApiClient) (net : Network) (path : String)
    (body o : QJsonObject) (e : String) :
    (c.postJsonObject net path body o e).net.sent
      = net.sent ++ [{ verb := "POST", request := c.makeRequest path, body := some body }] := by
  simp only [ApiClient.postJsonObject]
  split_ifs <;> rfl

theorem putJsonObject_sent (c : ApiClient) (net : Network) (path : String)
    (body o : QJsonObject) (e : String) :
    (c.putJsonObject net path body o e).net.sent
      = net.sent ++ [{ verb := "PUT", request := c.makeRequest path, body := some body }] := by
  simp only [ApiClient.putJsonObject]
  split_ifs <;> rfl

theorem toString_of_not_string (v : QJsonValue) (d : String)
    (h : ∀ s, v ≠ QJsonValue.string s) : v.toString d = d := by
  cases v <;> simp_all [QJsonValue.toString]

/-- C6. For login and register, when the body of the reply is a JSON object
without `token`: ok = false; if the body has a string `error`, the error of the
result is that string, with or without a transport error; if the reply carries
no transport error and the body has no string `error`, the error is
"unknown_error". -/
theorem auth_error_passed_through
    (f : ApiClient → Network → String → String → AuthOutcome)
    (hf : f = ApiClient.login ∨ f = ApiClient.registerUser)
    (c : ApiClient) (net : Network) (u p : String) (x : Exchange) (obj : QJsonObject)
    (hx : net.answered (f c net u p).2 = some x)
    (hdoc : x.observed.document = QJsonDocument.object obj)
    (htok : obj.contains "token" = false) :
    (f c net u p).1.ok = false
    ∧ (∀ s, obj.value "error" = QJsonValue.string s → (f c net u p).1.error = s)
    ∧ (x.observed.error = NoError → (∀ s, obj.value "error" ≠ QJsonValue.string s) →
        (f c net u p).1.error = "unknown_error") := by
  have key : ∀ path, net.answered (c.postAuth net path u p).2 = some x →
      (c.postAuth net path u p).1.ok = false
      ∧ (∀ s, obj.value "error" = QJsonValue.string s → (c.postAuth net path u p).1.error = s)
      ∧ (x.observed.error = NoError → (∀ s, obj.value "error" ≠ QJsonValue.string s) →
          (c.postAuth net path u p).1.error = "unknown_error") := by
    intro path h
    obtain ⟨hfail, _, hclean⟩ := postAuth_cases c net path u p x h
    by_cases herr : x.observed.error = NoError
    · obtain ⟨hok, he⟩ := hclean herr obj hdoc htok
      refine ⟨hok, fun s hs => ?_, fun _ hn => ?_⟩
      · rw [he, hs]; rfl
      · rw [he]; exact toString_of_not_string _ _ hn
    · obtain ⟨hok, he⟩ := hfail herr
      refine ⟨hok, fun s hs => ?_, fun h0 _ => absurd h0 herr⟩
      rw [he, hdoc]
      simp [QJsonDocument.isObject, QJsonDocument.toObject, hs, QJsonValue.toString]
  rcases hf with rfl | rfl
  · exact key _ hx
  · exact key _ hx

/-- C6 (witness): "account_pending_approval" reaches the caller with status
200 and with status 403. -/
theorem auth_error_passed_through_witness :
    (sampleClient.login (Network.always (pendingApproval 200 NoError)) "bob" "pw").1.error
      = "account_pending_approval"
    ∧ (sampleClient.login (Network.always (pendingApproval 403 201)) "bob" "pw").1.error
      = "account_pending_approval" :=
  ⟨(auth_error_passed_through ApiClient.login (Or.inl rfl) sampleClient
      (Network.always (pendingApproval 200 NoError)) "bob" "pw" (pendingApproval 200 NoError)
      [("error", .string "account_pending_approval")] rfl rfl rfl).2.1 _ rfl,
   (auth_error_passed_through ApiClient.login (Or.inl rfl) sampleClient
      (Network.always (pendingApproval 403 201)) "bob" "pw" (pendingApproval 403 201)
      [("error", .string "account_pending_approval")] rfl rfl rfl).2.1 _ rfl⟩

/-! ## C7: what a successful list call returns -/

theorem listVendors_loop (arr : QJsonArray) (acc : List VendorItem) :
    arr.foldl listVendorsStep acc
      = acc ++ (arr.filter QJsonValue.isObject).map (fun v => VendorItem.fromJson v.toObject) := by
  induction arr generalizing acc with
  | nil => simp
  | cons v rest ih =>
    cases hv : v.isObject <;> simp [List.foldl, listVendorsStep, ih, hv]

theorem listModels_loop (arr : QJsonArray) (acc : List ModelItem) :
    arr.foldl listModelsStep acc
      = acc ++ (arr.filter QJsonValue.isObject).map (fun v => ModelItem.fromJson v.toObject) := by
  induction arr generalizing acc with
  | nil => simp
  | cons v rest ih =>
    cases hv : v.isObject <;> simp [List.foldl, listModelsStep, ih, hv]

theorem listLocations_loop (arr : QJsonArray) (acc : List LocationItem) :
    arr.foldl listLocationsStep acc
      = acc ++ (arr.filter QJsonValue.isObject).map (fun v => LocationItem.fromJson v.toObject) := by
  induction arr generalizing acc with
  | nil => simp
  | cons v rest ih =>
    cases hv : v.isObject <;> simp [List.foldl, listLocationsStep, ih, hv]

theorem listDevices_loop (arr : QJsonArray) (acc : List DeviceItem) :
    arr.foldl listDevicesStep acc
      = acc ++ (arr.filter QJsonValue.isObject).map (fun v => DeviceItem.fromJson v.toObject) := by
  induction arr generalizing acc with
  | nil => simp
  | cons v rest ih =>
    cases hv : v.isObject <;> simp [List.foldl, listDevicesStep, ih, hv]

theorem listUsers_loop (arr : QJsonArray) (acc : List UserItem) :
    arr.foldl listUsersStep acc
      = acc ++ (arr.filter QJsonValue.isObject).map (fun v => UserItem.fromJson v.toObject) := by
  induction arr generalizing acc with
  | nil => simp
  | cons v rest ih =>
    cases hv : v.isObject <;> simp [List.foldl, listUsersStep, ih, hv]

theorem getJsonArray_fails (c : ApiClient) (net : Network) (path : String) (a : QJsonArray)
    (e : String) (x : Exchange)
    (hx : net.answered (c.getJsonArray net path a e).net = some x)
    (hfail : x.timerFired = true ∨ x.observed.error ≠ NoError
      ∨ x.observed.document.isArray = false) :
    (c.getJsonArray net path a e).ret = false := by
  obtain ⟨h1, h2, _⟩ := getJsonArray_cases c net path a e x hx
  by_cases herr : x.observed.error = NoError
  · rcases hfail with ht | hne | hd
    · exact absurd herr (observed_error_of_timer x ht)
    · exact absurd herr hne
    · exact (h2 herr hd).1
  · exact (h1 herr).1

/-- C8. For the five list calls and every previous content `o` of the output
list: when the wait timed out, or the reply carries a transport error, or the
body is not a JSON array, the call returns false and the output list is `o`. -/
theorem list_calls_failure_keeps_output (c : ApiClient) (net : Network) (x : Exchange)
    (hfail : x.timerFired = true ∨ x.observed.error ≠ NoError
      ∨ x.observed.document.isArray = false) :
    (∀ (o : List VendorItem) (e : String),
        net.answered (c.listVendors net o e).net = some x →
        (c.listVendors net o e).ret = false ∧ (c.listVendors net o e).out = o)
    ∧ (∀ (o : List ModelItem) (e : String),
        net.answered (c.listModels net o e).net = some x →
        (c.listModels net o e).ret = false ∧ (c.listModels net o e).out = o)
    ∧ (∀ (o : List LocationItem) (e : String),
        net.answered (c.listLocations net o e).net = some x →
        (c.listLocations net o e).ret = false ∧ (c.listLocations net o e).out = o)
    ∧ (∀ (encode : String → String) (q : String) (o : List DeviceItem) (e : String),
        net.answered (c.listDevices encode net q o e).net = some x →
        (c.listDevices encode net q o e).ret = false ∧ (c.listDevices encode net q o e).out = o)
    ∧ (∀ (o : List UserItem) (e : String),
        net.answered (c.listUsers net o e).net = some x →
        (c.listUsers net o e).ret = false ∧ (c.listUsers net o e).out = o) := by
  refine ⟨?_, ?_, ?_, ?_, ?_⟩
  · intro o e hx
    obtain ⟨hn, hr, _, ho⟩ := listVendors_fields c net o e
    rw [hn] at hx
    have hf := getJsonArray_fails c net _ [] e x hx hfail
    rw [hr, ho, hf]
    exact ⟨rfl, by simp⟩
  · intro o e hx
    obtain ⟨hn, hr, _, ho⟩ := listModels_fields c net o e
    rw [hn] at hx
    have hf := getJsonArray_fails c net _ [] e x hx hfail
    rw [hr, ho, hf]
    exact ⟨rfl, by simp⟩
  · intro o e hx
    obtain ⟨hn, hr, _, ho⟩ := listLocations_fields c net o e
    rw [hn] at hx
    have hf := getJsonArray_fails c net _ [] e x hx hfail
    rw [hr, ho, hf]
    exact ⟨rfl, by simp⟩
  · intro encode q o e hx
    obtain ⟨hn, hr, _, ho⟩ := listDevices_fields encode c net q o e
    rw [hn] at hx
    have hf := getJsonArray_fails c net _ [] e x hx hfail
    rw [hr, ho, hf]
    exact ⟨rfl, by simp⟩
  · intro o e hx
    obtain ⟨hn, hr, _, ho⟩ := listUsers_fields c net o e
    rw [hn] at hx
    have hf := getJsonArray_fails c net _ [] e x hx hfail
    rw [hr, ho, hf]
    exact ⟨rfl, by simp⟩

/-- C8 (witness): listUsers timing out over a list of one user. -/
theorem list_calls_failure_keeps_output_witness :
    (sampleClient.listUsers (Network.always timedOutExchange)
      [{ id := 4, username := "ann", role := "user", approved := true, createdAt := "" }] "").ret
      = false
    ∧ (sampleClient.listUsers (Network.always timedOutExchange)
      [{ id := 4, username := "ann", role := "user", approved := true, createdAt := "" }] "").out
      = [{ id := 4, username := "ann", role := "user", approved := true, createdAt := "" }] :=
  (list_calls_failure_keeps_output sampleClient (Network.always timedOutExchange)
    timedOutExchange (Or.inl rfl)).2.2.2.2
    [{ id := 4, username := "ann", role := "user", approved := true, createdAt := "" }] "" rfl

/-! ## C9: delete accepts any body -/

/-- C9. For the five delete calls: when the reply carries no transport error
the call returns true and leaves the error string as it was, whatever the body
is (no document, an array or an object). -/
theorem delete_calls_accept_any_body (c : ApiClient) (net : Network) (x : Exchange)
    (herr : x.observed.error = NoError) :
    (∀ (id : Int) (e : String), net.answered (c.deleteVendor net id e).net = some x →
        (c.deleteVendor net id e).ret = true ∧ (c.deleteVendor net id e).outError = e)
    ∧ (∀ (id : Int) (e : String), net.answered (c.deleteModel net id e).net = some x →
        (c.deleteModel net id e).ret = true ∧ (c.deleteModel net id e).outError = e)
    ∧ (∀ (id : Int) (e : String), net.answered (c.deleteLocation net id e).net = some x →
        (c.deleteLocation net id e).ret = true ∧ (c.deleteLocation net id e).outError = e)
    ∧ (∀ (id : Int) (e : String), net.answered (c.deleteDevice net id e).net = some x →
        (c.deleteDevice net id e).ret = true ∧ (c.deleteDevice net id e).outError = e)
    ∧ (∀ (id : Int) (e : String), net.answered (c.deleteUser net id e).net = some x →
        (c.deleteUser net id e).ret = true ∧ (c.deleteUser net id e).outError = e) := by
  have key : ∀ (path e : String), net.answered (c.deleteRequest net path [] e).net = some x →
      (c.deleteRequest net path [] e).ret = true
      ∧ (c.deleteRequest net path [] e).outError = e := by
    intro path e hx
    obtain ⟨h1, _, h3⟩ := (deleteRequest_cases c net path [] e x hx).2 herr
    rw [timer_not_fired_of_no_error x herr] at h3
    exact ⟨h1, by simpa using h3⟩
  exact ⟨fun id e hx => key _ e hx, fun id e hx => key _ e hx, fun id e hx => key _ e hx,
    fun id e hx => key _ e hx, fun id e hx => key _ e hx⟩

/-- C9 (witness): deleteVendor succeeds on an empty body, on an array and on an object. -/
theorem delete_calls_accept_any_body_witness :
    (sampleClient.deleteVendor emptyBodyServer 3 "").ret = true
    ∧ (sampleClient.deleteVendor vendorServer 3 "").ret = true
    ∧ (sampleClient.deleteVendor (Network.always loginAccepted) 3 "").ret = true :=
  ⟨((delete_calls_accept_any_body sampleClient emptyBodyServer
      (emptyBodyServer.respond [] { verb := "DELETE"
                                    request := sampleClient.makeRequest "/vendors/3"
                                    body := none }) rfl).1 3 "" rfl).1,
   ((delete_calls_accept_any_body sampleClient vendorServer
      (vendorServer.respond [] { verb := "DELETE"
                                 request := sampleClient.makeRequest "/vendors/3"
                                 body := none }) rfl).1 3 "" rfl).1,
   ((delete_calls_accept_any_body sampleClient (Network.always loginAccepted)
      loginAccepted rfl).1 3 "" rfl).1⟩

/-! ## C10: the message of a transport failure -/

/-- C10 (evaluation at the failing input). With the caller's error string
holding "previous failure", a refused connection makes the list calls return
"previous failure" where getDevice, createVendor, deleteVendor and login
return the transport's "Connection refused". -/
theorem list_calls_keep_stale_error :
    (sampleClient.listVendors refusingNetwork [] "previous failure").ret = false
    ∧ (sampleClient.listVendors refusingNetwork [] "previous failure").outError
        = "previous failure"
    ∧ (sampleClient.listModels refusingNetwork [] "previous failure").outError
        = "previous failure"
    ∧ (sampleClient.listLocations refusingNetwork [] "previous failure").outError
        = "previous failure"
    ∧ (sampleClient.listDevices id refusingNetwork "" [] "previous failure").outError
        = "previous failure"
    ∧ (sampleClient.listUsers refusingNetwork [] "previous failure").outError
        = "previous failure"
    ∧ (sampleClient.listVendors refusingNetwork [] "").outError = "Connection refused"
    ∧ (sampleClient.getDevice refusingNetwork 1 DeviceDetails.default
        "previous failure").outError = "Connection refused"
    ∧ (sampleClient.createVendor refusingNetwork "Acme" "US" "previous failure").outError
        = "Connection refused"
    ∧ (sampleClient.deleteVendor refusingNetwork 1 "previous failure").outError
        = "Connection refused"
    ∧ (sampleClient.login refusingNetwork "bob" "pw").1.error = "Connection refused" := by
  decide

/-! ## The request each helper issues -/

theorem getJsonArray_sent (c : ApiClient) (net : Network) (path : String)
    (a : QJsonArray) (e : String) :
    (c.getJsonArray net path a e).net.sent
      = net.sent ++ [{ verb := "GET", request := c.makeRequest path, body := none }] := by
  simp only [ApiClient.getJsonArray]
  split_ifs <;> rfl

theorem getJsonObject_sent (c : ApiClient) (net : Network) (path : String)
    (o : QJsonObject) (e : String) :
    (c.getJsonObject net path o e).net.sent
      = net.sent ++ [{ verb := "GET", request := c.makeRequest path, body := none }] := by
  simp only [ApiClient.getJsonObject]
  split_ifs <;> rfl

theorem deleteRequest_sent (c : ApiClient) (net : Network) (path : String)
    (o : QJsonObject) (e : String) :
    (c.deleteRequest net path o e).net.sent
      = net.sent ++ [{ verb := "DELETE", request := c.makeRequest path, body := none }] := by
  simp only [ApiClient.deleteRequest]
  split_ifs <;> rfl

theorem postAuth_sent (c : ApiClient) (net : Network) (path u p : String) :
    (c.postAuth net path u p).net.sent = net.sent ++ [authSent c path u p] := by
  have h := postAuth_net c net path u p
  exact congrArg Network.sent h

/-- The bearer header of the request the resource helpers build. -/
theorem makeRequest_bearer (c : ApiClient) (path v : String) :
    ("Authorization", v) ∈ (c.makeRequest path).headers
      ↔ (c.token_ ≠ "" ∧ v = "Bearer " ++ c.token_) := by
  by_cases h : c.token_ = "" <;>
    simp [ApiClient.makeRequest, QNetworkRequest.setRawHeader, h]

/-! ## C11: the bearer header -/

/-- C11. Every list, get, create, update and delete call issues a request
whose headers hold `Authorization` with the value `v` exactly when the
client's token is not empty and `v` is "Bearer " followed by that token. -/
theorem resource_requests_carry_bearer (c : ApiClient) (net : Network) (v : String) :
    (∀ (o : List VendorItem) (e : String), ∃ s : Sent,
        (c.listVendors net o e).net.sent = net.sent ++ [s]
        ∧ (("Authorization", v) ∈ s.request.headers ↔ (c.token_ ≠ "" ∧ v = "Bearer " ++ c.token_)))
    ∧ (∀ (o : List ModelItem) (e : String), ∃ s : Sent,
        (c.listModels net o e).net.sent = net.sent ++ [s]
        ∧ (("Authorization", v) ∈ s.request.headers ↔ (c.token_ ≠ "" ∧ v = "Bearer " ++ c.token_)))
    ∧ (∀ (o : List LocationItem) (e : String), ∃ s : Sent,
        (c.listLocations net o e).net.sent = net.sent ++ [s]
        ∧ (("Authorization", v) ∈ s.request.headers ↔ (c.token_ ≠ "" ∧ v = "Bearer " ++ c.token_)))
    ∧ (∀ (encode : String → String) (q : String) (o : List DeviceItem) (e : String), ∃ s : Sent,
        (c.listDevices encode net q o e).net.sent = net.sent ++ [s]
        ∧ (("Authorization", v) ∈ s.request.headers ↔ (c.token_ ≠ "" ∧ v = "Bearer " ++ c.token_)))
    ∧ (∀ (o : List UserItem) (e : String), ∃ s : Sent,
        (c.listUsers net o e).net.sent = net.sent ++ [s]
        ∧ (("Authorization", v) ∈ s.request.headers ↔ (c.token_ ≠ "" ∧ v = "Bearer " ++ c.token_)))
    ∧ (∀ (id : Int) (d : DeviceDetails) (e : String), ∃ s : Sent,
        (c.getDevice net id d e).net.sent = net.sent ++ [s]
        ∧ (("Authorization", v) ∈ s.request.headers ↔ (c.token_ ≠ "" ∧ v = "Bearer " ++ c.token_)))
    ∧ (∀ (name country e : String), ∃ s : Sent,
        (c.createVendor net name country e).net.sent = net.sent ++ [s]
        ∧ (("Authorization", v) ∈ s.request.headers ↔ (c.token_ ≠ "" ∧ v = "Bearer " ++ c.token_)))
    ∧ (∀ (vendorId : Int) (name deviceType e : String), ∃ s : Sent,
        (c.createModel net vendorId name deviceType e).net.sent = net.sent ++ [s]
        ∧ (("Authorization", v) ∈ s.request.headers ↔ (c.token_ ≠ "" ∧ v = "Bearer " ++ c.token_)))
    ∧ (∀ (name note e : String), ∃ s : Sent,
        (c.createLocation net name note e).net.sent = net.sent ++ [s]
        ∧ (("Authorization", v) ∈ s.request.headers ↔ (c.token_ ≠ "" ∧ v = "Bearer " ++ c.token_)))
    ∧ (∀ (modelId : Int) (loc : QVariant) (sn inv st ia ds e : String), ∃ s : Sent,
        (c.createDevice net modelId loc sn inv st ia ds e).net.sent = net.sent ++ [s]
        ∧ (("Authorization", v) ∈ s.request.headers ↔ (c.token_ ≠ "" ∧ v = "Bearer " ++ c.token_)))
    ∧ (∀ (id : Int) (name country e : String), ∃ s : Sent,
        (c.updateVendor net id name country e).net.sent = net.sent ++ [s]
        ∧ (("Authorization", v) ∈ s.request.headers ↔ (c.token_ ≠ "" ∧ v = "Bearer " ++ c.token_)))
    ∧ (∀ (id vendorId : Int) (name deviceType e : String), ∃ s : Sent,
        (c.updateModel net id vendorId name deviceType e).net.sent = net.sent ++ [s]
        ∧ (("Authorization", v) ∈ s.request.headers ↔ (c.token_ ≠ "" ∧ v = "Bearer " ++ c.token_)))
    ∧ (∀ (id : Int) (name note e : String), ∃ s : Sent,
        (c.updateLocation net id name note e).net.sent = net.sent ++ [s]
        ∧ (("Authorization", v) ∈ s.request.headers ↔ (c.token_ ≠ "" ∧ v = "Bearer " ++ c.token_)))
    ∧ (∀ (id modelId : Int) (loc : QVariant) (sn inv st ia ds e : String), ∃ s : Sent,
        (c.updateDevice net id modelId loc sn inv st ia ds e).net.sent = net.sent ++ [s]
        ∧ (("Authorization", v) ∈ s.request.headers ↔ (c.token_ ≠ "" ∧ v = "Bearer " ++ c.token_)))
    ∧ (∀ (id : Int) (approved : Bool) (e : String), ∃ s : Sent,
        (c.setUserApproved net id approved e).net.sent = net.sent ++ [s]
        ∧ (("Authorization", v) ∈ s.request.headers ↔ (c.token_ ≠ "" ∧ v = "Bearer " ++ c.token_)))
    ∧ (∀ (id : Int) (e : String), ∃ s : Sent,
        (c.deleteVendor net id e).net.sent = net.sent ++ [s]
        ∧ (("Authorization", v) ∈ s.request.headers ↔ (c.token_ ≠ "" ∧ v = "Bearer " ++ c.token_)))
    ∧ (∀ (id : Int) (e : String), ∃ s : Sent,
        (c.deleteModel net id e).net.sent = net.sent ++ [s]
        ∧ (("Authorization", v) ∈ s.request.headers ↔ (c.token_ ≠ "" ∧ v = "Bearer " ++ c.token_)))
    ∧ (∀ (id : Int) (e : String), ∃ s : Sent,
        (c.deleteLocation net id e).net.sent = net.sent ++ [s]
        ∧ (("Authorization", v) ∈ s.request.headers ↔ (c.token_ ≠ "" ∧ v = "Bearer " ++ c.token_)))
    ∧ (∀ (id : Int) (e : String), ∃ s : Sent,
        (c.deleteDevice net id e).net.sent = net.sent ++ [s]
        ∧ (("Authorization", v) ∈ s.request.headers ↔ (c.token_ ≠ "" ∧ v = "Bearer " ++ c.token_)))
    ∧ (∀ (id : Int) (e : String), ∃ s : Sent,
        (c.deleteUser net id e).net.sent = net.sent ++ [s]
        ∧ (("Authorization", v) ∈ s.request.headers ↔ (c.token_ ≠ "" ∧ v = "Bearer " ++ c.token_))) := by
  refine ⟨?_, ?_, ?_, ?_, ?_, ?_, ?_, ?_, ?_, ?_, ?_, ?_, ?_, ?_, ?_, ?_, ?_, ?_, ?_, ?_⟩
  · intro o e
    rw [(listVendors_fields c net o e).1]
    exact ⟨_, getJsonArray_sent c net _ _ _, makeRequest_bearer c _ v⟩
  · intro o e
    rw [(listModels_fields c net o e).1]
    exact ⟨_, getJsonArray_sent c net _ _ _, makeRequest_bearer c _ v⟩
  · intro o e
    rw [(listLocations_fields c net o e).1]
    exact ⟨_, getJsonArray_sent c net _ _ _, makeRequest_bearer c _ v⟩
  · intro encode q o e
    rw [(listDevices_fields encode c net q o e).1]
    exact ⟨_, getJsonArray_sent c net _ _ _, makeRequest_bearer c _ v⟩
  · intro o e
    rw [(listUsers_fields c net o e).1]
    exact ⟨_, getJsonArray_sent c net _ _ _, makeRequest_bearer c _ v⟩
  · intro id d e
    rw [(getDevice_fields c net id d e).1]
    exact ⟨_, getJsonObject_sent c net _ _ _, makeRequest_bearer c _ v⟩
  · intro name country e
    exact ⟨_, postJsonObject_sent c net _ _ _ _, makeRequest_bearer c _ v⟩
  · intro vendorId name deviceType e
    exact ⟨_, postJsonObject_sent c net _ _ _ _, makeRequest_bearer c _ v⟩
  · intro name note e
    exact ⟨_, postJsonObject_sent c net _ _ _ _, makeRequest_bearer c _ v⟩
  · intro modelId loc sn inv st ia ds e
    exact ⟨_, postJsonObject_sent c net _ _ _ _, makeRequest_bearer c _ v⟩
  · intro id name country e
    exact ⟨_, putJsonObject_sent c net _ _ _ _, makeRequest_bearer c _ v⟩
  · intro id vendorId name deviceType e
    exact ⟨_, putJsonObject_sent c net _ _ _ _, makeRequest_bearer c _ v⟩
  · intro id name note e
    exact ⟨_, putJsonObject_sent c net _ _ _ _, makeRequest_bearer c _ v⟩
  · intro id modelId loc sn inv st ia ds e
    exact ⟨_, putJsonObject_sent c net _ _ _ _, makeRequest_bearer c _ v⟩
  · intro id approved e
    exact ⟨_, putJsonObject_sent c net _ _ _ _, makeRequest_bearer c _ v⟩
  · intro id e
    exact ⟨_, deleteRequest_sent c net _ _ _, makeRequest_bearer c _ v⟩
  · intro id e
    exact ⟨_, deleteRequest_sent c net _ _ _, makeRequest_bearer c _ v⟩
  · intro id e
    exact ⟨_, deleteRequest_sent c net _ _ _, makeRequest_bearer c _ v⟩
  · intro id e
    exact ⟨_, deleteRequest_sent c net _ _ _, makeRequest_bearer c _ v⟩
  · intro id e
    exact ⟨_, deleteRequest_sent c net _ _ _, makeRequest_bearer c _ v⟩

/-! ## C16: the client object after a call -/

theorem postAuth_self (c : ApiClient) (net : Network) (path u p : String) :
    (c.postAuth net path u p).self = c := by
  simp only [ApiClient.postAuth]
  split_ifs <;> rfl

theorem getJsonArray_self (c : ApiClient) (net : Network) (path : String)
    (a : QJsonArray) (e : String) : (c.getJsonArray net path a e).self = c := by
  simp only [ApiClient.getJsonArray]
  split_ifs <;> rfl

theorem getJsonObject_self (c : ApiClient) (net : Network) (path : String)
    (o : QJsonObject) (e : String) : (c.getJsonObject net path o e).self = c := by
  simp only [ApiClient.getJsonObject]
  split_ifs <;> rfl

theorem postJsonObject_self (c : ApiClient) (net : Network) (path : String)
    (body o : QJsonObject) (e : String) : (c.postJsonObject net path body o e).self = c := by
  simp only [ApiClient.postJsonObject]
  split_ifs <;> rfl

theorem putJsonObject_self (c : ApiClient) (net : Network) (path : String)
    (body o : QJsonObject) (e : String) : (c.putJsonObject net path body o e).self = c := by
  simp only [ApiClient.putJsonObject]
  split_ifs <;> rfl

theorem deleteRequest_self (c : ApiClient) (net : Network) (path : String)
    (o : QJsonObject) (e : String) : (c.deleteRequest net path o e).self = c := by
  simp only [ApiClient.deleteRequest]
  split_ifs <;> rfl

theorem listVendors_self (c : ApiClient) (net : Network) (o : List VendorItem) (e : String) :
    (c.listVendors net o e).self = c := by
  simp only [ApiClient.listVendors]
  split_ifs <;> exact getJsonArray_self c net _ _ _

theorem listModels_self (c : ApiClient) (net : Network) (o : List ModelItem) (e : String) :
    (c.listModels net o e).self = c := by
  simp only [ApiClient.listModels]
  split_ifs <;> exact getJsonArray_self c net _ _ _

theorem listLocations_self (c : ApiClient) (net : Network) (o : List LocationItem) (e : String) :
    (c.listLocations net o e).self = c := by
  simp only [ApiClient.listLocations]
  split_ifs <;> exact getJsonArray_self c net _ _ _

theorem listDevices_self (c : ApiClient) (net : Network) (encode : String → String) (q : String) (o : List DeviceItem) (e : String) :
    (c.listDevices encode net q o e).self = c := by
  simp only [ApiClient.listDevices]
  split_ifs <;> exact getJsonArray_self c net _ _ _

theorem listUsers_self (c : ApiClient) (net : Network) (o : List UserItem) (e : String) :
    (c.listUsers net o e).self = c := by
  simp only [ApiClient.listUsers]
  split_ifs <;> exact getJsonArray_self c net _ _ _

theorem getDevice_self (c : ApiClient) (net : Network) (id : Int) (d : DeviceDetails) (e : String) :
    (c.getDevice net id d e).self = c := by
  simp only [ApiClient.getDevice]
  split_ifs <;> exact getJsonObject_self c net _ _ _

/-- C16. After login, register and every list, get, create, update and delete
call, whatever the outcome, `baseUrl()` and `token()` of the client return
what they returned before the call; a login that succeeds with the token
"abc" leaves the client's token "t0k3n" in place. -/
theorem calls_leave_client_unchanged (c : ApiClient) (net : Network) :
    (∀ (u p : String),
        (c.login net u p).self.baseUrl = c.baseUrl ∧ (c.login net u p).self.token = c.token)
    ∧ (∀ (u p : String),
        (c.registerUser net u p).self.baseUrl = c.baseUrl
        ∧ (c.registerUser net u p).self.token = c.token)
    ∧ (∀ (o : List VendorItem) (e : String),
        (c.listVendors net o e).self.baseUrl = c.baseUrl
        ∧ (c.listVendors net o e).self.token = c.token)
    ∧ (∀ (o : List ModelItem) (e : String),
        (c.listModels net o e).self.baseUrl = c.baseUrl
        ∧ (c.listModels net o e).self.token = c.token)
    ∧ (∀ (o : List LocationItem) (e : String),
        (c.listLocations net o e).self.baseUrl = c.baseUrl
        ∧ (c.listLocations net o e).self.token = c.token)
    ∧ (∀ (encode : String → String) (q : String) (o : List DeviceItem) (e : String),
        (c.listDevices encode net q o e).self.baseUrl = c.baseUrl
        ∧ (c.listDevices encode net q o e).self.token = c.token)
    ∧ (∀ (o : List UserItem) (e : String),
        (c.listUsers net o e).self.baseUrl = c.baseUrl
        ∧ (c.listUsers net o e).self.token = c.token)
    ∧ (∀ (id : Int) (d : DeviceDetails) (e : String),
        (c.getDevice net id d e).self.baseUrl = c.baseUrl
        ∧ (c.getDevice net id d e).self.token = c.token)
    ∧ (∀ (name country e : String),
        (c.createVendor net name country e).self.baseUrl = c.baseUrl
        ∧ (c.createVendor net name country e).self.token = c.token)
    ∧ (∀ (vendorId : Int) (name deviceType e : String),
        (c.createModel net vendorId name deviceType e).self.baseUrl = c.baseUrl
        ∧ (c.createModel net vendorId name deviceType e).self.token = c.token)
    ∧ (∀ (name note e : String),
        (c.createLocation net name note e).self.baseUrl = c.baseUrl
        ∧ (c.createLocation net name note e).self.token = c.token)
    ∧ (∀ (modelId : Int) (loc : QVariant) (sn inv st ia ds e : String),
        (c.createDevice net modelId loc sn inv st ia ds e).self.baseUrl = c.baseUrl
        ∧ (c.createDevice net modelId loc sn inv st ia ds e).self.token = c.token)
    ∧ (∀ (id : Int) (name country e : String),
        (c.updateVendor net id name country e).self.baseUrl = c.baseUrl
        ∧ (c.updateVendor net id name country e).self.token = c.token)
    ∧ (∀ (id vendorId : Int) (name deviceType e : String),
        (c.updateModel net id vendorId name deviceType e).self.baseUrl = c.baseUrl
        ∧ (c.updateModel net id vendorId name deviceType e).self.token = c.token)
    ∧ (∀ (id : Int) (name note e : String),
        (c.updateLocation net id name note e).self.baseUrl = c.baseUrl
        ∧ (c.updateLocation net id name note e).self.token = c.token)
    ∧ (∀ (id modelId : Int) (loc : QVariant) (sn inv st ia ds e : String),
        (c.updateDevice net id modelId loc sn inv st ia ds e).self.baseUrl = c.baseUrl
        ∧ (c.updateDevice net id modelId loc sn inv st ia ds e).self.token = c.token)
    ∧ (∀ (id : Int) (approved : Bool) (e : String),
        (c.setUserApproved net id approved e).self.baseUrl = c.baseUrl
        ∧ (c.setUserApproved net id approved e).self.token = c.token)
    ∧ (∀ (id : Int) (e : String),
        (c.deleteVendor net id e).self.baseUrl = c.baseUrl
        ∧ (c.deleteVendor net id e).self.token = c.token)
    ∧ (∀ (id : Int) (e : String),
        (c.deleteModel net id e).self.baseUrl = c.baseUrl
        ∧ (c.deleteModel net id e).self.token = c.token)
    ∧ (∀ (id : Int) (e : String),
        (c.deleteLocation net id e).self.baseUrl = c.baseUrl
        ∧ (c.deleteLocation net id e).self.token = c.token)
    ∧ (∀ (id : Int) (e : String),
        (c.deleteDevice net id e).self.baseUrl = c.baseUrl
        ∧ (c.deleteDevice net id e).self.token = c.token)
    ∧ (∀ (id : Int) (e : String),
        (c.deleteUser net id e).self.baseUrl = c.baseUrl
        ∧ (c.deleteUser net id e).self.token = c.token)
    ∧ ((sampleClient.login (Network.always loginAccepted) "bob" "pw").result.ok = true
      ∧ (sampleClient.login (Network.always loginAccepted) "bob" "pw").result.token = "abc"
      ∧ (sampleClient.login (Network.always loginAccepted) "bob" "pw").self.token = "t0k3n") := by
  refine ⟨?_, ?_, ?_, ?_, ?_, ?_, ?_, ?_, ?_, ?_, ?_, ?_, ?_, ?_, ?_, ?_, ?_, ?_, ?_, ?_, ?_, ?_, ?_⟩
  · intro u p
    rw [show (c.login net u p).self = c from postAuth_self c net _ u p]
    exact ⟨rfl, rfl⟩
  · intro u p
    rw [show (c.registerUser net u p).self = c from postAuth_self c net _ u p]
    exact ⟨rfl, rfl⟩
  · intro o e
    rw [listVendors_self]
    exact ⟨rfl, rfl⟩
  · intro o e
    rw [listModels_self]
    exact ⟨rfl, rfl⟩
  · intro o e
    rw [listLocations_self]
    exact ⟨rfl, rfl⟩
  · intro encode q o e
    rw [listDevices_self]
    exact ⟨rfl, rfl⟩
  · intro o e
    rw [listUsers_self]
    exact ⟨rfl, rfl⟩
  · intro id d e
    rw [getDevice_self]
    exact ⟨rfl, rfl⟩
  · intro name country e
    rw [show (c.createVendor net name country e).self = c from postJsonObject_self c net _ _ _ _]
    exact ⟨rfl, rfl⟩
  · intro vendorId name deviceType e
    rw [show (c.createModel net vendorId name deviceType e).self = c from postJsonObject_self c net _ _ _ _]
    exact ⟨rfl, rfl⟩
  · intro name note e
    rw [show (c.createLocation net name note e).self = c from postJsonObject_self c net _ _ _ _]
    exact ⟨rfl, rfl⟩
  · intro modelId loc sn inv st ia ds e
    rw [show (c.createDevice net modelId loc sn inv st ia ds e).self = c from postJsonObject_self c net _ _ _ _]
    exact ⟨rfl, rfl⟩
  · intro id name country e
    rw [show (c.updateVendor net id name country e).self = c from putJsonObject_self c net _ _ _ _]
    exact ⟨rfl, rfl⟩
  · intro id vendorId name deviceType e
    rw [show (c.updateModel net id vendorId name deviceType e).self = c from putJsonObject_self c net _ _ _ _]
    exact ⟨rfl, rfl⟩
  · intro id name note e
    rw [show (c.updateLocation net id name note e).self = c from putJsonObject_self c net _ _ _ _]
    exact ⟨rfl, rfl⟩
  · intro id modelId loc sn inv st ia ds e
    rw [show (c.updateDevice net id modelId loc sn inv st ia ds e).self = c from putJsonObject_self c net _ _ _ _]
    exact ⟨rfl, rfl⟩
  · intro id approved e
    rw [show (c.setUserApproved net id approved e).self = c from putJsonObject_self c net _ _ _ _]
    exact ⟨rfl, rfl⟩
  · intro id e
    rw [show (c.deleteVendor net id e).self = c from deleteRequest_self c net _ _ _]
    exact ⟨rfl, rfl⟩
  · intro id e
    rw [show (c.deleteModel net id e).self = c from deleteRequest_self c net _ _ _]
    exact ⟨rfl, rfl⟩
  · intro id e
    rw [show (c.deleteLocation net id e).self = c from deleteRequest_self c net _ _ _]
    exact ⟨rfl, rfl⟩
  · intro id e
    rw [show (c.deleteDevice net id e).self = c from deleteRequest_self c net _ _ _]
    exact ⟨rfl, rfl⟩
  · intro id e
    rw [show (c.deleteUser net id e).self = c from deleteRequest_self c net _ _ _]
    exact ⟨rfl, rfl⟩
  · decide

/-! ## C17: one request per call -/

/-- C17. Login, register and every list, get, create, update and delete call
add exactly one request to the log of requests issued, whatever the outcome of
that request; each call is a total function, so it returns after it. -/
theorem calls_issue_one_request (c : ApiClient) (net : Network) :
    (∀ (u p : String), ∃ s : Sent, (c.login net u p).net.sent = net.sent ++ [s])
    ∧ (∀ (u p : String), ∃ s : Sent, (c.registerUser net u p).net.sent = net.sent ++ [s])
    ∧ (∀ (o : List VendorItem) (e : String), ∃ s : Sent,
        (c.listVendors net o e).net.sent = net.sent ++ [s])
    ∧ (∀ (o : List ModelItem) (e : String), ∃ s : Sent,
        (c.listModels net o e).net.sent = net.sent ++ [s])
    ∧ (∀ (o : List LocationItem) (e : String), ∃ s : Sent,
        (c.listLocations net o e).net.sent = net.sent ++ [s])
    ∧ (∀ (encode : String → String) (q : String) (o : List DeviceItem) (e : String), ∃ s : Sent,
        (c.listDevices encode net q o e).net.sent = net.sent ++ [s])
    ∧ (∀ (o : List UserItem) (e : String), ∃ s : Sent,
        (c.listUsers net o e).net.sent = net.sent ++ [s])
    ∧ (∀ (id : Int) (d : DeviceDetails) (e : String), ∃ s : Sent,
        (c.getDevice net id d e).net.sent = net.sent ++ [s])
    ∧ (∀ (name country e : String), ∃ s : Sent,
        (c.createVendor net name country e).net.sent = net.sent ++ [s])
    ∧ (∀ (vendorId : Int) (name deviceType e : String), ∃ s : Sent,
        (c.createModel net vendorId name deviceType e).net.sent = net.sent ++ [s])
    ∧ (∀ (name note e : String), ∃ s : Sent,
        (c.createLocation net name note e).net.sent = net.sent ++ [s])
    ∧ (∀ (modelId : Int) (loc : QVariant) (sn inv st ia ds e : String), ∃ s : Sent,
        (c.createDevice net modelId loc sn inv st ia ds e).net.sent = net.sent ++ [s])
    ∧ (∀ (id : Int) (name country e : String), ∃ s : Sent,
        (c.updateVendor net id name country e).net.sent = net.sent ++ [s])
    ∧ (∀ (id vendorId : Int) (name deviceType e : String), ∃ s : Sent,
        (c.updateModel net id vendorId name deviceType e).net.sent = net.sent ++ [s])
    ∧ (∀ (id : Int) (name note e : String), ∃ s : Sent,
        (c.updateLocation net id name note e).net.sent = net.sent ++ [s])
    ∧ (∀ (id modelId : Int) (loc : QVariant) (sn inv st ia ds e : String), ∃ s : Sent,
        (c.updateDevice net id modelId loc sn inv st ia ds e).net.sent = net.sent ++ [s])
    ∧ (∀ (id : Int) (approved : Bool) (e : String), ∃ s : Sent,
        (c.setUserApproved net id approved e).net.sent = net.sent ++ [s])
    ∧ (∀ (id : Int) (e : String), ∃ s : Sent,
        (c.deleteVendor net id e).net.sent = net.sent ++ [s])
    ∧ (∀ (id : Int) (e : String), ∃ s : Sent,
        (c.deleteModel net id e).net.sent = net.sent ++ [s])
    ∧ (∀ (id : Int) (e : String), ∃ s : Sent,
        (c.deleteLocation net id e).net.sent = net.sent ++ [s])
    ∧ (∀ (id : Int) (e : String), ∃ s : Sent,
        (c.deleteDevice net id e).net.sent = net.sent ++ [s])
    ∧ (∀ (id : Int) (e : String), ∃ s : Sent,
        (c.deleteUser net id e).net.sent = net.sent ++ [s]) := by
  refine ⟨?_, ?_, ?_, ?_, ?_, ?_, ?_, ?_, ?_, ?_, ?_, ?_, ?_, ?_, ?_, ?_, ?_, ?_, ?_, ?_, ?_, ?_⟩
  · intro u p
    exact ⟨_, postAuth_sent c net _ u p⟩
  · intro u p
    exact ⟨_, postAuth_sent c net _ u p⟩
  · intro o e
    rw [(listVendors_fields c net o e).1]
    exact ⟨_, getJsonArray_sent c net _ _ _⟩
  · intro o e
    rw [(listModels_fields c net o e).1]
    exact ⟨_, getJsonArray_sent c net _ _ _⟩
  · intro o e
    rw [(listLocations_fields c net o e).1]
    exact ⟨_, getJsonArray_sent c net _ _ _⟩
  · intro encode q o e
    rw [(listDevices_fields encode c net q o e).1]
    exact ⟨_, getJsonArray_sent c net _ _ _⟩
  · intro o e
    rw [(listUsers_fields c net o e).1]
    exact ⟨_, getJsonArray_sent c net _ _ _⟩
  · intro id d e
    rw [(getDevice_fields c net id d e).1]
    exact ⟨_, getJsonObject_sent c net _ _ _⟩
  · intro name country e
    exact ⟨_, postJsonObject_sent c net _ _ _ _⟩
  · intro vendorId name deviceType e
    exact ⟨_, postJsonObject_sent c net _ _ _ _⟩
  · intro name note e
    exact ⟨_, postJsonObject_sent c net _ _ _ _⟩
  · intro modelId loc sn inv st ia ds e
    exact ⟨_, postJsonObject_sent c net _ _ _ _⟩
  · intro id name country e
    exact ⟨_, putJsonObject_sent c net _ _ _ _⟩
  · intro id vendorId name deviceType e
    exact ⟨_, putJsonObject_sent c net _ _ _ _⟩
  · intro id name note e
    exact ⟨_, putJsonObject_sent c net _ _ _ _⟩
  · intro id modelId loc sn inv st ia ds e
    exact ⟨_, putJsonObject_sent c net _ _ _ _⟩
  · intro id approved e
    exact ⟨_, putJsonObject_sent c net _ _ _ _⟩
  · intro id e
    exact ⟨_, deleteRequest_sent c net _ _ _⟩
  · intro id e
    exact ⟨_, deleteRequest_sent c net _ _ _⟩
  · intro id e
    exact ⟨_, deleteRequest_sent c net _ _ _⟩
  · intro id e
    exact ⟨_, deleteRequest_sent c net _ _ _⟩
  · intro id e
    exact ⟨_, deleteRequest_sent c net _ _ _⟩

/-! ## C19: the HTTP status of an auth result -/

theorem postAuth_httpStatus (c : ApiClient) (net : Network) (path u p : String) :
    (c.postAuth net path u p).result.httpStatus
      = (net.respond net.sent (authSent c path u p)).observed.httpStatus := by
  simp only [ApiClient.postAuth]
  split_ifs <;> rfl

/-- C19. For login and register, the httpStatus of the result is the HTTP
status read from the reply, on every path: a token, an error body, a missing
token, an invalid body, a transport error. -/
theorem auth_result_carries_http_status
    (f : ApiClient → Network → String → String → AuthOutcome)
    (hf : f = ApiClient.login ∨ f = ApiClient.registerUser)
    (c : ApiClient) (net : Network) (u p : String) (x : Exchange)
    (hx : net.answered (f c net u p).net = some x) :
    (f c net u p).result.httpStatus = x.observed.httpStatus := by
  have key : ∀ path, net.answered (c.postAuth net path u p).net = some x →
      (c.postAuth net path u p).result.httpStatus = x.observed.httpStatus := by
    intro path h
    rw [postAuth_answered] at h
    rw [postAuth_httpStatus, Option.some.inj h]
  rcases hf with rfl | rfl
  · exact key _ hx
  · exact key _ hx

/-- C19 (witness): status 403 with an error body, status 200 with a token. -/
theorem auth_result_carries_http_status_witness :
    (sampleClient.login (Network.always (pendingApproval 403 201)) "bob" "pw").result.httpStatus
      = 403
    ∧ (sampleClient.registerUser (Network.always loginAccepted) "bob" "pw").result.httpStatus
      = 200 :=
  ⟨auth_result_carries_http_status ApiClient.login (Or.inl rfl) sampleClient
      (Network.always (pendingApproval 403 201)) "bob" "pw" (pendingApproval 403 201) rfl,
   auth_result_carries_http_status ApiClient.registerUser (Or.inr rfl) sampleClient
      (Network.always loginAccepted) "bob" "pw" loginAccepted rfl⟩

/-! ## C20: the request of setUserApproved -/

/-- C20. For every id and boolean b, setUserApproved issues one PUT to the
base URL followed by /users/, the id in decimal and /approval, with the JSON
body holding the single member `approved` = b. -/
theorem setUserApproved_request (c : ApiClient) (net : Network) (id : Int) (b : Bool)
    (e : String) :
    (c.setUserApproved net id b e).net.sent
      = net.sent ++ [{ verb := "PUT"
                       request := c.makeRequest ("/users/" ++ toString id ++ "/approval")
                       body := some [("approved", QJsonValue.bool b)] }]
    ∧ (c.makeRequest ("/users/" ++ toString id ++ "/approval")).url
      = c.baseUrl_ ++ ("/users/" ++ toString id ++ "/approval") := by
  refine ⟨putJsonObject_sent c net _ _ _ _, ?_⟩
  by_cases h : c.token_ = "" <;> simp [ApiClient.makeRequest, QNetworkRequest.setRawHeader, h]

/-! ## C12: the URL of listDevices -/

/-- C12 (evaluation at the failing input). With the base URL
http://host/api, listDevices("router") issues its GET to
http://host/api/api/devices?q=router: the path of the base URL appears twice,
where listVendors goes to http://host/api/vendors. With the default base URL
the target is the base URL followed by /devices?q= and the query. -/
theorem listDevices_repeats_base_path :
    (prefixedClient.listDevices id emptyBodyServer "router" [] "").net.sent.map
        (fun s => (s.verb, s.request.url))
      = [("GET", "http://host/api/api/devices?q=router")]
    ∧ (prefixedClient.listVendors emptyBodyServer [] "").net.sent.map
        (fun s => (s.verb, s.request.url))
      = [("GET", "http://host/api/vendors")]
    ∧ (sampleClient.listDevices id emptyBodyServer "router" [] "").net.sent.map
        (fun s => (s.verb, s.request.url))
      = [("GET", "http://localhost:8080/devices?q=router")]
    ∧ (sampleClient.listDevices id emptyBodyServer "" [] "").net.sent.map
        (fun s => (s.verb, s.request.url))
      = [("GET", "http://localhost:8080/devices?q=")] := by
  decide

/-! ## C13: the optional location, from getDevice to updateDevice -/

theorem value_of_not_contains (o : QJsonObject) (key : String)
    (h : o.contains key = false) : o.value key = QJsonValue.undefined := by
  induction o with
  | nil => rfl
  | cons kv rest ih =>
    obtain ⟨k, v⟩ := kv
    by_cases hk : k = key
    · simp [QJsonObject.contains, hk] at h
    · simp only [QJsonObject.contains, hk, if_false] at h
      simp [QJsonObject.value, hk, ih h]

/-- The `locationId` member of the body `updateDevice` sends, for any variant. -/
theorem updateDevice_locationId (c : ApiClient) (net : Network) (id modelId : Int)
    (loc : QVariant) (sn inv st ia ds e : String) :
    ∃ body : QJsonObject,
      (c.updateDevice net id modelId loc sn inv st ia ds e).net.sent
        = net.sent ++ [{ verb := "PUT", request := c.makeRequest (idPath "/devices/" id)
                         body := some body }]
      ∧ body.contains "locationId" = (loc.isValid && !loc.isNull)
      ∧ ((loc.isValid && !loc.isNull) = true →
          body.value "locationId" = QJsonValue.ofLongLong loc.toLongLong) := by
  refine ⟨_, putJsonObject_sent c net _ _ _ _, ?_, ?_⟩
  · cases h : (loc.isValid && !loc.isNull) <;>
      simp [QJsonObject.insert, QJsonObject.contains, h]
  · intro h
    simp [QJsonObject.insert, QJsonObject.value, h]

theorem loadDevices_client (encode : String → String) (w : MainWindow) (api : ApiClient)
    (net : Network) : (w.loadDevices encode api net).2.1 = api := by
  simp only [MainWindow.loadDevices]
  split_ifs <;> first | rfl | exact listDevices_self api net encode _ _ _

theorem setSession_client (encode : String → String) (dark : Bool) (w : MainWindow)
    (api : ApiClient) (net : Network) (username role : String) :
    (w.setSession encode dark api net username role).2.1 = api :=
  loadDevices_client encode _ api net

/-- C14 (counterexample). Bob is logged in with the token "t0k3n", asks to
log out and cancels the re-login dialog: the client's token is "t0k3n" again,
not empty. -/
theorem logout_cancelled_token_not_empty :
    sampleApp.apiClient.token = "t0k3n"
    ∧ (cancelledDialog (sampleApp.apiClient.setToken "") sampleApp.net).1 = DialogCode.Rejected
    ∧ (logoutRequested id true cancelledDialog sampleApp).apiClient.token = "t0k3n"
    ∧ (logoutRequested id true cancelledDialog sampleApp).apiClient.token ≠ "" := by
  decide

/-- C14 (amended). The logout handler runs the re-login dialog on the client
with an empty token. If the dialog is not accepted, the handler puts back the
token the client had before and shows the main window again: the client is as
it was. If the dialog is accepted, the client's token is the token of the
dialog and its base URL is unchanged. -/
theorem logout_token (encode : String → String) (dark : Bool)
    (exec : ApiClient → Network → DialogCode × AuthDialog × Network) (app : App) :
    (app.apiClient.setToken "").token = ""
    ∧ ((exec (app.apiClient.setToken "") app.net).1 ≠ DialogCode.Accepted →
        (logoutRequested encode dark exec app).apiClient = app.apiClient
        ∧ (logoutRequested encode dark exec app).mainWindow.visible = true
        ∧ (logoutRequested encode dark exec app).net
            = (exec (app.apiClient.setToken "") app.net).2.2)
    ∧ ((exec (app.apiClient.setToken "") app.net).1 = DialogCode.Accepted →
        (logoutRequested encode dark exec app).apiClient.token
            = (exec (app.apiClient.setToken "") app.net).2.1.token
        ∧ (logoutRequested encode dark exec app).apiClient.baseUrl = app.apiClient.baseUrl
        ∧ (logoutRequested encode dark exec app).mainWindow.visible = true) := by
  refine ⟨rfl, ?_, ?_⟩
  all_goals
    simp only [logoutRequested, ApiClient.token]
    generalize exec (app.apiClient.setToken "") app.net = r
    obtain ⟨code, dlg, net2⟩ := r
    cases code <;>
      simp [setSession_client, ApiClient.setToken, ApiClient.baseUrl, AuthDialog.token]

/-- C14 (witness of the amended claim): a cancelled and an accepted re-login. -/
theorem logout_token_witness :
    (logoutRequested id true cancelledDialog sampleApp).apiClient = sampleClient
    ∧ (logoutRequested id true acceptedDialog sampleApp).apiClient.token = "n3w" :=
  ⟨((logout_token id true cancelledDialog sampleApp).2.1 (by decide)).1,
   ((logout_token id true acceptedDialog sampleApp).2.2 rfl).1⟩

/-! ## C15: what the role enables in the main window -/

theorem loadDevices_actions (encode : String → String) (w : MainWindow) (api : ApiClient)
    (net : Network) :
    (w.loadDevices encode api net).1.deleteAction_ = w.deleteAction_
    ∧ (w.loadDevices encode api net).1.vendorsAction_ = w.vendorsAction_
    ∧ (w.loadDevices encode api net).1.modelsAction_ = w.modelsAction_
    ∧ (w.loadDevices encode api net).1.locationsAction_ = w.locationsAction_
    ∧ (w.loadDevices encode api net).1.usersAction_ = w.usersAction_
    ∧ (w.loadDevices encode api net).1.addAction_ = w.addAction_
    ∧ (w.loadDevices encode api net).1.editAction_ = w.editAction_
    ∧ (w.loadDevices encode api net).1.refreshAction_ = w.refreshAction_
    ∧ (w.loadDevices encode api net).1.logoutAction_ = w.logoutAction_ := by
  simp only [MainWindow.loadDevices]
  split_ifs <;> simp

/-- C15. In the window the constructor builds, and in the window `setSession`
rebuilds, for every role string: the delete action is enabled exactly when
the role is "admin"; the vendors, models, locations and users actions exist
exactly when the role is "admin"; the add, edit, refresh and logout actions
exist. -/
theorem role_gates_actions (encode : String → String) (dark hasClient : Bool)
    (api : ApiClient) (net : Network) (username role : String) (w : MainWindow) :
    ((∃ a : QAction, ((MainWindow.new encode dark hasClient api net username role).1).deleteAction_ = some a ∧ (a.enabled = true ↔ role = "admin"))
    ∧ (((MainWindow.new encode dark hasClient api net username role).1).vendorsAction_.isSome = true ↔ role = "admin")
    ∧ (((MainWindow.new encode dark hasClient api net username role).1).modelsAction_.isSome = true ↔ role = "admin")
    ∧ (((MainWindow.new encode dark hasClient api net username role).1).locationsAction_.isSome = true ↔ role = "admin")
    ∧ (((MainWindow.new encode dark hasClient api net username role).1).usersAction_.isSome = true ↔ role = "admin")
    ∧ ((MainWindow.new encode dark hasClient api net username role).1).addAction_.isSome = true
    ∧ ((MainWindow.new encode dark hasClient api net username role).1).editAction_.isSome = true
    ∧ ((MainWindow.new encode dark hasClient api net username role).1).refreshAction_.isSome = true
    ∧ ((MainWindow.new encode dark hasClient api net username role).1).logoutAction_.isSome = true)
    ∧ ((∃ a : QAction, ((w.setSession encode dark api net username role).1).deleteAction_ = some a ∧ (a.enabled = true ↔ role = "admin"))
    ∧ (((w.setSession encode dark api net username role).1).vendorsAction_.isSome = true ↔ role = "admin")
    ∧ (((w.setSession encode dark api net username role).1).modelsAction_.isSome = true ↔ role = "admin")
    ∧ (((w.setSession encode dark api net username role).1).locationsAction_.isSome = true ↔ role = "admin")
    ∧ (((w.setSession encode dark api net username role).1).usersAction_.isSome = true ↔ role = "admin")
    ∧ ((w.setSession encode dark api net username role).1).addAction_.isSome = true
    ∧ ((w.setSession encode dark api net username role).1).editAction_.isSome = true
    ∧ ((w.setSession encode dark api net username role).1).refreshAction_.isSome = true
    ∧ ((w.setSession encode dark api net username role).1).logoutAction_.isSome = true) := by
  constructor
  · obtain ⟨h1, h2, h3, h4, h5, h6, h7, h8, h9⟩ :=
      loadDevices_actions encode
        (MainWindow.buildUi
          { apiClient_ := hasClient, visible := false, userInfo := "", devices_ := []
            searchEdit_ := none, table_ := none, addAction_ := none, editAction_ := none
            vendorsAction_ := none, modelsAction_ := none, locationsAction_ := none
            usersAction_ := none, refreshAction_ := none, deleteAction_ := none
            logoutAction_ := none, themeAction_ := none, warnings := [] }
          username role dark) api net
    simp only [MainWindow.new, h1, h2, h3, h4, h5, h6, h7, h8, h9]
    by_cases hr : role = "admin" <;> simp [MainWindow.buildUi, addAction, hr]
  · obtain ⟨h1, h2, h3, h4, h5, h6, h7, h8, h9⟩ :=
      loadDevices_actions encode
        (MainWindow.buildUi
          { w with userInfo := "", devices_ := [], searchEdit_ := none, table_ := none
                   addAction_ := none, editAction_ := none, vendorsAction_ := none
                   modelsAction_ := none, locationsAction_ := none, usersAction_ := none
                   refreshAction_ := none, deleteAction_ := none, logoutAction_ := none
                   themeAction_ := none }
          username role dark) api net
    simp only [MainWindow.setSession, h1, h2, h3, h4, h5, h6, h7, h8, h9]
    by_cases hr : role = "admin" <;> simp [MainWindow.buildUi, addAction, hr]

/-! ## C18: the message of a failed call -/

theorem toString_ne_empty (v : QJsonValue) (d : String) (hd : d ≠ "")
    (hv : v ≠ QJsonValue.string "") : v.toString d ≠ "" := by
  cases v <;> simp_all [QJsonValue.toString]

/-- The message of the error branch shared by the object helpers is not empty. -/
theorem error_branch_message_ne_empty (x : Exchange) (htext : x.observed.errorString ≠ "")
    (hbody : ∀ obj, x.observed.document = QJsonDocument.object obj →
      obj.value "error" ≠ QJsonValue.string "") :
    (if x.observed.document.isObject
      then (x.observed.document.toObject.value "error").toString x.observed.errorString
      else x.observed.errorString) ≠ "" := by
  cases hd : x.observed.document with
  | null => simpa [QJsonDocument.isObject] using htext
  | array a => simpa [QJsonDocument.isObject] using htext
  | object obj =>
    simp only [QJsonDocument.isObject, QJsonDocument.toObject, if_true]
    exact toString_ne_empty _ _ htext (hbody obj hd)

theorem getJsonArray_failure_message (c : ApiClient) (net : Network) (path : String)
    (a : QJsonArray) (e : String) (x : Exchange)
    (hx : net.answered (c.getJsonArray net path a e).net = some x)
    (htext : x.observed.errorString ≠ "")
    (hret : (c.getJsonArray net path a e).ret = false) :
    (c.getJsonArray net path a e).outError ≠ "" := by
  obtain ⟨h1, h2, h3⟩ := getJsonArray_cases c net path a e x hx
  by_cases herr : x.observed.error = NoError
  · cases hd : x.observed.document with
    | null => rw [(h2 herr (by simp [hd, QJsonDocument.isArray])).2.2]; decide
    | object obj => rw [(h2 herr (by simp [hd, QJsonDocument.isArray])).2.2]; decide
    | array arr =>
      rw [(h3 herr arr hd).1] at hret
      cases hret
  · rw [(h1 herr).2.2]
    split_ifs <;> first | exact htext | decide | assumption

theorem getJsonObject_failure_message (c : ApiClient) (net : Network) (path : String)
    (o : QJsonObject) (e : String) (x : Exchange)
    (hx : net.answered (c.getJsonObject net path o e).net = some x)
    (htext : x.observed.errorString ≠ "")
    (hbody : ∀ obj, x.observed.document = QJsonDocument.object obj →
      obj.value "error" ≠ QJsonValue.string "")
    (hret : (c.getJsonObject net path o e).ret = false) :
    (c.getJsonObject net path o e).outError ≠ "" := by
  obtain ⟨h1, h2, h3⟩ := getJsonObject_cases c net path o e x hx
  by_cases herr : x.observed.error = NoError
  · cases hd : x.observed.document with
    | null => rw [(h2 herr (by simp [hd, QJsonDocument.isObject])).2.2]; decide
    | array arr => rw [(h2 herr (by simp [hd, QJsonDocument.isObject])).2.2]; decide
    | object obj =>
      rw [(h3 herr obj hd).1] at hret
      cases hret
  · rw [(h1 herr).2.2]
    exact error_branch_message_ne_empty x htext hbody

theorem postJsonObject_failure_message (c : ApiClient) (net : Network) (path : String) (body : QJsonObject)
    (o : QJsonObject) (e : String) (x : Exchange)
    (hx : net.answered (c.postJsonObject net path body o e).net = some x)
    (htext : x.observed.errorString ≠ "")
    (hbody : ∀ obj, x.observed.document = QJsonDocument.object obj →
      obj.value "error" ≠ QJsonValue.string "")
    (hret : (c.postJsonObject net path body o e).ret = false) :
    (c.postJsonObject net path body o e).outError ≠ "" := by
  obtain ⟨h1, h2, h3⟩ := postJsonObject_cases c net path body o e x hx
  by_cases herr : x.observed.error = NoError
  · cases hd : x.observed.document with
    | null => rw [(h2 herr (by simp [hd, QJsonDocument.isObject])).2.2]; decide
    | array arr => rw [(h2 herr (by simp [hd, QJsonDocument.isObject])).2.2]; decide
    | object obj =>
      rw [(h3 herr obj hd).1] at hret
      cases hret
  · rw [(h1 herr).2.2]
    exact error_branch_message_ne_empty x htext hbody

theorem putJsonObject_failure_message (c : ApiClient) (net : Network) (path : String) (body : QJsonObject)
    (o : QJsonObject) (e : String) (x : Exchange)
    (hx : net.answered (c.putJsonObject net path body o e).net = some x)
    (htext : x.observed.errorString ≠ "")
    (hbody : ∀ obj, x.observed.document = QJsonDocument.object obj →
      obj.value "error" ≠ QJsonValue.string "")
    (hret : (c.putJsonObject net path body o e).ret = false) :
    (c.putJsonObject net path body o e).outError ≠ "" := by
  obtain ⟨h1, h2, h3⟩ := putJsonObject_cases c net path body o e x hx
  by_cases herr : x.observed.error = NoError
  · cases hd : x.observed.document with
    | null => rw [(h2 herr (by simp [hd, QJsonDocument.isObject])).2.2]; decide
    | array arr => rw [(h2 herr (by simp [hd, QJsonDocument.isObject])).2.2]; decide
    | object obj =>
      rw [(h3 herr obj hd).1] at hret
      cases hret
  · rw [(h1 herr).2.2]
    exact error_branch_message_ne_empty x htext hbody

theorem deleteRequest_failure_message (c : ApiClient) (net : Network) (path : String)
    (o : QJsonObject) (e : String) (x : Exchange)
    (hx : net.answered (c.deleteRequest net path o e).net = some x)
    (htext : x.observed.errorString ≠ "")
    (hbody : ∀ obj, x.observed.document = QJsonDocument.object obj →
      obj.value "error" ≠ QJsonValue.string "")
    (hret : (c.deleteRequest net path o e).ret = false) :
    (c.deleteRequest net path o e).outError ≠ "" := by
  obtain ⟨h1, h2⟩ := deleteRequest_cases c net path o e x hx
  by_cases herr : x.observed.error = NoError
  · rw [(h2 herr).1] at hret
    cases hret
  · rw [(h1 herr).2.2]
    exact error_branch_message_ne_empty x htext hbody

theorem postAuth_failure_message (c : ApiClient) (net : Network) (path u p : String)
    (x : Exchange)
    (hx : net.answered (c.postAuth net path u p).net = some x)
    (htext : x.observed.errorString ≠ "")
    (hbody : ∀ obj, x.observed.document = QJsonDocument.object obj →
      obj.value "error" ≠ QJsonValue.string "")
    (hok : (c.postAuth net path u p).result.ok = false) :
    (c.postAuth net path u p).result.error ≠ "" := by
  obtain ⟨h1, h2, h3⟩ := postAuth_cases c net path u p x hx
  by_cases herr : x.observed.error = NoError
  · cases hd : x.observed.document with
    | null => rw [(h2 herr (by simp [hd, QJsonDocument.isObject])).2]; decide
    | array arr => rw [(h2 herr (by simp [hd, QJsonDocument.isObject])).2]; decide
    | object obj =>
      cases ht : obj.contains "token"
      · rw [(h3 herr obj hd ht).2]
        exact toString_ne_empty _ _ (by decide) (hbody obj hd)
      · rw [postAuth_answered] at hx
        have hs : (net.send (authSent c path u p)).1 = x := Option.some.inj hx
        simp only [authSent] at hs
        simp [ApiClient.postAuth, QJsonObject.insert, hs, herr, hd, QJsonDocument.isObject,
          QJsonDocument.toObject, ht] at hok
  · rw [(h1 herr).2]
    cases hd : x.observed.document with
    | null =>
      simp only [QJsonDocument.isObject, Bool.false_eq_true, if_false]
      split_ifs <;> first | exact htext | decide
    | array arr =>
      simp only [QJsonDocument.isObject, Bool.false_eq_true, if_false]
      split_ifs <;> first | exact htext | decide
    | object obj =>
      simp only [QJsonDocument.isObject, QJsonDocument.toObject, if_true]
      exact toString_ne_empty _ _ htext (hbody obj hd)

/-- C18 (counterexample). A 400 response whose body is the object with
`error` = "" makes getDevice, createVendor and deleteVendor fail with an
empty message; a login answered with the same body fails with an empty error. -/
theorem failure_with_empty_message :
    (sampleClient.getDevice emptyErrorServer 1 DeviceDetails.default "").ret = false
    ∧ (sampleClient.getDevice emptyErrorServer 1 DeviceDetails.default "").outError = ""
    ∧ (sampleClient.createVendor emptyErrorServer "Acme" "US" "").ret = false
    ∧ (sampleClient.createVendor emptyErrorServer "Acme" "US" "").outError = ""
    ∧ (sampleClient.deleteVendor emptyErrorServer 1 "").ret = false
    ∧ (sampleClient.deleteVendor emptyErrorServer 1 "").outError = ""
    ∧ (sampleClient.login (Network.always emptyErrorLogin) "bob" "pw").result.ok = false
    ∧ (sampleClient.login (Network.always emptyErrorLogin) "bob" "pw").result.error = "" := by
  decide

/-- C18 (amended). For login, register and every list, get, create, update
and delete call: if the call fails, the error message it returns is not
empty, provided the transport's own error text is not empty and the body of
the reply is not a JSON object whose `error` member is the empty string. -/
theorem failure_message_not_empty (c : ApiClient) (net : Network) (x : Exchange)
    (htext : x.observed.errorString ≠ "")
    (hbody : ∀ obj, x.observed.document = QJsonDocument.object obj →
      obj.value "error" ≠ QJsonValue.string "") :
    (∀ (f : ApiClient → Network → String → String → AuthOutcome) (u p : String),
        (f = ApiClient.login ∨ f = ApiClient.registerUser) →
        net.answered (f c net u p).net = some x → (f c net u p).result.ok = false →
        (f c net u p).result.error ≠ "")
    ∧ (∀ (o : List VendorItem) (e : String),
        net.answered (c.listVendors net o e).net = some x → (c.listVendors net o e).ret = false →
        (c.listVendors net o e).outError ≠ "")
    ∧ (∀ (o : List ModelItem) (e : String),
        net.answered (c.listModels net o e).net = some x → (c.listModels net o e).ret = false →
        (c.listModels net o e).outError ≠ "")
    ∧ (∀ (o : List LocationItem) (e : String),
        net.answered (c.listLocations net o e).net = some x → (c.listLocations net o e).ret = false →
        (c.listLocations net o e).outError ≠ "")
    ∧ (∀ (encode : String → String) (q : String) (o : List DeviceItem) (e : String),
        net.answered (c.listDevices encode net q o e).net = some x → (c.listDevices encode net q o e).ret = false →
        (c.listDevices encode net q o e).outError ≠ "")
    ∧ (∀ (o : List UserItem) (e : String),
        net.answered (c.listUsers net o e).net = some x → (c.listUsers net o e).ret = false →
        (c.listUsers net o e).outError ≠ "")
    ∧ (∀ (id : Int) (d : DeviceDetails) (e : String),
        net.answered (c.getDevice net id d e).net = some x → (c.getDevice net id d e).ret = false →
        (c.getDevice net id d e).outError ≠ "")
    ∧ (∀ (name country e : String),
        net.answered (c.createVendor net name country e).net = some x → (c.createVendor net name country e).ret = false →
        (c.createVendor net name country e).outError ≠ "")
    ∧ (∀ (vendorId : Int) (name deviceType e : String),
        net.answered (c.createModel net vendorId name deviceType e).net = some x → (c.createModel net vendorId name deviceType e).ret = false →
        (c.createModel net vendorId name deviceType e).outError ≠ "")
    ∧ (∀ (name note e : String),
        net.answered (c.createLocation net name note e).net = some x → (c.createLocation net name note e).ret = false →
        (c.createLocation net name note e).outError ≠ "")
    ∧ (∀ (modelId : Int) (loc : QVariant) (sn inv st ia ds e : String),
        net.answered (c.createDevice net modelId loc sn inv st ia ds e).net = some x → (c.createDevice net modelId loc sn inv st ia ds e).ret = false →
        (c.createDevice net modelId loc sn inv st ia ds e).outError ≠ "")
    ∧ (∀ (id : Int) (name country e : String),
        net.answered (c.updateVendor net id name country e).net = some x → (c.updateVendor net id name country e).ret = false →
        (c.updateVendor net id name country e).outError ≠ "")
    ∧ (∀ (id vendorId : Int) (name deviceType e : String),
        net.answered (c.updateModel net id vendorId name deviceType e).net = some x → (c.updateModel net id vendorId name deviceType e).ret = false →
        (c.updateModel net id vendorId name deviceType e).outError ≠ "")
    ∧ (∀ (id : Int) (name note e : String),
        net.answered (c.updateLocation net id name note e).net = some x → (c.updateLocation net id name note e).ret = false →
        (c.updateLocation net id name note e).outError ≠ "")
    ∧ (∀ (id modelId : Int) (loc : QVariant) (sn inv st ia ds e : String),
        net.answered (c.updateDevice net id modelId loc sn inv st ia ds e).net = some x → (c.updateDevice net id modelId loc sn inv st ia ds e).ret = false →
        (c.updateDevice net id modelId loc sn inv st ia ds e).outError ≠ "")
    ∧ (∀ (id : Int) (approved : Bool) (e : String),
        net.answered (c.setUserApproved net id approved e).net = some x → (c.setUserApproved net id approved e).ret = false →
        (c.setUserApproved net id approved e).outError ≠ "")
    ∧ (∀ (id : Int) (e : String),
        net.answered (c.deleteVendor net id e).net = some x → (c.deleteVendor net id e).ret = false →
        (c.deleteVendor net id e).outError ≠ "")
    ∧ (∀ (id : Int) (e : String),
        net.answered (c.deleteModel net id e).net = some x → (c.deleteModel net id e).ret = false →
        (c.deleteModel net id e).outError ≠ "")
    ∧ (∀ (id : Int) (e : String),
        net.answered (c.deleteLocation net id e).net = some x → (c.deleteLocation net id e).ret = false →
        (c.deleteLocation net id e).outError ≠ "")
    ∧ (∀ (id : Int) (e : String),
        net.answered (c.deleteDevice net id e).net = some x → (c.deleteDevice net id e).ret = false →
        (c.deleteDevice net id e).outError ≠ "")
    ∧ (∀ (id : Int) (e : String),
        net.answered (c.deleteUser net id e).net = some x → (c.deleteUser net id e).ret = false →
        (c.deleteUser net id e).outError ≠ "") := by
  refine ⟨?_, ?_, ?_, ?_, ?_, ?_, ?_, ?_, ?_, ?_, ?_, ?_, ?_, ?_, ?_, ?_, ?_, ?_, ?_, ?_, ?_⟩
  · intro f u p hf hx hok
    rcases hf with rfl | rfl
    · exact postAuth_failure_message c net _ u p x hx htext hbody hok
    · exact postAuth_failure_message c net _ u p x hx htext hbody hok
  · intro o e hx hret
    obtain ⟨hn, hr, he, _⟩ := listVendors_fields c net o e
    rw [hn] at hx
    rw [hr] at hret
    rw [he]
    exact getJsonArray_failure_message c net _ [] e x hx htext hret
  · intro o e hx hret
    obtain ⟨hn, hr, he, _⟩ := listModels_fields c net o e
    rw [hn] at hx
    rw [hr] at hret
    rw [he]
    exact getJsonArray_failure_message c net _ [] e x hx htext hret
  · intro o e hx hret
    obtain ⟨hn, hr, he, _⟩ := listLocations_fields c net o e
    rw [hn] at hx
    rw [hr] at hret
    rw [he]
    exact getJsonArray_failure_message c net _ [] e x hx htext hret
  · intro encode q o e hx hret
    obtain ⟨hn, hr, he, _⟩ := listDevices_fields encode c net q o e
    rw [hn] at hx
    rw [hr] at hret
    rw [he]
    exact getJsonArray_failure_message c net _ [] e x hx htext hret
  · intro o e hx hret
    obtain ⟨hn, hr, he, _⟩ := listUsers_fields c net o e
    rw [hn] at hx
    rw [hr] at hret
    rw [he]
    exact getJsonArray_failure_message c net _ [] e x hx htext hret
  · intro id d e hx hret
    obtain ⟨hn, hr, he, _⟩ := getDevice_fields c net id d e
    rw [hn] at hx
    rw [hr] at hret
    rw [he]
    exact getJsonObject_failure_message c net _ [] e x hx htext hbody hret
  · intro name country e hx hret
    exact postJsonObject_failure_message c net _ _ [] e x hx htext hbody hret
  · intro vendorId name deviceType e hx hret
    exact postJsonObject_failure_message c net _ _ [] e x hx htext hbody hret
  · intro name note e hx hret
    exact postJsonObject_failure_message c net _ _ [] e x hx htext hbody hret
  · intro modelId loc sn inv st ia ds e hx hret
    exact postJsonObject_failure_message c net _ _ [] e x hx htext hbody hret
  · intro id name country e hx hret
    exact putJsonObject_failure_message c net _ _ [] e x hx htext hbody hret
  · intro id vendorId name deviceType e hx hret
    exact putJsonObject_failure_message c net _ _ [] e x hx htext hbody hret
  · intro id name note e hx hret
    exact putJsonObject_failure_message c net _ _ [] e x hx htext hbody hret
  · intro id modelId loc sn inv st ia ds e hx hret
    exact putJsonObject_failure_message c net _ _ [] e x hx htext hbody hret
  · intro id approved e hx hret
    exact putJsonObject_failure_message c net _ _ [] e x hx htext hbody hret
  · intro id e hx hret
    exact deleteRequest_failure_message c net _ [] e x hx htext hbody hret
  · intro id e hx hret
    exact deleteRequest_failure_message c net _ [] e x hx htext hbody hret
  · intro id e hx hret
    exact deleteRequest_failure_message c net _ [] e x hx htext hbody hret
  · intro id e hx hret
    exact deleteRequest_failure_message c net _ [] e x hx htext hbody hret
  · intro id e hx hret
    exact deleteRequest_failure_message c net _ [] e x hx htext hbody hret

/-- C18 (witness of the amended claim): a refused connection. -/
theorem failure_message_not_empty_witness :
    (sampleClient.deleteVendor refusingNetwork 3 "").ret = false
    ∧ (sampleClient.deleteVendor refusingNetwork 3 "").outError ≠ "" :=
  ⟨rfl,
   (failure_message_not_empty sampleClient refusingNetwork
      (refusingNetwork.respond [] { verb := "DELETE"
                                    request := sampleClient.makeRequest "/vendors/3"
                                    body := none })
      (by decide) (fun obj h => by cases h)).2.2.2.2.2.2.2.2.2.2.2.2.2.2.2.2.1 3 "" rfl rfl⟩

/-! ## C21: constructor and accessors -/

/-- C21. A new client has the base URL "http://localhost:8080" and an empty
token; `baseUrl()` after `setBaseUrl(u)` is u and the token is untouched;
`token()` after `setToken(t)` is t and the base URL is untouched. -/
theorem accessors_round_trip (c : ApiClient) (u t : String) :
    ApiClient.new.baseUrl = "http://localhost:8080"
    ∧ ApiClient.new.token = ""
    ∧ (c.setBaseUrl u).baseUrl = u
    ∧ (c.setBaseUrl u).token = c.token
    ∧ (c.setToken t).token = t
    ∧ (c.setToken t).baseUrl = c.baseUrl :=
  ⟨rfl, rfl, rfl, rfl, rfl, rfl⟩

/-! ## C30: theme names -/

/-- C30. Reading back the name of a theme gives the theme; a string names
Light exactly when, trimmed and lower-cased, it is "light", and names Dark
otherwise, the empty string included. -/
theorem theme_name_round_trip :
    (∀ t : ThemeManager.Theme,
        ThemeManager.themeFromString (ThemeManager.themeToString t) = t)
    ∧ (∀ s : String,
        ThemeManager.themeFromString s = ThemeManager.Theme.Light
          ↔ toLower (trimmed s) = "light")
    ∧ (∀ s : String, toLower (trimmed s) ≠ "light" →
        ThemeManager.themeFromString s = ThemeManager.Theme.Dark)
    ∧ ThemeManager.themeFromString "" = ThemeManager.Theme.Dark
    ∧ ThemeManager.themeFromString "  LiGhT\n" = ThemeManager.Theme.Light := by
  refine ⟨fun t => ?_, fun s => ?_, fun s h => ?_, by decide, by decide⟩
  · cases t <;> decide
  · by_cases h : toLower (trimmed s) = "light" <;> simp [ThemeManager.themeFromString, h]
  · simp [ThemeManager.themeFromString, h]

/-- C30 (witness): "Solarized" is not "light", so it names Dark. -/
theorem theme_name_round_trip_witness :
    ThemeManager.themeFromString "Solarized" = ThemeManager.Theme.Dark :=
  theme_name_round_trip.2.2.1 "Solarized" (by decide)

/-! ## C23, C24: the fields of an auth result -/

/-- The way `postAuth` ends when its reply is a success with a token. -/
theorem postAuth_success (c : ApiClient) (net : Network) (path u p : String) (x : Exchange)
    (obj : QJsonObject)
    (hx : net.answered (c.postAuth net path u p).net = some x)
    (herr : x.observed.error = NoError)
    (hdoc : x.observed.document = QJsonDocument.object obj)
    (htok : obj.contains "token" = true) :
    (c.postAuth net path u p).result.ok = true
    ∧ (c.postAuth net path u p).result.token = (obj.value "token").toString ""
    ∧ (c.postAuth net path u p).result.error = "" := by
  rw [postAuth_answered] at hx
  have hs : (net.send (authSent c path u p)).1 = x := Option.some.inj hx
  simp only [authSent] at hs
  have ht := timer_not_fired_of_no_error x herr
  simp [ApiClient.postAuth, QJsonObject.insert, hs, herr, hdoc, QJsonDocument.isObject,
    QJsonDocument.toObject, htok, ht, AuthResult.default]

/-- An auth result with ok = false has the token, username and role it started with. -/
theorem postAuth_failure_fields (c : ApiClient) (net : Network) (path u p : String)
    (hok : (c.postAuth net path u p).result.ok = false) :
    (c.postAuth net path u p).result.token = ""
    ∧ (c.postAuth net path u p).result.username = ""
    ∧ (c.postAuth net path u p).result.role = "" := by
  revert hok
  simp only [ApiClient.postAuth]
  split_ifs <;> simp [AuthResult.default]

/-- An auth result with ok = true has an empty error. -/
theorem postAuth_ok_error (c : ApiClient) (net : Network) (path u p : String)
    (hok : (c.postAuth net path u p).result.ok = true) :
    (c.postAuth net path u p).result.error = "" := by
  have hx := postAuth_answered c net path u p
  obtain ⟨h1, h2, h3⟩ := postAuth_cases c net path u p _ hx
  by_cases herr : (net.respond net.sent (authSent c path u p)).observed.error = NoError
  · cases hd : (net.respond net.sent (authSent c path u p)).observed.document with
    | null =>
      rw [(h2 herr (by simp [hd, QJsonDocument.isObject])).1] at hok
      cases hok
    | array arr =>
      rw [(h2 herr (by simp [hd, QJsonDocument.isObject])).1] at hok
      cases hok
    | object obj =>
      cases ht : obj.contains "token"
      · rw [(h3 herr obj hd ht).1] at hok
        cases hok
      · exact (postAuth_success c net path u p _ obj hx herr hd ht).2.2
  · rw [(h1 herr).1] at hok
    cases hok

/-- C23. For login and register, when the reply carries no transport error
and its body is a JSON object whose `token` member is present but not a
string, the result has ok = true and an empty token. -/
theorem auth_ok_with_non_string_token
    (f : ApiClient → Network → String → String → AuthOutcome)
    (hf : f = ApiClient.login ∨ f = ApiClient.registerUser)
    (c : ApiClient) (net : Network) (u p : String) (x : Exchange) (obj : QJsonObject)
    (hx : net.answered (f c net u p).net = some x)
    (herr : x.observed.error = NoError)
    (hdoc : x.observed.document = QJsonDocument.object obj)
    (htok : obj.contains "token" = true)
    (hkind : ∀ s, obj.value "token" ≠ QJsonValue.string s) :
    (f c net u p).result.ok = true ∧ (f c net u p).result.token = "" := by
  have key : ∀ path, net.answered (c.postAuth net path u p).net = some x →
      (c.postAuth net path u p).result.ok = true
      ∧ (c.postAuth net path u p).result.token = "" := by
    intro path h
    obtain ⟨h1, h2, _⟩ := postAuth_success c net path u p x obj h herr hdoc htok
    exact ⟨h1, h2.trans (toString_of_not_string _ _ hkind)⟩
  rcases hf with rfl | rfl
  · exact key _ hx
  · exact key _ hx

/-- C23 (witness): a login answered with `token` = 42. -/
theorem auth_ok_with_non_string_token_witness :
    (sampleClient.login (Network.always numericTokenLogin) "bob" "pw").result.ok = true
    ∧ (sampleClient.login (Network.always numericTokenLogin) "bob" "pw").result.token = "" :=
  auth_ok_with_non_string_token ApiClient.login (Or.inl rfl) sampleClient
    (Network.always numericTokenLogin) "bob" "pw" numericTokenLogin
    [("token", .double 42), ("username", .string "bob")] rfl rfl rfl rfl
    (fun s h => by simp [QJsonObject.value] at h)

/-- C24. Every result of login and register satisfies: if ok = true the
error is empty; if ok = false the token, username and role are empty. -/
theorem auth_result_invariant
    (f : ApiClient → Network → String → String → AuthOutcome)
    (hf : f = ApiClient.login ∨ f = ApiClient.registerUser)
    (c : ApiClient) (net : Network) (u p : String) :
    ((f c net u p).result.ok = true → (f c net u p).result.error = "")
    ∧ ((f c net u p).result.ok = false →
        (f c net u p).result.token = "" ∧ (f c net u p).result.username = ""
        ∧ (f c net u p).result.role = "") := by
  rcases hf with rfl | rfl
  · exact ⟨postAuth_ok_error c net _ u p, postAuth_failure_fields c net _ u p⟩
  · exact ⟨postAuth_ok_error c net _ u p, postAuth_failure_fields c net _ u p⟩

/-- C24 (witness): an accepted login and a login pending approval. -/
theorem auth_result_invariant_witness :
    (sampleClient.login (Network.always loginAccepted) "bob" "pw").result.error = ""
    ∧ (sampleClient.login (Network.always (pendingApproval 403 201)) "bob" "pw").result.token
        = "" :=
  ⟨(auth_result_invariant ApiClient.login (Or.inl rfl) sampleClient
      (Network.always loginAccepted) "bob" "pw").1 rfl,
   ((auth_result_invariant ApiClient.login (Or.inl rfl) sampleClient
      (Network.always (pendingApproval 403 201)) "bob" "pw").2 rfl).1⟩

/-! ## C25: decoding the items of a list -/

theorem toDouble_of_lacking (o : QJsonObject) (key : String)
    (h : o.contains key = false ∨ ∀ n, o.value key ≠ QJsonValue.double n) :
    qint64OfDouble ((o.value key).toDouble) = 0 := by
  have h0 : qint64OfDouble 0 = 0 := by decide
  rcases h with h | h
  · rw [value_of_not_contains o key h]
    exact h0
  · cases hv : o.value key <;> simp_all [QJsonValue.toDouble]

theorem toString_of_lacking (o : QJsonObject) (key : String)
    (h : o.contains key = false ∨ ∀ s, o.value key ≠ QJsonValue.string s) :
    (o.value key).toString "" = "" := by
  rcases h with h | h
  · rw [value_of_not_contains o key h]
    rfl
  · exact toString_of_not_string _ _ h

theorem toBool_of_lacking (o : QJsonObject) (key : String)
    (h : o.contains key = false ∨ ∀ b, o.value key ≠ QJsonValue.bool b) :
    (o.value key).toBool false = false := by
  rcases h with h | h
  · rw [value_of_not_contains o key h]
    rfl
  · cases hv : o.value key <;> simp_all [QJsonValue.toBool]

/-- C25. In the item decoded from an object `o`, a numeric field whose key is
missing or does not hold a number is 0, a text field whose key is missing or
does not hold a string is empty, and `approved` is false when its key is
missing or does not hold a boolean; and a list call that succeeds on the
array `arr` returns as many items as `arr` has object elements. -/
theorem lenient_item_decoding (o : QJsonObject) (c : ApiClient) (net : Network)
    (x : Exchange) (arr : QJsonArray) (herr : x.observed.error = NoError)
    (hdoc : x.observed.document = QJsonDocument.array arr) :
    ((o.contains "id" = false ∨ ∀ n, o.value "id" ≠ QJsonValue.double n) →
        (VendorItem.fromJson o).id = 0)
    ∧ ((o.contains "name" = false ∨ ∀ s, o.value "name" ≠ QJsonValue.string s) →
        (VendorItem.fromJson o).name = "")
    ∧ ((o.contains "country" = false ∨ ∀ s, o.value "country" ≠ QJsonValue.string s) →
        (VendorItem.fromJson o).country = "")
    ∧ ((o.contains "id" = false ∨ ∀ n, o.value "id" ≠ QJsonValue.double n) →
        (ModelItem.fromJson o).id = 0)
    ∧ ((o.contains "vendorId" = false ∨ ∀ n, o.value "vendorId" ≠ QJsonValue.double n) →
        (ModelItem.fromJson o).vendorId = 0)
    ∧ ((o.contains "vendorName" = false ∨ ∀ s, o.value "vendorName" ≠ QJsonValue.string s) →
        (ModelItem.fromJson o).vendorName = "")
    ∧ ((o.contains "name" = false ∨ ∀ s, o.value "name" ≠ QJsonValue.string s) →
        (ModelItem.fromJson o).name = "")
    ∧ ((o.contains "deviceType" = false ∨ ∀ s, o.value "deviceType" ≠ QJsonValue.string s) →
        (ModelItem.fromJson o).deviceType = "")
    ∧ ((o.contains "id" = false ∨ ∀ n, o.value "id" ≠ QJsonValue.double n) →
        (LocationItem.fromJson o).id = 0)
    ∧ ((o.contains "name" = false ∨ ∀ s, o.value "name" ≠ QJsonValue.string s) →
        (LocationItem.fromJson o).name = "")
    ∧ ((o.contains "note" = false ∨ ∀ s, o.value "note" ≠ QJsonValue.string s) →
        (LocationItem.fromJson o).note = "")
    ∧ ((o.contains "id" = false ∨ ∀ n, o.value "id" ≠ QJsonValue.double n) →
        (DeviceItem.fromJson o).id = 0)
    ∧ ((o.contains "vendorName" = false ∨ ∀ s, o.value "vendorName" ≠ QJsonValue.string s) →
        (DeviceItem.fromJson o).vendorName = "")
    ∧ ((o.contains "modelName" = false ∨ ∀ s, o.value "modelName" ≠ QJsonValue.string s) →
        (DeviceItem.fromJson o).modelName = "")
    ∧ ((o.contains "locationName" = false ∨ ∀ s, o.value "locationName" ≠ QJsonValue.string s) →
        (DeviceItem.fromJson o).locationName = "")
    ∧ ((o.contains "serialNumber" = false ∨ ∀ s, o.value "serialNumber" ≠ QJsonValue.string s) →
        (DeviceItem.fromJson o).serialNumber = "")
    ∧ ((o.contains "inventoryNumber" = false ∨ ∀ s, o.value "inventoryNumber" ≠ QJsonValue.string s) →
        (DeviceItem.fromJson o).inventoryNumber = "")
    ∧ ((o.contains "status" = false ∨ ∀ s, o.value "status" ≠ QJsonValue.string s) →
        (DeviceItem.fromJson o).status = "")
    ∧ ((o.contains "installedAt" = false ∨ ∀ s, o.value "installedAt" ≠ QJsonValue.string s) →
        (DeviceItem.fromJson o).installedAt = "")
    ∧ ((o.contains "id" = false ∨ ∀ n, o.value "id" ≠ QJsonValue.double n) →
        (UserItem.fromJson o).id = 0)
    ∧ ((o.contains "username" = false ∨ ∀ s, o.value "username" ≠ QJsonValue.string s) →
        (UserItem.fromJson o).username = "")
    ∧ ((o.contains "role" = false ∨ ∀ s, o.value "role" ≠ QJsonValue.string s) →
        (UserItem.fromJson o).role = "")
    ∧ ((o.contains "approved" = false ∨ ∀ b, o.value "approved" ≠ QJsonValue.bool b) →
        (UserItem.fromJson o).approved = false)
    ∧ ((o.contains "createdAt" = false ∨ ∀ s, o.value "createdAt" ≠ QJsonValue.string s) →
        (UserItem.fromJson o).createdAt = "")
    ∧ (∀ (o : List VendorItem) (e : String),
        net.answered (c.listVendors net o e).net = some x →
        (c.listVendors net o e).ret = true
        ∧ (c.listVendors net o e).out.length = (arr.filter QJsonValue.isObject).length)
    ∧ (∀ (o : List ModelItem) (e : String),
        net.answered (c.listModels net o e).net = some x →
        (c.listModels net o e).ret = true
        ∧ (c.listModels net o e).out.length = (arr.filter QJsonValue.isObject).length)
    ∧ (∀ (o : List LocationItem) (e : String),
        net.answered (c.listLocations net o e).net = some x →
        (c.listLocations net o e).ret = true
        ∧ (c.listLocations net o e).out.length = (arr.filter QJsonValue.isObject).length)
    ∧ (∀ (encode : String → String) (q : String) (o : List DeviceItem) (e : String),
        net.answered (c.listDevices encode net q o e).net = some x →
        (c.listDevices encode net q o e).ret = true
        ∧ (c.listDevices encode net q o e).out.length = (arr.filter QJsonValue.isObject).length)
    ∧ (∀ (o : List UserItem) (e : String),
        net.answered (c.listUsers net o e).net = some x →
        (c.listUsers net o e).ret = true
        ∧ (c.listUsers net o e).out.length = (arr.filter QJsonValue.isObject).length) := by
  refine ⟨?_, ?_, ?_, ?_, ?_, ?_, ?_, ?_, ?_, ?_, ?_, ?_, ?_, ?_, ?_, ?_, ?_, ?_, ?_, ?_, ?_, ?_, ?_, ?_, ?_, ?_, ?_, ?_, ?_⟩
  · exact toDouble_of_lacking o "id"
  · exact toString_of_lacking o "name"
  · exact toString_of_lacking o "country"
  · exact toDouble_of_lacking o "id"
  · exact toDouble_of_lacking o "vendorId"
  · exact toString_of_lacking o "vendorName"
  · exact toString_of_lacking o "name"
  · exact toString_of_lacking o "deviceType"
  · exact toDouble_of_lacking o "id"
  · exact toString_of_lacking o "name"
  · exact toString_of_lacking o "note"
  · exact toDouble_of_lacking o "id"
  · exact toString_of_lacking o "vendorName"
  · exact toString_of_lacking o "modelName"
  · exact toString_of_lacking o "locationName"
  · exact toString_of_lacking o "serialNumber"
  · exact toString_of_lacking o "inventoryNumber"
  · exact toString_of_lacking o "status"
  · exact toString_of_lacking o "installedAt"
  · exact toDouble_of_lacking o "id"
  · exact toString_of_lacking o "username"
  · exact toString_of_lacking o "role"
  · exact toBool_of_lacking o "approved"
  · exact toString_of_lacking o "createdAt"
  · intro o e hx
    obtain ⟨hn, hr, _, ho⟩ := listVendors_fields c net o e
    rw [hn] at hx
    obtain ⟨h1, h2, _⟩ := (getJsonArray_cases c net _ [] e x hx).2.2 herr arr hdoc
    rw [hr, ho, h1, h2, listVendors_loop]
    exact ⟨rfl, by simp⟩
  · intro o e hx
    obtain ⟨hn, hr, _, ho⟩ := listModels_fields c net o e
    rw [hn] at hx
    obtain ⟨h1, h2, _⟩ := (getJsonArray_cases c net _ [] e x hx).2.2 herr arr hdoc
    rw [hr, ho, h1, h2, listModels_loop]
    exact ⟨rfl, by simp⟩
  · intro o e hx
    obtain ⟨hn, hr, _, ho⟩ := listLocations_fields c net o e
    rw [hn] at hx
    obtain ⟨h1, h2, _⟩ := (getJsonArray_cases c net _ [] e x hx).2.2 herr arr hdoc
    rw [hr, ho, h1, h2, listLocations_loop]
    exact ⟨rfl, by simp⟩
  · intro encode q o e hx
    obtain ⟨hn, hr, _, ho⟩ := listDevices_fields encode c net q o e
    rw [hn] at hx
    obtain ⟨h1, h2, _⟩ := (getJsonArray_cases c net _ [] e x hx).2.2 herr arr hdoc
    rw [hr, ho, h1, h2, listDevices_loop]
    exact ⟨rfl, by simp⟩
  · intro o e hx
    obtain ⟨hn, hr, _, ho⟩ := listUsers_fields c net o e
    rw [hn] at hx
    obtain ⟨h1, h2, _⟩ := (getJsonArray_cases c net _ [] e x hx).2.2 herr arr hdoc
    rw [hr, ho, h1, h2, listUsers_loop]
    exact ⟨rfl, by simp⟩

/-- C25 (witness): the second vendor of the sample array has no `country`; it
is decoded with an empty country, and two items come out of three elements. -/
theorem lenient_item_decoding_witness :
    (VendorItem.fromJson [("id", .double 2), ("name", .string "Bolt")]).country = ""
    ∧ (sampleClient.listVendors vendorServer [] "").out.length = 2 :=
  have h := lenient_item_decoding [("id", .double 2), ("name", .string "Bolt")]
    sampleClient vendorServer
    (vendorServer.respond [] { verb := "GET", request := sampleClient.makeRequest "/vendors"
                               body := none })
    [ .object [("id", .double 1), ("name", .string "Acme"), ("country", .string "US")]
    , .double 5
    , .object [("id", .double 2), ("name", .string "Bolt")] ] rfl rfl
  ⟨h.2.2.1 (Or.inl rfl), (h.2.2.2.2.2.2.2.2.2.2.2.2.2.2.2.2.2.2.2.2.2.2.2.2.1 [] "" rfl).2⟩

/-! ## C26: the object helpers agree -/

theorem getJsonObject_eq_objectReply (c : ApiClient) (net : Network) (path : String)
    (o : QJsonObject) (e : String) (x : Exchange)
    (hx : net.answered (c.getJsonObject net path o e).net = some x) :
    ((c.getJsonObject net path o e).ret, (c.getJsonObject net path o e).out,
      (c.getJsonObject net path o e).outError) = objectReply x o e := by
  obtain ⟨h1, h2, h3⟩ := getJsonObject_cases c net path o e x hx
  by_cases herr : x.observed.error = NoError
  · cases hd : x.observed.document with
    | null =>
      obtain ⟨a, b, d⟩ := h2 herr (by simp [hd, QJsonDocument.isObject])
      simp [objectReply, herr, hd, QJsonDocument.isObject, a, b, d]
    | array arr =>
      obtain ⟨a, b, d⟩ := h2 herr (by simp [hd, QJsonDocument.isObject])
      simp [objectReply, herr, hd, QJsonDocument.isObject, a, b, d]
    | object obj =>
      obtain ⟨a, b, d⟩ := h3 herr obj hd
      simp [objectReply, herr, hd, QJsonDocument.isObject, QJsonDocument.toObject, a, b, d]
  · obtain ⟨a, b, d⟩ := h1 herr
    simp [objectReply, herr, a, b, d]

theorem postJsonObject_eq_objectReply (c : ApiClient) (net : Network) (path : String) (body : QJsonObject)
    (o : QJsonObject) (e : String) (x : Exchange)
    (hx : net.answered (c.postJsonObject net path body o e).net = some x) :
    ((c.postJsonObject net path body o e).ret, (c.postJsonObject net path body o e).out,
      (c.postJsonObject net path body o e).outError) = objectReply x o e := by
  obtain ⟨h1, h2, h3⟩ := postJsonObject_cases c net path body o e x hx
  by_cases herr : x.observed.error = NoError
  · cases hd : x.observed.document with
    | null =>
      obtain ⟨a, b, d⟩ := h2 herr (by simp [hd, QJsonDocument.isObject])
      simp [objectReply, herr, hd, QJsonDocument.isObject, a, b, d]
    | array arr =>
      obtain ⟨a, b, d⟩ := h2 herr (by simp [hd, QJsonDocument.isObject])
      simp [objectReply, herr, hd, QJsonDocument.isObject, a, b, d]
    | object obj =>
      obtain ⟨a, b, d⟩ := h3 herr obj hd
      simp [objectReply, herr, hd, QJsonDocument.isObject, QJsonDocument.toObject, a, b, d]
  · obtain ⟨a, b, d⟩ := h1 herr
    simp [objectReply, herr, a, b, d]

theorem putJsonObject_eq_objectReply (c : ApiClient) (net : Network) (path : String) (body : QJsonObject)
    (o : QJsonObject) (e : String) (x : Exchange)
    (hx : net.answered (c.putJsonObject net path body o e).net = some x) :
    ((c.putJsonObject net path body o e).ret, (c.putJsonObject net path body o e).out,
      (c.putJsonObject net path body o e).outError) = objectReply x o e := by
  obtain ⟨h1, h2, h3⟩ := putJsonObject_cases c net path body o e x hx
  by_cases herr : x.observed.error = NoError
  · cases hd : x.observed.document with
    | null =>
      obtain ⟨a, b, d⟩ := h2 herr (by simp [hd, QJsonDocument.isObject])
      simp [objectReply, herr, hd, QJsonDocument.isObject, a, b, d]
    | array arr =>
      obtain ⟨a, b, d⟩ := h2 herr (by simp [hd, QJsonDocument.isObject])
      simp [objectReply, herr, hd, QJsonDocument.isObject, a, b, d]
    | object obj =>
      obtain ⟨a, b, d⟩ := h3 herr obj hd
      simp [objectReply, herr, hd, QJsonDocument.isObject, QJsonDocument.toObject, a, b, d]
  · obtain ⟨a, b, d⟩ := h1 herr
    simp [objectReply, herr, a, b, d]

/-- C26. On the same outcome `x` of their request and the same output object
and error string before the call, getJsonObject, postJsonObject and
putJsonObject return the same flag, the same output object and the same
error string. deleteRequest on the same outcome returns true with the output
object and the error string unchanged when the reply carries no transport
error and its body is not a JSON object (where the other three return false
with "invalid_response"), and returns what getJsonObject returns otherwise. -/
theorem object_helpers_agree (c : ApiClient) (netG netP netU netD : Network)
    (path : String) (bodyP bodyU o : QJsonObject) (e : String) (x : Exchange)
    (hG : netG.answered (c.getJsonObject netG path o e).net = some x)
    (hP : netP.answered (c.postJsonObject netP path bodyP o e).net = some x)
    (hU : netU.answered (c.putJsonObject netU path bodyU o e).net = some x)
    (hD : netD.answered (c.deleteRequest netD path o e).net = some x) :
    ((c.postJsonObject netP path bodyP o e).ret = (c.getJsonObject netG path o e).ret
      ∧ (c.postJsonObject netP path bodyP o e).out = (c.getJsonObject netG path o e).out
      ∧ (c.postJsonObject netP path bodyP o e).outError
          = (c.getJsonObject netG path o e).outError)
    ∧ ((c.putJsonObject netU path bodyU o e).ret = (c.getJsonObject netG path o e).ret
      ∧ (c.putJsonObject netU path bodyU o e).out = (c.getJsonObject netG path o e).out
      ∧ (c.putJsonObject netU path bodyU o e).outError
          = (c.getJsonObject netG path o e).outError)
    ∧ ((x.observed.error = NoError ∧ x.observed.document.isObject = false) →
        (c.deleteRequest netD path o e).ret = true
        ∧ (c.deleteRequest netD path o e).out = o
        ∧ (c.deleteRequest netD path o e).outError = e
        ∧ (c.getJsonObject netG path o e).ret = false
        ∧ (c.getJsonObject netG path o e).outError = "invalid_response")
    ∧ (¬ (x.observed.error = NoError ∧ x.observed.document.isObject = false) →
        (c.deleteRequest netD path o e).ret = (c.getJsonObject netG path o e).ret
        ∧ (c.deleteRequest netD path o e).out = (c.getJsonObject netG path o e).out
        ∧ (c.deleteRequest netD path o e).outError
            = (c.getJsonObject netG path o e).outError) := by
  have eG := getJsonObject_eq_objectReply c netG path o e x hG
  have eP := postJsonObject_eq_objectReply c netP path bodyP o e x hP
  have eU := putJsonObject_eq_objectReply c netU path bodyU o e x hU
  have ePG := eP.trans eG.symm
  have eUG := eU.trans eG.symm
  simp only [Prod.mk.injEq] at ePG eUG
  obtain ⟨d1, d2⟩ := deleteRequest_cases c netD path o e x hD
  obtain ⟨g1, g2, g3⟩ := getJsonObject_cases c netG path o e x hG
  refine ⟨ePG, eUG, ?_, ?_⟩
  · rintro ⟨herr, hd⟩
    obtain ⟨a, b, d⟩ := d2 herr
    obtain ⟨a2, _, d3⟩ := g2 herr hd
    refine ⟨a, ?_, ?_, a2, d3⟩
    · rw [b, hd]
      rfl
    · rw [d, timer_not_fired_of_no_error x herr]
      rfl
  · intro hne
    by_cases herr : x.observed.error = NoError
    · cases hdoc : x.observed.document with
      | null => exact absurd ⟨herr, by simp [hdoc, QJsonDocument.isObject]⟩ hne
      | array arr => exact absurd ⟨herr, by simp [hdoc, QJsonDocument.isObject]⟩ hne
      | object obj =>
        obtain ⟨a, b, d⟩ := d2 herr
        obtain ⟨a2, b2, d3⟩ := g3 herr obj hdoc
        rw [a, b, d, a2, b2, d3, hdoc]
        exact ⟨rfl, rfl, rfl⟩
    · obtain ⟨a, b, d⟩ := d1 herr
      obtain ⟨a2, b2, d3⟩ := g1 herr
      rw [a, b, d, a2, b2, d3]
      exact ⟨rfl, rfl, rfl⟩

/-- C26 (witness): the four helpers on a 403 with an error body, where they agree. -/
theorem object_helpers_agree_witness :
    (sampleClient.postJsonObject forbiddenNetwork "/vendors" [] [] "").outError
      = (sampleClient.getJsonObject forbiddenNetwork "/vendors" [] "").outError
    ∧ (sampleClient.deleteRequest forbiddenNetwork "/vendors" [] "").outError
      = (sampleClient.getJsonObject forbiddenNetwork "/vendors" [] "").outError :=
  have h := object_helpers_agree sampleClient forbiddenNetwork forbiddenNetwork
    forbiddenNetwork forbiddenNetwork "/vendors" [] [] [] ""
    (forbiddenNetwork.respond [] { verb := "GET"
                                   request := sampleClient.makeRequest "/vendors"
                                   body := none })
    rfl rfl rfl rfl
  ⟨h.1.2.2, (h.2.2.2 (fun hh => absurd hh.1 (by decide))).2.2⟩

/-! ## C22: a device whose model or location is not in the loaded lists -/

theorem foldl_addModelItem (models : List ModelItem) (b : QComboBox) :
    models.foldl addModelItem b
      = { items := b.items ++ models.map (fun m => (m.displayName, QVariant.longLong m.id))
          currentIndex :=
            if b.items.isEmpty then (if models.isEmpty then b.currentIndex else 0)
            else b.currentIndex } := by
  induction models generalizing b with
  | nil => cases b; simp
  | cons m rest ih =>
    rw [List.foldl_cons, ih]
    cases hb : b.items <;> simp [addModelItem, QComboBox.addItem, hb]

theorem foldl_addLocationItem (locations : List LocationItem) (b : QComboBox) :
    locations.foldl addLocationItem b
      = { items := b.items
            ++ locations.map (fun l => (l.displayName, QVariant.longLong l.id))
          currentIndex :=
            if b.items.isEmpty then (if locations.isEmpty then b.currentIndex else 0)
            else b.currentIndex } := by
  induction locations generalizing b with
  | nil => cases b; simp
  | cons l rest ih =>
    rw [List.foldl_cons, ih]
    cases hb : b.items <;> simp [addLocationItem, QComboBox.addItem, hb]

theorem findDataFrom_absent (items : List (String × QVariant)) (v : QVariant) (i : Int)
    (h : ∀ it ∈ items, it.2.equals v = false) : findDataFrom items v i = -1 := by
  induction items generalizing i with
  | nil => rfl
  | cons it rest ih =>
    obtain ⟨t, d⟩ := it
    have hd : d.equals v = false := h (t, d) (List.mem_cons_self _ _)
    simp only [findDataFrom, hd, Bool.false_eq_true, if_false]
    exact ih _ (fun it hit => h it (List.mem_cons_of_mem _ hit))

/-- The dialog `loadReferenceData` leaves when it succeeds on a new dialog. -/
theorem loadReferenceData_new (hasClient : Bool) (api : ApiClient) (net : Network)
    (e : String)
    (hr : ((DeviceDialog.new hasClient).loadReferenceData api net e).ret = true) :
    ((DeviceDialog.new hasClient).loadReferenceData api net e).out.hasInitialDevice_ = false
    ∧ ((DeviceDialog.new hasClient).loadReferenceData api net e).out.modelCombo_
        = some (((DeviceDialog.new hasClient).loadReferenceData api net e).out.models_.foldl
            addModelItem QComboBox.clear)
    ∧ ((DeviceDialog.new hasClient).loadReferenceData api net e).out.locationCombo_
        = some (((DeviceDialog.new hasClient).loadReferenceData api net e).out.locations_.foldl
            addLocationItem (QComboBox.clear.addItem "—" QVariant.invalid)) := by
  revert hr
  simp only [DeviceDialog.loadReferenceData]
  split_ifs <;>
    simp [DeviceDialog.new, DeviceDialog.applyInitialSelection]

theorem applyInitialSelection_location_absent (d : DeviceDialog) (combo : QComboBox)
    (hh : d.hasInitialDevice_ = true) (hl : d.locationCombo_ = some combo)
    (hv : d.initialDevice_.locationId.isValid = true)
    (hn : d.initialDevice_.locationId.isNull = false)
    (hf : combo.findData (QVariant.longLong d.initialDevice_.locationId.toLongLong) = -1) :
    d.applyInitialSelection.locationCombo_ = some combo := by
  simp only [DeviceDialog.applyInitialSelection, hh]
  cases hm : d.modelCombo_ with
  | none => simp [hl, hv, hn, hf]
  | some mc =>
    by_cases hi : mc.findData (QVariant.longLong d.initialDevice_.modelId) ≥ 0 <;>
      simp [hl, hv, hn, hf, hi]

theorem applyInitialSelection_model_absent (d : DeviceDialog) (combo : QComboBox)
    (hh : d.hasInitialDevice_ = true) (hm : d.modelCombo_ = some combo)
    (hf : combo.findData (QVariant.longLong d.initialDevice_.modelId) = -1) :
    d.applyInitialSelection.modelCombo_ = some combo := by
  simp only [DeviceDialog.applyInitialSelection, hh]
  cases hl : d.locationCombo_ with
  | none => simp [hm, hf, hl]
  | some lc =>
    by_cases hv : (d.initialDevice_.locationId.isValid
        && !d.initialDevice_.locationId.isNull) = true
    · by_cases hi : lc.findData
          (QVariant.longLong d.initialDevice_.locationId.toLongLong) ≥ 0 <;>
        simp [hm, hf, hv, hi, hl]
    · simp [hm, hf, hv, hl]

/-- C22. After `loadReferenceData` has succeeded on a new dialog and
`setInitialDevice(device)` has run: if the device's locationId is set and no
loaded location has that id, the location box stays on its first entry, the
entry "—" with the invalid variant, `selectedLocationId` is the invalid
variant, and updateDevice called with the values of the dialog sends no
`locationId`; if no loaded model has the device's modelId and the model list
starts with `m0`, the model box stays on its first entry and
`selectedModelId` is the id of `m0`. -/
theorem missing_reference_keeps_first_entry (hasClient : Bool) (api : ApiClient)
    (net : Network) (e : String) (device : DeviceDetails)
    (hr : ((DeviceDialog.new hasClient).loadReferenceData api net e).ret = true) :
    (device.locationId.isValid = true → device.locationId.isNull = false →
      (∀ l ∈ ((DeviceDialog.new hasClient).loadReferenceData api net e).out.locations_, l.id ≠ device.locationId.toLongLong) →
      (∃ combo : QComboBox, (((DeviceDialog.new hasClient).loadReferenceData api net e).out.setInitialDevice device).locationCombo_ = some combo ∧ combo.currentIndex = 0
        ∧ combo.items.head? = some ("—", QVariant.invalid))
      ∧ (((DeviceDialog.new hasClient).loadReferenceData api net e).out.setInitialDevice device).selectedLocationId = QVariant.invalid
      ∧ (∀ (c2 : ApiClient) (net2 : Network) (id modelId : Int) (e2 : String),
          ∃ body : QJsonObject,
            (c2.updateDevice net2 id modelId (((DeviceDialog.new hasClient).loadReferenceData api net e).out.setInitialDevice device).selectedLocationId (((DeviceDialog.new hasClient).loadReferenceData api net e).out.setInitialDevice device).serialNumber
                (((DeviceDialog.new hasClient).loadReferenceData api net e).out.setInitialDevice device).inventoryNumber (((DeviceDialog.new hasClient).loadReferenceData api net e).out.setInitialDevice device).status (((DeviceDialog.new hasClient).loadReferenceData api net e).out.setInitialDevice device).installedAt (((DeviceDialog.new hasClient).loadReferenceData api net e).out.setInitialDevice device).description e2).net.sent
              = net2.sent ++ [{ verb := "PUT", request := c2.makeRequest (idPath "/devices/" id)
                                body := some body }]
            ∧ body.contains "locationId" = false))
    ∧ (∀ (m0 : ModelItem) (rest : List ModelItem), ((DeviceDialog.new hasClient).loadReferenceData api net e).out.models_ = m0 :: rest →
      (∀ m ∈ ((DeviceDialog.new hasClient).loadReferenceData api net e).out.models_, m.id ≠ device.modelId) →
      (∃ combo : QComboBox, (((DeviceDialog.new hasClient).loadReferenceData api net e).out.setInitialDevice device).modelCombo_ = some combo ∧ combo.currentIndex = 0)
      ∧ (((DeviceDialog.new hasClient).loadReferenceData api net e).out.setInitialDevice device).selectedModelId = m0.id
      ∧ (m0.id ≠ device.modelId)) := by
  obtain ⟨h1, h2, h3⟩ := loadReferenceData_new hasClient api net e hr
  generalize ((DeviceDialog.new hasClient).loadReferenceData api net e).out = d0 at h1 h2 h3 ⊢
  constructor
  · intro hv hn hall
    have hf : (d0.locations_.foldl addLocationItem
        (QComboBox.clear.addItem "—" QVariant.invalid)).findData
        (QVariant.longLong device.locationId.toLongLong) = -1 := by
      rw [foldl_addLocationItem]
      apply findDataFrom_absent
      intro it hit
      simp only [QComboBox.addItem, QComboBox.clear, List.nil_append, List.cons_append,
        List.mem_cons, List.mem_map] at hit
      rcases hit with rfl | ⟨l, hl, rfl⟩
      · rfl
      · simpa [QVariant.equals] using hall l hl
    have hc := applyInitialSelection_location_absent
      { { d0 with initialDevice_ := device } with hasInitialDevice_ := true } _ rfl h3 hv hn hf
    have hsel : (d0.setInitialDevice device).selectedLocationId = QVariant.invalid := by
      simp only [DeviceDialog.selectedLocationId, DeviceDialog.setInitialDevice, hc]
      rw [foldl_addLocationItem]
      simp [QComboBox.currentData, QComboBox.addItem, QComboBox.clear]
    refine ⟨⟨_, hc, ?_, ?_⟩, hsel, ?_⟩
    · rw [foldl_addLocationItem]
      simp [QComboBox.addItem, QComboBox.clear]
    · rw [foldl_addLocationItem]
      simp [QComboBox.addItem, QComboBox.clear]
    · intro c2 net2 id modelId e2
      rw [hsel]
      obtain ⟨body, hs, hcont, _⟩ := updateDevice_locationId c2 net2 id modelId
        QVariant.invalid (d0.setInitialDevice device).serialNumber
        (d0.setInitialDevice device).inventoryNumber (d0.setInitialDevice device).status
        (d0.setInitialDevice device).installedAt (d0.setInitialDevice device).description e2
      exact ⟨body, hs, by simpa [QVariant.isValid, QVariant.isNull] using hcont⟩
  · intro m0 rest hm hall
    have hf : (d0.models_.foldl addModelItem QComboBox.clear).findData
        (QVariant.longLong device.modelId) = -1 := by
      rw [foldl_addModelItem]
      apply findDataFrom_absent
      intro it hit
      simp only [QComboBox.clear, List.nil_append, List.mem_map] at hit
      obtain ⟨m, hmm, rfl⟩ := hit
      simpa [QVariant.equals] using hall m hmm
    have hc := applyInitialSelection_model_absent
      { { d0 with initialDevice_ := device } with hasInitialDevice_ := true } _ rfl h2 hf
    refine ⟨⟨_, hc, ?_⟩, ?_, hall m0 (hm ▸ List.mem_cons_self _ _)⟩
    · rw [foldl_addModelItem, hm]
      simp [QComboBox.clear]
    · simp only [DeviceDialog.selectedModelId, DeviceDialog.setInitialDevice, hc]
      rw [foldl_addModelItem, hm]
      simp [QComboBox.currentData, QComboBox.clear, QVariant.toLongLong]

/-- C22 (witness): the device 12 has the location 99 and the model 77, the
lists hold the location 5 and the model 3: the dialog selects no location and
the model 3, and the edit handler, with the dialog accepted as it is, sends a
PUT without `locationId`. -/
theorem missing_reference_keeps_first_entry_witness :
    (((DeviceDialog.new true).loadReferenceData sampleClient inventoryServer "").out.setInitialDevice
        device12).selectedLocationId = QVariant.invalid
    ∧ (((DeviceDialog.new true).loadReferenceData sampleClient inventoryServer "").out.setInitialDevice
        device12).selectedModelId = 3
    ∧ ((inventoryWindow.onEditAction id sampleClient inventoryServer (some 0)
          acceptUnchanged).2.2.sent.filter (fun s => s.verb == "PUT")).map
        (fun s => (s.request.url, s.body.map (fun b => b.contains "locationId")))
        = [("http://localhost:8080/devices/12", some false)] :=
  have h := missing_reference_keeps_first_entry true sampleClient inventoryServer "" device12 rfl
  ⟨(h.1 rfl rfl (by decide)).2.1,
   (h.2 { id := 3, vendorId := 1, vendorName := "Acme", name := "R1", deviceType := "" } [] rfl
      (by decide)).2.1,
   by decide⟩

/-! ## C27: no device is sent without a model -/

theorem onlyGets_refl (net : Network) : net.onlyGets net :=
  ⟨[], by simp, by simp⟩

theorem onlyGets_trans (a b c : Network) (h1 : a.onlyGets b) (h2 : b.onlyGets c) :
    a.onlyGets c := by
  obtain ⟨l1, e1, g1⟩ := h1
  obtain ⟨l2, e2, g2⟩ := h2
  refine ⟨l1 ++ l2, by rw [e2, e1, List.append_assoc], ?_⟩
  intro s hs
  rcases List.mem_append.mp hs with h | h
  · exact g1 s h
  · exact g2 s h

theorem onlyGets_drop (a b : Network) (h : a.onlyGets b) :
    ∀ s ∈ b.sent.drop a.sent.length, s.verb = "GET" := by
  obtain ⟨l, e, g⟩ := h
  rw [e, List.drop_left]
  exact g

theorem onlyGets_of_get (a b : Network) (request : QNetworkRequest)
    (h : b.sent = a.sent ++ [{ verb := "GET", request := request, body := none }]) :
    a.onlyGets b :=
  ⟨[{ verb := "GET", request := request, body := none }], h, by simp⟩

theorem listModels_onlyGets (c : ApiClient) (net : Network) (o : List ModelItem) (e : String) :
    net.onlyGets (c.listModels net o e).net := by
  apply onlyGets_of_get
  rw [(listModels_fields c net o e).1]
  exact getJsonArray_sent c net _ _ _

theorem listLocations_onlyGets (c : ApiClient) (net : Network) (o : List LocationItem)
    (e : String) : net.onlyGets (c.listLocations net o e).net := by
  apply onlyGets_of_get
  rw [(listLocations_fields c net o e).1]
  exact getJsonArray_sent c net _ _ _

theorem getDevice_onlyGets (c : ApiClient) (net : Network) (id : Int) (d : DeviceDetails)
    (e : String) : net.onlyGets (c.getDevice net id d e).net := by
  apply onlyGets_of_get
  rw [(getDevice_fields c net id d e).1]
  exact getJsonObject_sent c net _ _ _

theorem loadReferenceData_onlyGets (d : DeviceDialog) (api : ApiClient) (net : Network)
    (e : String) : net.onlyGets (d.loadReferenceData api net e).net := by
  simp only [DeviceDialog.loadReferenceData]
  split_ifs
  · exact onlyGets_refl net
  · exact listModels_onlyGets api net _ _
  · exact onlyGets_trans _ _ _ (listModels_onlyGets api net _ _)
      (listLocations_onlyGets _ _ _ _)
  · exact onlyGets_trans _ _ _ (listModels_onlyGets api net _ _)
      (listLocations_onlyGets _ _ _ _)

/-- The add handler issues only GET requests unless the dialog is accepted with a model. -/
theorem onAddAction_onlyGets (encode : String → String) (w : MainWindow) (api : ApiClient)
    (net : Network) (exec : DeviceDialog → DialogCode × DeviceDialog)
    (hcond : ¬ ((exec ((DeviceDialog.new w.apiClient_).loadReferenceData api net "").out).1
        = DialogCode.Accepted
      ∧ 0 < (exec ((DeviceDialog.new w.apiClient_).loadReferenceData api net "").out).2.selectedModelId)) :
    net.onlyGets (w.onAddAction encode api net exec).2.2 := by
  have hl := loadReferenceData_onlyGets (DeviceDialog.new w.apiClient_) api net ""
  simp only [MainWindow.onAddAction]
  generalize (DeviceDialog.new w.apiClient_).loadReferenceData api net "" = r at hcond hl ⊢
  rcases hx : exec r.out with ⟨code, dlg⟩
  rw [hx] at hcond
  simp only at hcond
  by_cases h1 : w.apiClient_ = true
  · cases h2 : r.ret
    · simpa [h1, h2] using hl
    · cases code
      · simpa [h1, h2] using hl
      · have hm : dlg.selectedModelId ≤ 0 := by
          by_contra hh
          exact hcond ⟨rfl, not_le.mp hh⟩
        simpa [h1, h2, hm] using hl
  · simpa [h1] using onlyGets_refl net

/-- The edit handler issues only GET requests unless the dialog is accepted with a model. -/
theorem onEditAction_onlyGets (encode : String → String) (w : MainWindow) (api : ApiClient)
    (net : Network) (topRow : Option Nat) (exec : DeviceDialog → DialogCode × DeviceDialog)
    (hcond : ¬ ((exec (((DeviceDialog.new w.apiClient_).loadReferenceData (api.getDevice net (w.selectedDeviceId topRow) DeviceDetails.default "").self
          (api.getDevice net (w.selectedDeviceId topRow) DeviceDetails.default "").net
          (api.getDevice net (w.selectedDeviceId topRow) DeviceDetails.default "").outError).out.setInitialDevice
          (api.getDevice net (w.selectedDeviceId topRow) DeviceDetails.default "").out)).1 = DialogCode.Accepted
      ∧ 0 < (exec (((DeviceDialog.new w.apiClient_).loadReferenceData (api.getDevice net (w.selectedDeviceId topRow) DeviceDetails.default "").self
          (api.getDevice net (w.selectedDeviceId topRow) DeviceDetails.default "").net
          (api.getDevice net (w.selectedDeviceId topRow) DeviceDetails.default "").outError).out.setInitialDevice
          (api.getDevice net (w.selectedDeviceId topRow) DeviceDetails.default "").out)).2.selectedModelId)) :
    net.onlyGets (w.onEditAction encode api net topRow exec).2.2 := by
  have hg := getDevice_onlyGets api net (w.selectedDeviceId topRow) DeviceDetails.default ""
  simp only [MainWindow.onEditAction]
  generalize api.getDevice net (w.selectedDeviceId topRow) DeviceDetails.default "" = rg
    at hcond hg ⊢
  have hl := onlyGets_trans _ _ _ hg
    (loadReferenceData_onlyGets (DeviceDialog.new w.apiClient_) rg.self rg.net rg.outError)
  generalize (DeviceDialog.new w.apiClient_).loadReferenceData rg.self rg.net rg.outError = r
    at hcond hl ⊢
  rcases hx : exec (r.out.setInitialDevice rg.out) with ⟨code, dlg⟩
  rw [hx] at hcond
  simp only at hcond
  by_cases h0 : w.selectedDeviceId topRow ≤ 0
  · simpa [h0] using onlyGets_refl net
  · by_cases h1 : w.apiClient_ = true
    · cases h2 : rg.ret
      · simpa [h0, h1, h2] using hg
      · cases h3 : r.ret
        · simpa [h0, h1, h2, h3] using hl
        · cases code
          · simpa [h0, h1, h2, h3] using hl
          · have hm : dlg.selectedModelId ≤ 0 := by
              by_contra hh
              exact hcond ⟨rfl, not_le.mp hh⟩
            simpa [h0, h1, h2, h3, hm] using hl
    · simpa [h0, h1] using onlyGets_refl net

/-- C27. In the add handler and in the edit handler of the main window, a
POST or PUT request (createDevice, updateDevice) is among the requests the
handler issues only if the device dialog was accepted and its selected model
id is greater than 0; when the selected model id is 0 or negative the handler
issues no POST and no PUT. -/
theorem device_sent_only_with_model (encode : String → String) (w : MainWindow)
    (api : ApiClient) (net : Network) (topRow : Option Nat)
    (exec : DeviceDialog → DialogCode × DeviceDialog) :
    (∀ s ∈ (w.onAddAction encode api net exec).2.2.sent.drop net.sent.length,
        (s.verb = "POST" ∨ s.verb = "PUT") →
        (exec ((DeviceDialog.new w.apiClient_).loadReferenceData api net "").out).1 = DialogCode.Accepted
        ∧ 0 < (exec ((DeviceDialog.new w.apiClient_).loadReferenceData api net "").out).2.selectedModelId)
    ∧ ((exec ((DeviceDialog.new w.apiClient_).loadReferenceData api net "").out).2.selectedModelId ≤ 0 →
        ∀ s ∈ (w.onAddAction encode api net exec).2.2.sent.drop net.sent.length,
          s.verb ≠ "POST" ∧ s.verb ≠ "PUT")
    ∧ (∀ s ∈ (w.onEditAction encode api net topRow exec).2.2.sent.drop net.sent.length,
        (s.verb = "POST" ∨ s.verb = "PUT") →
        (exec (((DeviceDialog.new w.apiClient_).loadReferenceData (api.getDevice net (w.selectedDeviceId topRow) DeviceDetails.default "").self
          (api.getDevice net (w.selectedDeviceId topRow) DeviceDetails.default "").net
          (api.getDevice net (w.selectedDeviceId topRow) DeviceDetails.default "").outError).out.setInitialDevice
          (api.getDevice net (w.selectedDeviceId topRow) DeviceDetails.default "").out)).1 = DialogCode.Accepted
        ∧ 0 < (exec (((DeviceDialog.new w.apiClient_).loadReferenceData (api.getDevice net (w.selectedDeviceId topRow) DeviceDetails.default "").self
          (api.getDevice net (w.selectedDeviceId topRow) DeviceDetails.default "").net
          (api.getDevice net (w.selectedDeviceId topRow) DeviceDetails.default "").outError).out.setInitialDevice
          (api.getDevice net (w.selectedDeviceId topRow) DeviceDetails.default "").out)).2.selectedModelId)
    ∧ ((exec (((DeviceDialog.new w.apiClient_).loadReferenceData (api.getDevice net (w.selectedDeviceId topRow) DeviceDetails.default "").self
          (api.getDevice net (w.selectedDeviceId topRow) DeviceDetails.default "").net
          (api.getDevice net (w.selectedDeviceId topRow) DeviceDetails.default "").outError).out.setInitialDevice
          (api.getDevice net (w.selectedDeviceId topRow) DeviceDetails.default "").out)).2.selectedModelId ≤ 0 →
        ∀ s ∈ (w.onEditAction encode api net topRow exec).2.2.sent.drop net.sent.length,
          s.verb ≠ "POST" ∧ s.verb ≠ "PUT") := by
  refine ⟨fun s hs hv => ?_, fun hm s hs => ?_, fun s hs hv => ?_, fun hm s hs => ?_⟩
  · by_contra hcond
    have hg := onlyGets_drop _ _ (onAddAction_onlyGets encode w api net exec hcond) s hs
    rcases hv with hv | hv <;> rw [hg] at hv <;> exact absurd hv (by decide)
  · have hg := onlyGets_drop _ _
      (onAddAction_onlyGets encode w api net exec (fun h => absurd h.2 (not_lt.mpr hm))) s hs
    rw [hg]
    exact ⟨by decide, by decide⟩
  · by_contra hcond
    have hg := onlyGets_drop _ _ (onEditAction_onlyGets encode w api net topRow exec hcond) s hs
    rcases hv with hv | hv <;> rw [hg] at hv <;> exact absurd hv (by decide)
  · have hg := onlyGets_drop _ _
      (onEditAction_onlyGets encode w api net topRow exec
        (fun h => absurd h.2 (not_lt.mpr hm))) s hs
    rw [hg]
    exact ⟨by decide, by decide⟩

/-- C27 (witness): over a server whose model list is empty the add handler,
with the dialog accepted as it is, issues the two GET requests of the
reference data and nothing else; over `inventoryServer` it selects the model
3 and issues the POST. -/
theorem device_sent_only_with_model_witness :
    (∀ s ∈ (inventoryWindow.onAddAction id sampleClient emptyArrayServer
          acceptUnchanged).2.2.sent.drop emptyArrayServer.sent.length,
        s.verb ≠ "POST" ∧ s.verb ≠ "PUT")
    ∧ requestLines (inventoryWindow.onAddAction id sampleClient emptyArrayServer
          acceptUnchanged).2.2.sent
        = [("GET", "http://localhost:8080/models"), ("GET", "http://localhost:8080/locations")]
    ∧ requestLines (inventoryWindow.onAddAction id sampleClient inventoryServer
          acceptUnchanged).2.2.sent
        = [("GET", "http://localhost:8080/models"), ("GET", "http://localhost:8080/locations"),
           ("POST", "http://localhost:8080/devices"),
           ("GET", "http://localhost:8080/devices?q=")]
    ∧ requestLines (inventoryWindow.onAddAction id sampleClient inventoryServer
          cancelDevice).2.2.sent
        = [("GET", "http://localhost:8080/models"), ("GET", "http://localhost:8080/locations")] :=
  ⟨(device_sent_only_with_model id inventoryWindow sampleClient emptyArrayServer none
      acceptUnchanged).2.1 (by decide),
   by decide, by decide, by decide⟩

/-! ## C28: registration with two different passwords -/

/-- C28. In `onRegisterClicked`: when the two password entries differ, no
request is issued, the dialog keeps its token, username and role, and it is
not accepted; when they are equal (and the dialog has its client), exactly
one request is issued, the POST of register with the trimmed username and the
password as entered. -/
theorem register_needs_equal_passwords (d : AuthDialog) (hasClient : Bool) (api : ApiClient)
    (net : Network) (user p1 p2 : String) :
    (p1 ≠ p2 →
      (d.onRegisterClicked hasClient api net user p1 p2).net.sent = net.sent
      ∧ (d.onRegisterClicked hasClient api net user p1 p2).dialog.token = d.token
      ∧ (d.onRegisterClicked hasClient api net user p1 p2).dialog.username = d.username
      ∧ (d.onRegisterClicked hasClient api net user p1 p2).dialog.role = d.role
      ∧ (d.onRegisterClicked hasClient api net user p1 p2).accepted = false)
    ∧ (p1 = p2 →
      (d.onRegisterClicked true api net user p1 p2).net.sent
        = net.sent ++ [authSent api "/auth/register" (trimmed user) p1]) := by
  constructor
  · intro h
    cases hasClient <;> simp [AuthDialog.onRegisterClicked, h]
  · intro h
    subst h
    simp only [AuthDialog.onRegisterClicked]
    split_ifs <;> first | exact postAuth_sent api net _ _ _ | simp_all

/-- C28 (witness): "s3cret" against "s3cret " sends nothing; twice "s3cret"
sends one register request for "ann". -/
theorem register_needs_equal_passwords_witness :
    (freshAuthDialog.onRegisterClicked true sampleClient emptyBodyServer " ann " "s3cret"
        "s3cret ").net.sent.length = 0
    ∧ (freshAuthDialog.onRegisterClicked true sampleClient emptyBodyServer " ann " "s3cret"
        "s3cret").net.sent.map (fun s => (s.request.url, s.body.map (fun b =>
          ((b.value "username").toString "", (b.value "password").toString ""))))
        = [("http://localhost:8080/auth/register", some ("ann", "s3cret"))] :=
  have h := register_needs_equal_passwords freshAuthDialog true sampleClient emptyBodyServer
    " ann " "s3cret" "s3cret "
  have h2 := register_needs_equal_passwords freshAuthDialog true sampleClient emptyBodyServer
    " ann " "s3cret" "s3cret"
  ⟨by rw [(h.1 (by decide)).1]; rfl, by rw [h2.2 rfl]; decide⟩

/-! ## C29: the name required by the vendor and location editors -/

/-- A trimmed text that is not empty holds a character that is not white space. -/
theorem trimmed_not_blank (s : String) (h : trimmed s ≠ "") :
    (trimmed s).toList.all isSpace = false := by
  have hne : ((s.toList.dropWhile isSpace).reverse.dropWhile isSpace) ≠ [] := by
    intro hnil
    apply h
    unfold trimmed
    rw [hnil]
    rfl
  have hhead := List.head_dropWhile_not isSpace (s.toList.dropWhile isSpace).reverse hne
  rw [List.all_eq_false]
  refine ⟨_, ?_, by simpa using hhead⟩
  show _ ∈ (((s.toList.dropWhile isSpace).reverse.dropWhile isSpace).reverse)
  rw [List.mem_reverse]
  exact List.head_mem hne

theorem editVendorDialog_true (title ioName ioCountry : String)
    (exec : String → String → DialogCode × String × String)
    (h : (editVendorDialog title ioName ioCountry exec).ret = true) :
    (exec ioName ioCountry).1 = DialogCode.Accepted
    ∧ (editVendorDialog title ioName ioCountry exec).ioName
        = trimmed (exec ioName ioCountry).2.1
    ∧ (editVendorDialog title ioName ioCountry exec).ioCountry
        = trimmed (exec ioName ioCountry).2.2
    ∧ (editVendorDialog title ioName ioCountry exec).ioName ≠ ""
    ∧ (editVendorDialog title ioName ioCountry exec).ioName.toList.all isSpace = false := by
  revert h
  simp only [editVendorDialog]
  rcases exec ioName ioCountry with ⟨code, nameEdit, countryEdit⟩
  cases code
  · simp
  · by_cases hn : trimmed nameEdit = ""
    · simp [hn]
    · intro _
      simpa [hn] using trimmed_not_blank nameEdit hn

theorem editLocationDialog_true (title ioName ioNote : String)
    (exec : String → String → DialogCode × String × String)
    (h : (editLocationDialog title ioName ioNote exec).ret = true) :
    (exec ioName ioNote).1 = DialogCode.Accepted
    ∧ (editLocationDialog title ioName ioNote exec).ioName
        = trimmed (exec ioName ioNote).2.1
    ∧ (editLocationDialog title ioName ioNote exec).ioNote
        = trimmed (exec ioName ioNote).2.2
    ∧ (editLocationDialog title ioName ioNote exec).ioName ≠ ""
    ∧ (editLocationDialog title ioName ioNote exec).ioName.toList.all isSpace = false := by
  revert h
  simp only [editLocationDialog]
  rcases exec ioName ioNote with ⟨code, nameEdit, noteEdit⟩
  cases code
  · simp
  · by_cases hn : trimmed nameEdit = ""
    · simp [hn]
    · intro _
      simpa [hn] using trimmed_not_blank nameEdit hn

theorem onlyGetsOr_refl (P : Sent → Prop) (net : Network) : Network.onlyGetsOr P net net :=
  ⟨[], by simp, by simp⟩

theorem onlyGetsOr_trans (P : Sent → Prop) (a b c : Network)
    (h1 : Network.onlyGetsOr P a b) (h2 : Network.onlyGetsOr P b c) :
    Network.onlyGetsOr P a c := by
  obtain ⟨l1, e1, g1⟩ := h1
  obtain ⟨l2, e2, g2⟩ := h2
  refine ⟨l1 ++ l2, by rw [e2, e1, List.append_assoc], ?_⟩
  intro s hs
  rcases List.mem_append.mp hs with h | h
  · exact g1 s h
  · exact g2 s h

theorem onlyGetsOr_of_onlyGets (P : Sent → Prop) (a b : Network) (h : a.onlyGets b) :
    Network.onlyGetsOr P a b := by
  obtain ⟨l, e, g⟩ := h
  exact ⟨l, e, fun s hs => Or.inl (g s hs)⟩

theorem onlyGetsOr_single (P : Sent → Prop) (a b : Network) (s : Sent)
    (h : b.sent = a.sent ++ [s]) (hp : P s) : Network.onlyGetsOr P a b :=
  ⟨[s], h, fun t ht => Or.inr (by rw [List.mem_singleton.mp ht]; exact hp)⟩

theorem onlyGetsOr_drop (P : Sent → Prop) (a b : Network) (h : Network.onlyGetsOr P a b) :
    ∀ s ∈ b.sent.drop a.sent.length, (s.verb = "POST" ∨ s.verb = "PUT") → P s := by
  obtain ⟨l, e, g⟩ := h
  rw [e, List.drop_left]
  intro s hs hv
  rcases g s hs with hg | hp
  · rcases hv with hv | hv <;> rw [hg] at hv <;> exact absurd hv (by decide)
  · exact hp

/-- A request whose body is built from a name and one more text field. -/
theorem carriesName_of_body (verb : String) (request : QNetworkRequest) (n key v : String)
    (hk : key ≠ "name") (hn : n ≠ "") (hb : n.toList.all isSpace = false) :
    carriesName { verb := verb, request := request
                  body := some ((QJsonObject.insert [] "name" (.string n)).insert key
                    (.string v)) } := by
  refine ⟨_, n, rfl, ?_, hn, hb⟩
  have hk2 : ¬ ("name" = key) := fun h => hk h.symm
  simp [QJsonObject.insert, QJsonObject.value, hk2]

theorem listVendors_onlyGets (c : ApiClient) (net : Network) (o : List VendorItem)
    (e : String) : net.onlyGets (c.listVendors net o e).net := by
  apply onlyGets_of_get
  rw [(listVendors_fields c net o e).1]
  exact getJsonArray_sent c net _ _ _

theorem vendorsReload_onlyGets (w : VendorsDialog) (api : ApiClient) (net : Network) :
    net.onlyGets (w.reload api net).2.2 := by
  simp only [VendorsDialog.reload]
  split_ifs
  · exact onlyGets_refl net
  · exact listVendors_onlyGets api net _ _
  · exact listVendors_onlyGets api net _ _
  · exact listVendors_onlyGets api net _ _

theorem locationsReload_onlyGets (w : LocationsDialog) (api : ApiClient) (net : Network) :
    net.onlyGets (w.reload api net).2.2 := by
  simp only [LocationsDialog.reload]
  split_ifs
  · exact onlyGets_refl net
  · exact listLocations_onlyGets api net _ _
  · exact listLocations_onlyGets api net _ _
  · exact listLocations_onlyGets api net _ _

theorem addVendor_named (w : VendorsDialog) (api : ApiClient) (net : Network)
    (exec : String → String → DialogCode × String × String) :
    Network.onlyGetsOr carriesName net (w.addVendor api net exec).2.2 := by
  simp only [VendorsDialog.addVendor]
  by_cases h1 : w.apiClient_ = true
  · cases hr : (editVendorDialog "Добавить производителя" "" "" exec).ret
    · simpa [h1, hr] using onlyGetsOr_refl carriesName net
    · obtain ⟨_, _, _, hn, hb⟩ := editVendorDialog_true _ _ _ exec hr
      have hc : Network.onlyGetsOr carriesName net
          (api.createVendor net (editVendorDialog "Добавить производителя" "" "" exec).ioName
            (editVendorDialog "Добавить производителя" "" "" exec).ioCountry "").net :=
        onlyGetsOr_single _ _ _ _ (postJsonObject_sent api net _ _ _ _)
          (carriesName_of_body _ _ _ "country" _ (by decide) hn hb)
      cases hcr : (api.createVendor net (editVendorDialog "Добавить производителя" "" "" exec).ioName
          (editVendorDialog "Добавить производителя" "" "" exec).ioCountry "").ret
      · simpa [h1, hr, hcr] using hc
      · simp only [h1, hr, hcr, Bool.not_true, Bool.false_eq_true, if_false]
        exact onlyGetsOr_trans _ _ _ _ hc
          (onlyGetsOr_of_onlyGets _ _ _ (vendorsReload_onlyGets _ _ _))
  · simpa [h1] using onlyGetsOr_refl carriesName net

theorem editVendor_named (w : VendorsDialog) (api : ApiClient) (net : Network)
    (topRow : Option Nat) (exec : String → String → DialogCode × String × String) :
    Network.onlyGetsOr carriesName net (w.editVendor api net topRow exec).2.2 := by
  simp only [VendorsDialog.editVendor]
  by_cases h1 : w.apiClient_ = true
  · by_cases h0 : w.selectedId topRow ≤ 0
    · simpa [h1, h0] using onlyGetsOr_refl carriesName net
    · generalize hnm : (match List.find? (fun v => v.id == w.selectedId topRow) w.vendors_ with
          | some v => v.name
          | none => "") = name
      generalize hsd : (match List.find? (fun v => v.id == w.selectedId topRow) w.vendors_ with
          | some v => v.country
          | none => "") = second
      cases hr : (editVendorDialog "Редактировать производителя" name second exec).ret
      · simpa [h1, h0, hr] using onlyGetsOr_refl carriesName net
      · obtain ⟨_, _, _, hn, hb⟩ := editVendorDialog_true _ _ _ exec hr
        have hc : Network.onlyGetsOr carriesName net
            (api.updateVendor net (w.selectedId topRow)
              (editVendorDialog "Редактировать производителя" name second exec).ioName
              (editVendorDialog "Редактировать производителя" name second exec).ioCountry "").net :=
          onlyGetsOr_single _ _ _ _ (putJsonObject_sent api net _ _ _ _)
            (carriesName_of_body _ _ _ "country" _ (by decide) hn hb)
        cases hcr : (api.updateVendor net (w.selectedId topRow)
            (editVendorDialog "Редактировать производителя" name second exec).ioName
            (editVendorDialog "Редактировать производителя" name second exec).ioCountry "").ret
        · simpa [h1, h0, hr, hcr] using hc
        · simp only [h1, h0, hr, hcr, Bool.not_true, Bool.false_eq_true, if_false]
          exact onlyGetsOr_trans _ _ _ _ hc
            (onlyGetsOr_of_onlyGets _ _ _ (vendorsReload_onlyGets _ _ _))
  · simpa [h1] using onlyGetsOr_refl carriesName net

theorem addLocation_named (w : LocationsDialog) (api : ApiClient) (net : Network)
    (exec : String → String → DialogCode × String × String) :
    Network.onlyGetsOr carriesName net (w.addLocation api net exec).2.2 := by
  simp only [LocationsDialog.addLocation]
  by_cases h1 : w.apiClient_ = true
  · cases hr : (editLocationDialog "Добавить локацию" "" "" exec).ret
    · simpa [h1, hr] using onlyGetsOr_refl carriesName net
    · obtain ⟨_, _, _, hn, hb⟩ := editLocationDialog_true _ _ _ exec hr
      have hc : Network.onlyGetsOr carriesName net
          (api.createLocation net (editLocationDialog "Добавить локацию" "" "" exec).ioName
            (editLocationDialog "Добавить локацию" "" "" exec).ioNote "").net :=
        onlyGetsOr_single _ _ _ _ (postJsonObject_sent api net _ _ _ _)
          (carriesName_of_body _ _ _ "note" _ (by decide) hn hb)
      cases hcr : (api.createLocation net (editLocationDialog "Добавить локацию" "" "" exec).ioName
          (editLocationDialog "Добавить локацию" "" "" exec).ioNote "").ret
      · simpa [h1, hr, hcr] using hc
      · simp only [h1, hr, hcr, Bool.not_true, Bool.false_eq_true, if_false]
        exact onlyGetsOr_trans _ _ _ _ hc
          (onlyGetsOr_of_onlyGets _ _ _ (locationsReload_onlyGets _ _ _))
  · simpa [h1] using onlyGetsOr_refl carriesName net

theorem editLocation_named (w : LocationsDialog) (api : ApiClient) (net : Network)
    (topRow : Option Nat) (exec : String → String → DialogCode × String × String) :
    Network.onlyGetsOr carriesName net (w.editLocation api net topRow exec).2.2 := by
  simp only [LocationsDialog.editLocation]
  by_cases h1 : w.apiClient_ = true
  · by_cases h0 : w.selectedId topRow ≤ 0
    · simpa [h1, h0] using onlyGetsOr_refl carriesName net
    · generalize hnm : (match List.find? (fun v => v.id == w.selectedId topRow) w.locations_ with
          | some v => v.name
          | none => "") = name
      generalize hsd : (match List.find? (fun v => v.id == w.selectedId topRow) w.locations_ with
          | some v => v.note
          | none => "") = second
      cases hr : (editLocationDialog "Редактировать локацию" name second exec).ret
      · simpa [h1, h0, hr] using onlyGetsOr_refl carriesName net
      · obtain ⟨_, _, _, hn, hb⟩ := editLocationDialog_true _ _ _ exec hr
        have hc : Network.onlyGetsOr carriesName net
            (api.updateLocation net (w.selectedId topRow)
              (editLocationDialog "Редактировать локацию" name second exec).ioName
              (editLocationDialog "Редактировать локацию" name second exec).ioNote "").net :=
          onlyGetsOr_single _ _ _ _ (putJsonObject_sent api net _ _ _ _)
            (carriesName_of_body _ _ _ "note" _ (by decide) hn hb)
        cases hcr : (api.updateLocation net (w.selectedId topRow)
            (editLocationDialog "Редактировать локацию" name second exec).ioName
            (editLocationDialog "Редактировать локацию" name second exec).ioNote "").ret
        · simpa [h1, h0, hr, hcr] using hc
        · simp only [h1, h0, hr, hcr, Bool.not_true, Bool.false_eq_true, if_false]
          exact onlyGetsOr_trans _ _ _ _ hc
            (onlyGetsOr_of_onlyGets _ _ _ (locationsReload_onlyGets _ _ _))
  · simpa [h1] using onlyGetsOr_refl carriesName net

/-- C29. `editVendorDialog` and `editLocationDialog` return true only if the
dialog was accepted; the name and the second field handed back are then the
trimmed texts, and the name is not empty and not made of white space only.
Every POST or PUT that the add and edit slots of the vendors dialog and of the
locations dialog issue (createVendor, updateVendor, createLocation,
updateLocation) carries such a name. -/
theorem editors_require_name (title ioName ioSecond : String)
    (exec : String → String → DialogCode × String × String)
    (wv : VendorsDialog) (wl : LocationsDialog) (api : ApiClient) (net : Network)
    (topRow : Option Nat) :
    ((editVendorDialog title ioName ioSecond exec).ret = true →
      (exec ioName ioSecond).1 = DialogCode.Accepted
      ∧ (editVendorDialog title ioName ioSecond exec).ioName = trimmed (exec ioName ioSecond).2.1
      ∧ (editVendorDialog title ioName ioSecond exec).ioCountry = trimmed (exec ioName ioSecond).2.2
      ∧ (editVendorDialog title ioName ioSecond exec).ioName ≠ ""
      ∧ (editVendorDialog title ioName ioSecond exec).ioName.toList.all isSpace = false)
    ∧ ((editLocationDialog title ioName ioSecond exec).ret = true →
      (exec ioName ioSecond).1 = DialogCode.Accepted
      ∧ (editLocationDialog title ioName ioSecond exec).ioName = trimmed (exec ioName ioSecond).2.1
      ∧ (editLocationDialog title ioName ioSecond exec).ioNote = trimmed (exec ioName ioSecond).2.2
      ∧ (editLocationDialog title ioName ioSecond exec).ioName ≠ ""
      ∧ (editLocationDialog title ioName ioSecond exec).ioName.toList.all isSpace = false)
    ∧ (∀ s ∈ (wv.addVendor api net exec).2.2.sent.drop net.sent.length,
        (s.verb = "POST" ∨ s.verb = "PUT") →
        ∃ (body : QJsonObject) (n : String), s.body = some body
          ∧ body.value "name" = QJsonValue.string n ∧ n ≠ ""
          ∧ n.toList.all isSpace = false)
    ∧ (∀ s ∈ (wv.editVendor api net topRow exec).2.2.sent.drop net.sent.length,
        (s.verb = "POST" ∨ s.verb = "PUT") →
        ∃ (body : QJsonObject) (n : String), s.body = some body
          ∧ body.value "name" = QJsonValue.string n ∧ n ≠ ""
          ∧ n.toList.all isSpace = false)
    ∧ (∀ s ∈ (wl.addLocation api net exec).2.2.sent.drop net.sent.length,
        (s.verb = "POST" ∨ s.verb = "PUT") →
        ∃ (body : QJsonObject) (n : String), s.body = some body
          ∧ body.value "name" = QJsonValue.string n ∧ n ≠ ""
          ∧ n.toList.all isSpace = false)
    ∧ (∀ s ∈ (wl.editLocation api net topRow exec).2.2.sent.drop net.sent.length,
        (s.verb = "POST" ∨ s.verb = "PUT") →
        ∃ (body : QJsonObject) (n : String), s.body = some body
          ∧ body.value "name" = QJsonValue.string n ∧ n ≠ ""
          ∧ n.toList.all isSpace = false) :=
  ⟨editVendorDialog_true title ioName ioSecond exec,
   editLocationDialog_true title ioName ioSecond exec,
   onlyGetsOr_drop carriesName _ _ (addVendor_named wv api net exec),
   onlyGetsOr_drop carriesName _ _ (editVendor_named wv api net topRow exec),
   onlyGetsOr_drop carriesName _ _ (addLocation_named wl api net exec),
   onlyGetsOr_drop carriesName _ _ (editLocation_named wl api net topRow exec)⟩

/-- C29 (witness): "  Acme " is handed back as "Acme" and sent by addVendor;
a name of three spaces is refused and nothing is sent. -/
theorem editors_require_name_witness :
    (editVendorDialog "Добавить производителя" "" "" acmeEntry).ioName = "Acme"
    ∧ (editVendorDialog "Добавить производителя" "" "" blankEntry).ret = false
    ∧ (sampleVendorsDialog.addVendor sampleClient emptyBodyServer acmeEntry).2.2.sent.map
        (fun s => (s.verb, s.body.map (fun b => (b.value "name").toString "")))
        = [("POST", some "Acme")]
    ∧ requestLines (sampleVendorsDialog.addVendor sampleClient emptyBodyServer
        blankEntry).2.2.sent = [] :=
  ⟨((editors_require_name "Добавить производителя" "" "" acmeEntry sampleVendorsDialog
      { apiClient_ := true, locations_ := [], table_ := some [], boxes := [] }
      sampleClient emptyBodyServer none).1 (by decide)).2.1.trans (by decide),
   by decide, by decide, by decide⟩

end TelecomBase
